import Mathlib

/-!
# bless: `modeFolder` (handleFolder.c)

A shallow embedding of `extractMountPoint`, `modeFolder` and `isOFLabel` from
`src/handleFolder.c`.

`modeFolder` is straight-line code (no loop) around calls to library and system
collaborators.  The embedding keeps the control flow of the source and replaces every
collaborator by its answer, taken from a `World` record.  Each collaborator call that the source
issues is appended to a trace, in program order, so that statements of the form "this call is
(not) issued" and "this call receives these arguments" are statements about the trace.

Since no call site of `modeFolder` is executed twice in one run, a collaborator that is called
at several places and whose answer may change in between (`lstat`, `BLLoadFile`, `blsustatfs`)
takes the source line of the call site as first argument.

`blesscontextprintf` (logging) and `CFRelease` are not modelled.
-/

namespace Bless

/-! ## Data -/

/-- Contents of a `CFDataRef`: a sequence of bytes (each below 256). -/
abbrev Bytes := List Nat

/-- A C string (a `char` array up to its terminating NUL). It is represented by the `String`
that has one character per byte of the C string: byte `b` is the character with code `b`, so an
ASCII text is the `String` of the same text and a UTF-8 encoded character takes as many
characters as it has bytes. Lengths, offsets and truncations of C strings (`strlen`, pointer
arithmetic, the size given to `snprintf`) therefore count characters of the `String`. The
collaborators receive and return C strings in this representation. -/
abbrev CString := String

/-- The `struct clarg` of one command-line option: the fields `modeFolder` reads. -/
structure clarg where
  present : Bool
  hasArg : Bool
  argument : CString
deriving DecidableEq

/-- The slots of `actargs[klast]` that `modeFolder` reads or writes. -/
structure Args where
  kmount : clarg
  kfolder : clarg
  kfile : clarg
  kbootefi : clarg
  ksetboot : clarg
  kapfsdriver : clarg
  knoapfsdriver : clarg
  klabel : clarg
  klabelfile : clarg
  kpersonalize : clarg
  kallowui : clarg
  klegacy : clarg
  klegacydrivehint : clarg
  knextonly : clarg
  koptions : clarg
  kshortform : clarg
deriving DecidableEq

/-- The firmware styles `modeFolder` tells apart (`getPrebootType`). The enumeration is declared
in a header outside `src/`; every value other than the two named in `modeFolder` is `other`. -/
inductive BLPreBootEnvType
  | kBLPreBootEnvType_OpenFirmware
  | kBLPreBootEnvType_EFI
  | other
deriving DecidableEq

/-- Modelled from the spec: the APFS volume roles (`APFS_VOL_ROLE_*` of the header `APFS/APFS.h`,
which is outside `src/`); the spec lists none, preboot, recovery, data and other. -/
inductive VolRole
  | APFS_VOL_ROLE_NONE
  | APFS_VOL_ROLE_PREBOOT
  | APFS_VOL_ROLE_RECOVERY
  | APFS_VOL_ROLE_DATA
  | other
deriving DecidableEq

/-- The fields of `struct statfs` that `modeFolder` reads. -/
structure statfs where
  f_flags : Nat
  f_owner : Nat
  f_fssubtype : Nat
  f_mntfromname : CString
  f_mntonname : CString
deriving DecidableEq

/-- The fields of `BLVersionRec` that `modeFolder` reads. -/
structure BLVersionRec where
  major : Int
  minor : Int
deriving DecidableEq

/-- Label bitmap scales. -/
inductive BitmapScale
  | kBitmapScale_1x
  | kBitmapScale_2x
deriving DecidableEq

/-- Preallocation policy passed to `BLCreateFileWithOptions`. -/
inductive Preallocate
  | kTryPreallocate
  | kMustPreallocate
deriving DecidableEq

/-- The mount flag `MNT_RDONLY` of `sys/mount.h`. -/
def MNT_RDONLY : Nat := 1

/-- The errno value `ENOENT`. -/
def ENOENT : Int := 2

/-- Constants and collaborator answers for one run of `modeFolder`.

Conventions: a collaborator that returns a status and fills an output buffer is `Option`-valued
when the source uses the buffer only after a zero status (`none` is a non-zero status, the buffer
is left as it was); otherwise it returns the status together with the buffer. -/
structure World where
  /-- Size of `clarg.argument` (header outside `src/`). -/
  kMaxArgLength : Nat
  /-- The constant `MAXPATHLEN` of `sys/param.h`. -/
  MAXPATHLEN : Nat
  /-- Loader paths below the mount point (header outside `src/`). -/
  kBL_PATH_I386_BOOTDEV_EFI : CString
  kBL_PATH_I386_BOOT_EFI : CString
  kBL_PATH_I386_APFS_EFI : CString
  getPrebootType : BLPreBootEnvType
  geteuid : Nat
  /-- Status and the mount point written to the output buffer. -/
  BLGetCommonMountPoint : CString → Int × CString
  BLIsMountHFS : CString → Int × Bool
  BLIsMountAPFS : CString → Int × Bool
  BLIsMountAPFSDataRolePreSSVToSSV : CString → Int × Bool
  /-- Argument one is the source line of the call (157 or 594). -/
  blsustatfs : Nat → CString → Int × statfs
  APFSVolumeRole : CString → Int × VolRole
  BLIsVolumeARV : CString → CString → Int × Bool
  /-- The version record after the call (the source ignores the status). -/
  BLGetOSVersion : CString → BLVersionRec
  access : CString → Int
  /-- Argument one is the source line of the call (200, 215, 258, 263 or 288);
  `none` is a failed load, `some` the loaded data with status 0. -/
  BLLoadFile : Nat → CString → Option Bytes
  /-- Argument one is the source line of the call (212, 364, 385, 484 or 505);
  `none` is a failed `lstat`, `some b` a successful one with `b = S_ISREG(st_mode)`. -/
  lstat : Nat → CString → Option Bool
  BLCreateFileWithOptions : Bytes → CString → Preallocate → Int
  CopyManifests : CString → CString → CString → Int
  /-- The `unit` that `sscanf(dev, "disk%d", &unit)` leaves. -/
  sscanf_disk : CString → Int
  APFSContainerEFIEmbed : CString → Bytes → Nat → Int
  BLGenerateLabelData : CString → BitmapScale → Option Bytes
  WriteLabelFile : CString → Bytes → Bool → BitmapScale → Int
  BLGetVolumeFinderInfo : CString → Option (Fin 8 → Nat)
  /-- On failure (`none`) the output word is left as it was. -/
  BLGetFileID : CString → Option Nat
  BLLookupFileIDOnMount : CString → Nat → Option CString
  BLSetVolumeFinderInfo : CString → (Fin 8 → Nat) → Int
  /-- Status, and the words stored in the buffer if the call stored any. -/
  BLGetAPFSBlessData : CString → Int × Option (Fin 2 → Nat)
  /-- On failure (`none`) the output word is left as it was. -/
  BLGetAPFSInodeNum : CString → Option Nat
  BLLookupFileIDOnMount64 : CString → Nat → Nat → Option CString
  BLSetAPFSBlessData : CString → (Fin 2 → Nat) → Int
  BlessPrebootVolume : CString → Option CString → Option Bytes → Option Bytes → Args → Int
  PersonalizeOSVolume : CString → Bool → Int
  setefilegacypath : CString → Bool → Option CString → Option CString → Int
  setefifilepath : CString → Bool → Option CString → Bool → Int
  setboot : CString → Option Bytes → Int

/-- One collaborator call issued by `modeFolder`, with the arguments the claims refer to. For a
collaborator with a source-line argument in `World`, `line` is the line of the call site. -/
inductive Call
  | BLGetCommonMountPoint (path : CString)
  | BLIsMountHFS (mnt : CString)
  | BLIsMountAPFS (mnt : CString)
  | BLIsMountAPFSDataRolePreSSVToSSV (mnt : CString)
  | blsustatfs (line : Nat) (mnt : CString)
  | APFSVolumeRole (dev : CString)
  | BLIsVolumeARV (mnt dev : CString)
  | BLGetOSVersion (mnt : CString)
  | access (path : CString)
  | BLLoadFile (line : Nat) (path : CString)
  | lstat (line : Nat) (path : CString)
  | BLCreateFileWithOptions (data : Bytes) (path : CString) (pre : Preallocate)
  | CopyManifests (dst src : CString)
  | APFSContainerEFIEmbed (disk : CString) (data : Bytes) (len : Nat)
  | BLGenerateLabelData (label : CString) (scale : BitmapScale)
  | WriteLabelFile (path : CString) (data : Bytes) (classic : Bool) (scale : BitmapScale)
  | BLGetVolumeFinderInfo (mnt : CString)
  | BLGetFileID (path : CString)
  | BLLookupFileIDOnMount (mnt : CString) (id : Nat)
  | BLSetVolumeFinderInfo (mnt : CString) (words : Fin 8 → Nat)
  | BLGetAPFSBlessData (mnt : CString)
  | BLGetAPFSInodeNum (path : CString)
  | BLLookupFileIDOnMount64 (mnt : CString) (id : Nat)
  | BLSetAPFSBlessData (mnt : CString) (words : Fin 2 → Nat)
  | BlessPrebootVolume (dev : CString) (bootEFISource : Option CString)
      (labeldata labeldata2 : Option Bytes)
  | PersonalizeOSVolume (mnt : CString) (suppressUI : Bool)
  | setefilegacypath (mnt : CString) (nextonly : Bool) (hint options : Option CString)
  | setefifilepath (path : CString) (nextonly : Bool) (options : Option CString) (shortform : Bool)
  | setboot (dev : CString) (labeldata : Option Bytes)

/-! ## Runs: a trace of calls and either an early `return n` or a value -/

/-- A piece of a run: the calls issued, and either the status of a `return` statement that was
reached (`Except.error`) or the value with which the run goes on (`Except.ok`). -/
structure Step (α : Type) where
  trace : List Call
  res : Except Int α

/-- Going on with a value, no call issued. -/
def Step.pure {α : Type} (a : α) : Step α := ⟨[], Except.ok a⟩

/-- Sequencing: the second piece runs only if the first did not return. -/
def Step.bind {α β : Type} (s : Step α) (f : α → Step β) : Step β :=
  match s.res with
  | Except.error e => ⟨s.trace, Except.error e⟩
  | Except.ok a => ⟨s.trace ++ (f a).trace, (f a).res⟩

instance : Monad Step where
  pure := Step.pure
  bind := Step.bind

/-- Issue one collaborator call. -/
def call (c : Call) : Step Unit := ⟨[c], Except.ok ()⟩

/-- The C statement `return n;`. -/
def exitWith {α : Type} (n : Int) : Step α := ⟨[], Except.error n⟩

/-- The C idiom `if (ret) return n;` after a call that either fails or stores a value. -/
def orReturn {α : Type} (o : Option α) (n : Int) : Step α :=
  match o with
  | none => exitWith n
  | some a => pure a

/-- The value `modeFolder` returns: the status of the `return` reached, or the final
`return 0`. -/
def Step.status (s : Step Unit) : Int :=
  match s.res with
  | Except.error e => e
  | Except.ok _ => 0

/-! ## C helpers -/

/-- The C string `snprintf(buf, size, ...)` leaves in `buf`, where `s` is the formatted text:
the first `size - 1` bytes of it, followed by the NUL. In the representation `CString` a byte
is a character, so these are the first `size - 1` characters. -/
def snprintf (size : Nat) (s : CString) : CString := String.mk (s.data.take (size - 1))

/-- Pointer arithmetic `s + n` on a C string: the string without its first `n` bytes. -/
def strskip (s : CString) (n : Nat) : CString := String.mk (s.data.drop n)

/-- The function `strlen`: the number of bytes before the NUL. -/
def strlen (s : CString) : Nat := s.data.length

/-- The device path prefix `_PATH_DEV` of `paths.h`. -/
def _PATH_DEV : CString := "/dev/"

/-- Conversion to a 32-bit `int` (two's complement wrap-around). -/
def toInt32 (x : Int) : Int := (x + 2147483648) % 4294967296 - 2147483648

/-- The source function `isOFLabel` (lines 616-629). `data[i]` beyond the buffer reads as 0 here.
`width` and `height` are `uint16_t`; `width*height+5` is computed in `int`. -/
def isOFLabel (data : Bytes) (labelsize : Int) : Int :=
  if data.getD 0 0 ≠ 1 then 0
  else
    let width : Nat := 256 * data.getD 1 0 + data.getD 2 0
    let height : Nat := 256 * data.getD 3 0 + data.getD 4 0
    if labelsize ≠ toInt32 ((width : Int) * (height : Int) + 5) then 0
    else 1

/-! ## `extractMountPoint` and `modeFolder` -/

/-- The source function `extractMountPoint` (lines 59-88): the status it returns and `actargs`
as it leaves it (`BLGetCommonMountPoint` writes the mount point to `actargs[kmount].argument`). -/
def extractMountPoint (w : World) (actargs : Args) : Step (Int × Args) :=
  if actargs.kmount.present then do
    call (Call.BLGetCommonMountPoint actargs.kmount.argument)
    let r := w.BLGetCommonMountPoint actargs.kmount.argument
    pure (r.1, { actargs with kmount := { actargs.kmount with argument := r.2 } })
  else if actargs.kfolder.present then do
    call (Call.BLGetCommonMountPoint actargs.kfolder.argument)
    let r := w.BLGetCommonMountPoint actargs.kfolder.argument
    if r.1 ≠ 0 then
      pure (1, { actargs with kmount := { actargs.kmount with argument := r.2 } })
    else
      pure (r.1, { actargs with kmount :=
        { actargs.kmount with present := true, argument := r.2 } })
  else
    pure (1, actargs)

/-- Lines 125-137 of `modeFolder`: when blessing and no file is given but a boot.efi is to be
generated, `actargs[kfile]` becomes `<folder>/boot.efi`. -/
def modeFolder_guessFile (w : World) (actargs : Args) : Args :=
  if actargs.kfolder.present then
    if !actargs.kfile.present && actargs.kbootefi.present then
      { actargs with kfile := { actargs.kfile with
          argument := snprintf w.kMaxArgLength (actargs.kfolder.argument ++ "/boot.efi"),
          present := true } }
    else actargs
  else actargs

/-- What the classification probes of lines 139-173 establish. -/
structure Classification where
  isHFS : Bool
  isAPFS : Bool
  isAPFSDataRolePreSSVToSSVThusDontWriteToVol : Bool
  sb : statfs
  role : VolRole
  isARV : Bool

/-- Lines 139-173 of `modeFolder`: the classification probes. -/
def modeFolder_classify (w : World) (actargs : Args) : Step Classification := do
  let mnt := actargs.kmount.argument
  call (Call.BLIsMountHFS mnt)
  let hfs := w.BLIsMountHFS mnt
  if hfs.1 ≠ 0 then exitWith 1
  call (Call.BLIsMountAPFS mnt)
  let apfs := w.BLIsMountAPFS mnt
  if apfs.1 ≠ 0 then exitWith 1
  call (Call.BLIsMountAPFSDataRolePreSSVToSSV mnt)
  let ssv := w.BLIsMountAPFSDataRolePreSSVToSSV mnt
  if ssv.1 ≠ 0 then exitWith 1
  call (Call.blsustatfs 157 mnt)
  let st := w.blsustatfs 157 mnt
  if st.1 ≠ 0 then exitWith 1
  let sb := st.2
  if apfs.2 then do
    call (Call.APFSVolumeRole (strskip sb.f_mntfromname 5))
    let role := w.APFSVolumeRole (strskip sb.f_mntfromname 5)
    if role.1 ≠ 0 then exitWith 2
    call (Call.BLIsVolumeARV sb.f_mntonname (strskip sb.f_mntfromname (strlen _PATH_DEV)))
    let arv := w.BLIsVolumeARV sb.f_mntonname (strskip sb.f_mntfromname (strlen _PATH_DEV))
    if arv.1 ≠ 0 then exitWith 2
    pure ⟨hfs.2, apfs.2, ssv.2, sb, role.2, arv.2⟩
  else
    pure ⟨hfs.2, apfs.2, ssv.2, sb, VolRole.APFS_VOL_ROLE_NONE, false⟩

/-- Lines 177-196 of `modeFolder`: `--bootefi` without an argument; the default source path is
chosen and stored in `actargs[kbootefi].argument`. -/
def modeFolder_defaultBootEFI (w : World) (actargs : Args) : Step Args := do
  let mnt := actargs.kmount.argument
  call (Call.BLGetOSVersion mnt)
  let osVersion := w.BLGetOSVersion mnt
  if osVersion.major < 10 then exitWith 2
  let arg ← (if osVersion.major > 10 ∨ osVersion.minor ≥ 11 then do
      let p := snprintf (w.kMaxArgLength - 1) (mnt ++ w.kBL_PATH_I386_BOOTDEV_EFI)
      call (Call.access p)
      if w.access p ≠ 0 then pure "" else pure p
    else pure "")
  let arg := if arg.data.isEmpty then
      snprintf (w.kMaxArgLength - 1) (mnt ++ w.kBL_PATH_I386_BOOT_EFI)
    else arg
  pure { actargs with kbootefi := { actargs.kbootefi with argument := arg } }

/-- Lines 206-236 of `modeFolder`: the source data is loaded and `actargs[kfile]` is present;
write the destination unless it already holds the same bytes, then copy the manifests. -/
def modeFolder_materialize (w : World) (actargs : Args) (isAPFS : Bool) (bootEFIdata : Bytes) :
    Step Unit := do
  let dst := actargs.kfile.argument
  call (Call.lstat 212 dst)
  -- `ret == 0 && S_ISREG(...)`: load the old file; otherwise `oldEFIdata` stays NULL
  let oldEFIdata ← (if w.lstat 212 dst = some true then do
      call (Call.BLLoadFile 215 dst)
      pure (w.BLLoadFile 215 dst)
    else pure none)
  -- `(ret == 0) && oldEFIdata && CFEqual(oldEFIdata, bootEFIdata)`
  if oldEFIdata = some bootEFIdata then
    pure ()
  else do
    let pre := if isAPFS then Preallocate.kTryPreallocate else Preallocate.kMustPreallocate
    call (Call.BLCreateFileWithOptions bootEFIdata dst pre)
    if w.BLCreateFileWithOptions bootEFIdata dst pre ≠ 0 then exitWith 2
  call (Call.CopyManifests dst actargs.kbootefi.argument)
  if w.CopyManifests dst actargs.kbootefi.argument actargs.kbootefi.argument ≠ 0 then exitWith 3

/-- Lines 200-239 of `modeFolder`: load the source data and, if it is loaded and
`actargs[kfile]` is present, materialize it. -/
def modeFolder_loadBootEFI (w : World) (actargs : Args) (isAPFS : Bool) : Step Unit := do
  call (Call.BLLoadFile 200 actargs.kbootefi.argument)
  match w.BLLoadFile 200 actargs.kbootefi.argument with
  | some bootEFIdata =>
    if actargs.kfile.present then modeFolder_materialize w actargs isAPFS bootEFIdata
    else pure ()
  | none => pure ()

/-- Lines 175-241 of `modeFolder`: boot.efi creation. Returns `actargs` as left. -/
def modeFolder_bootefi (w : World) (actargs : Args) (isAPFS : Bool) (sb : statfs) :
    Step Args :=
  if actargs.kbootefi.present then do
    let actargs ← (if !actargs.kbootefi.hasArg then modeFolder_defaultBootEFI w actargs
      else pure actargs)
    if !isAPFS || (sb.f_flags &&& MNT_RDONLY) == 0 then
      modeFolder_loadBootEFI w actargs isAPFS
    pure actargs
  else
    pure actargs

/-- Lines 266-280 of `modeFolder`: embed the loaded APFS driver in the container. -/
def modeFolder_embed (w : World) (wholeDiskBSD : String) (loaded : Option Bytes) :
    Step Unit := do
  let apfsDriverData ← orReturn loaded 1
  call (Call.APFSContainerEFIEmbed wholeDiskBSD apfsDriverData
    (apfsDriverData.length % 4294967296))
  if w.APFSContainerEFIEmbed wholeDiskBSD apfsDriverData
      (apfsDriverData.length % 4294967296) ≠ 0 then exitWith 1

/-- Lines 243-281 of `modeFolder`: the APFS driver embedding. -/
def modeFolder_apfsdriver (w : World) (actargs : Args) (c : Classification) : Step Unit :=
  if c.isAPFS && !c.isAPFSDataRolePreSSVToSSVThusDontWriteToVol && actargs.ksetboot.present then
    let wholeDiskBSD :=
      snprintf 1024 ("disk" ++ toString (w.sscanf_disk (strskip c.sb.f_mntfromname 5)))
    if !actargs.kapfsdriver.present then
      if !actargs.knoapfsdriver.present then do
        let pathBuf := snprintf w.MAXPATHLEN (actargs.kmount.argument ++ w.kBL_PATH_I386_APFS_EFI)
        call (Call.BLLoadFile 258 pathBuf)
        modeFolder_embed w wholeDiskBSD (w.BLLoadFile 258 pathBuf)
      else pure ()
    else do
      call (Call.BLLoadFile 263 actargs.kapfsdriver.argument)
      modeFolder_embed w wholeDiskBSD (w.BLLoadFile 263 actargs.kapfsdriver.argument)
  else pure ()

/-- Lines 287-307 of `modeFolder`: load or render the label data (`labeldata`, `labeldata2`). -/
def modeFolder_labeldata (w : World) (actargs : Args) : Step (Bytes × Option Bytes) :=
  if actargs.klabelfile.present then do
    call (Call.BLLoadFile 288 actargs.klabelfile.argument)
    let labeldata ← orReturn (w.BLLoadFile 288 actargs.klabelfile.argument) 2
    pure (labeldata, none)
  else do
    call (Call.BLGenerateLabelData actargs.klabel.argument BitmapScale.kBitmapScale_1x)
    let labeldata ←
      orReturn (w.BLGenerateLabelData actargs.klabel.argument BitmapScale.kBitmapScale_1x) 3
    call (Call.BLGenerateLabelData actargs.klabel.argument BitmapScale.kBitmapScale_2x)
    let labeldata2 ←
      orReturn (w.BLGenerateLabelData actargs.klabel.argument BitmapScale.kBitmapScale_2x) 3
    pure (labeldata, some labeldata2)

/-- Lines 284-326 of `modeFolder`: the label step. Returns `labeldata` and `labeldata2`. -/
def modeFolder_label (w : World) (actargs : Args) (c : Classification) :
    Step (Option Bytes × Option Bytes) :=
  if !c.isAPFSDataRolePreSSVToSSVThusDontWriteToVol
      && (actargs.klabel.present || actargs.klabelfile.present) then do
    let l ← modeFolder_labeldata w actargs
    let isLabel := isOFLabel l.1 (toInt32 l.1.length)
    if actargs.kfolder.present && (!c.isAPFS || (c.sb.f_flags &&& MNT_RDONLY) == 0) then do
      let sysfolder := snprintf w.MAXPATHLEN (actargs.kfolder.argument ++ "/.disk_label")
      call (Call.WriteLabelFile sysfolder l.1 (isLabel != 0 && c.isHFS)
        BitmapScale.kBitmapScale_1x)
      if w.WriteLabelFile sysfolder l.1 (isLabel != 0 && c.isHFS)
          BitmapScale.kBitmapScale_1x ≠ 0 then exitWith 1
      match l.2 with
      | some labeldata2 => do
        let sysfolder2 := snprintf w.MAXPATHLEN (actargs.kfolder.argument ++ "/.disk_label_2x")
        call (Call.WriteLabelFile sysfolder2 labeldata2 false BitmapScale.kBitmapScale_2x)
        if w.WriteLabelFile sysfolder2 labeldata2 false BitmapScale.kBitmapScale_2x ≠ 0 then
          exitWith 1
      | none => pure ()
    pure (some l.1, l.2)
  else
    pure (none, none)

/-- Lines 346-354 of `modeFolder`: the directory ID of the folder (`folderXid`, initially 0). -/
def modeFolder_folderXid (w : World) (actargs : Args) : Step Nat :=
  if actargs.kfolder.present then do
    call (Call.BLGetFileID actargs.kfolder.argument)
    pure ((w.BLGetFileID actargs.kfolder.argument).getD 0)
  else pure 0

/-- Lines 356-396 of `modeFolder`: the value of `bootfile` (initially `oldwords[1]`) and
`actargs[kfile]` as left (`BLLookupFileIDOnMount` writes the path to its `argument`), where
`kfile` is `actargs[kfile]` and `mnt` is `actargs[kmount].argument`. -/
def modeFolder_bootfile (w : World) (kfile : clarg) (mnt : String) (bootfile : Nat) :
    Step (Nat × clarg) :=
  if kfile.present then do
    call (Call.BLGetFileID kfile.argument)
    match w.BLGetFileID kfile.argument with
    | none => pure (0, kfile)
    | some id => do
      call (Call.lstat 364 kfile.argument)
      -- `ret || !S_ISREG(checkForFile.st_mode)`
      if w.lstat 364 kfile.argument = some true then pure (id, kfile)
      else pure (0, kfile)
  else
    if bootfile ≠ 0 then do
      call (Call.BLLookupFileIDOnMount mnt bootfile)
      match w.BLLookupFileIDOnMount mnt bootfile with
      | none => pure (0, kfile)
      | some path => do
        let kfile := { kfile with argument := path }
        call (Call.lstat 385 kfile.argument)
        if w.lstat 385 kfile.argument = some true then pure (bootfile, kfile)
        else pure (0, kfile)
    else pure (bootfile, kfile)

/-- Lines 415-429 of `modeFolder`: `oldwords[0]` is zeroed, set to the folder ID, or kept;
`ksetboot` is `actargs[ksetboot]`. -/
def modeFolder_word0 (w : World) (ksetboot : clarg) (sb : statfs) (folderXid : Nat)
    (oldwords : Fin 8 → Nat) : Fin 8 → Nat :=
  if ksetboot.present
      ∧ w.getPrebootType = BLPreBootEnvType.kBLPreBootEnvType_OpenFirmware
      ∧ (sb.f_fssubtype % 4294967296) &&& 4294967294 ≠ 0 then
    Function.update oldwords 0 0
  else if folderXid ≠ 0 then
    Function.update oldwords 0 folderXid
  else oldwords

/-- Lines 330-446 of `modeFolder`: the HFS Finder-info update. Returns `actargs` as left. -/
def modeFolder_blessHFS (w : World) (actargs : Args) (sb : statfs) : Step Args := do
  let mnt := actargs.kmount.argument
  call (Call.BLGetVolumeFinderInfo mnt)
  let oldwords ← orReturn (w.BLGetVolumeFinderInfo mnt) 1
  let folderXid ← modeFolder_folderXid w actargs
  let b ← modeFolder_bootfile w actargs.kfile mnt (oldwords 1)
  let actargs := { actargs with kfile := b.2 }
  let oldwords := Function.update oldwords 1 b.1
  let oldwords := Function.update oldwords 5 folderXid
  let oldwords := modeFolder_word0 w actargs.ksetboot sb folderXid oldwords
  if w.geteuid ≠ 0 ∧ w.geteuid ≠ sb.f_owner then exitWith 1
  call (Call.BLSetVolumeFinderInfo mnt oldwords)
  if w.BLSetVolumeFinderInfo mnt oldwords ≠ 0 then exitWith 2
  pure actargs

/-- Lines 466-474 of `modeFolder`: the inode number of the folder (`folderInum`, initially 0). -/
def modeFolder_folderInum (w : World) (actargs : Args) : Step Nat :=
  if actargs.kfolder.present then do
    call (Call.BLGetAPFSInodeNum actargs.kfolder.argument)
    pure ((w.BLGetAPFSInodeNum actargs.kfolder.argument).getD 0)
  else pure 0

/-- Lines 476-518 of `modeFolder`: the value of `fileInum` (initially 0) and `actargs[kfile]`
as left, where `oldWord0` is `oldWords[0]` as read, `kfile` is `actargs[kfile]` and `mnt` is
`actargs[kmount].argument`. -/
def modeFolder_fileInum (w : World) (kfile : clarg) (mnt : String) (oldWord0 : Nat) :
    Step (Nat × clarg) :=
  if kfile.present then do
    call (Call.BLGetAPFSInodeNum kfile.argument)
    match w.BLGetAPFSInodeNum kfile.argument with
    | none => pure (0, kfile)
    | some inum => do
      call (Call.lstat 484 kfile.argument)
      if w.lstat 484 kfile.argument = some true then pure (inum, kfile)
      else pure (0, kfile)
  else
    if oldWord0 ≠ 0 then do
      call (Call.BLLookupFileIDOnMount64 mnt oldWord0)
      match w.BLLookupFileIDOnMount64 mnt oldWord0 w.kMaxArgLength with
      | none => pure (0, kfile)
      | some path => do
        let kfile := { kfile with argument := path }
        call (Call.lstat 505 kfile.argument)
        if w.lstat 505 kfile.argument = some true then pure (oldWord0, kfile)
        else pure (0, kfile)
    else pure (0, kfile)

/-- Lines 455-535 of `modeFolder`: the APFS bless-data update of a preboot or recovery volume.
Returns `actargs` as left. -/
def modeFolder_blessData (w : World) (actargs : Args) (sb : statfs) : Step Args := do
  let mnt := actargs.kmount.argument
  call (Call.BLGetAPFSBlessData mnt)
  let got := w.BLGetAPFSBlessData mnt
  if got.1 ≠ 0 ∧ got.1 ≠ ENOENT then exitWith 1
  -- `uint64_t oldWords[2] = { 0, 0 }` unless the call stored words
  let oldWords : Fin 2 → Nat := got.2.getD (fun _ => 0)
  let folderInum ← modeFolder_folderInum w actargs
  let f ← modeFolder_fileInum w actargs.kfile mnt (oldWords 0)
  let actargs := { actargs with kfile := f.2 }
  let oldWords := Function.update oldWords 0 f.1
  let oldWords := Function.update oldWords 1 folderInum
  if w.geteuid ≠ 0 ∧ w.geteuid ≠ sb.f_owner then exitWith 1
  call (Call.BLSetAPFSBlessData mnt oldWords)
  if w.BLSetAPFSBlessData mnt oldWords ≠ 0 then exitWith 2
  pure actargs

/-- Lines 447-554 of `modeFolder`: the APFS branch. Returns `useFullPath` and `actargs` as
left. -/
def modeFolder_blessAPFS (w : World) (actargs : Args) (shouldBless : Bool) (c : Classification)
    (labeldata labeldata2 : Option Bytes) : Step (Bool × Args) := do
  let r ← (if shouldBless then
      if c.role = VolRole.APFS_VOL_ROLE_PREBOOT ∨ c.role = VolRole.APFS_VOL_ROLE_RECOVERY then do
        let useFullPath := actargs.kfile.present
        let a ← modeFolder_blessData w actargs c.sb
        pure (useFullPath, a)
      else pure (false, actargs)
    else pure (false, actargs))
  let actargs := r.2
  let bootEFISource : Option String :=
    if actargs.kbootefi.present then
      if !actargs.kbootefi.hasArg then
        some (strskip actargs.kbootefi.argument (strlen actargs.kmount.argument))
      else some actargs.kbootefi.argument
    else none
  call (Call.BlessPrebootVolume (strskip c.sb.f_mntfromname 5) bootEFISource labeldata labeldata2)
  if w.BlessPrebootVolume (strskip c.sb.f_mntfromname 5) bootEFISource labeldata labeldata2
      actargs ≠ 0 then exitWith 2
  pure r

/-- Lines 329-555 of `modeFolder`: the metadata update. Returns `useFullPath` and `actargs` as
left. -/
def modeFolder_bless (w : World) (actargs : Args) (shouldBless : Bool) (c : Classification)
    (labeldata labeldata2 : Option Bytes) : Step (Bool × Args) :=
  if shouldBless || (c.isAPFS && !c.isAPFSDataRolePreSSVToSSVThusDontWriteToVol) then
    if c.isHFS then do
      let a ← modeFolder_blessHFS w actargs c.sb
      pure (false, a)
    else if c.isAPFS then
      modeFolder_blessAPFS w actargs shouldBless c labeldata labeldata2
    else pure (false, actargs)
  else pure (false, actargs)

/-- Lines 557-565 of `modeFolder`: personalization. -/
def modeFolder_personalize (w : World) (actargs : Args) : Step Unit :=
  if actargs.kpersonalize.present then do
    call (Call.PersonalizeOSVolume actargs.kmount.argument (!actargs.kallowui.present))
    let ret := w.PersonalizeOSVolume actargs.kmount.argument (!actargs.kallowui.present)
    if ret ≠ 0 then exitWith ret
  else pure ()

/-- Lines 568-606 of `modeFolder`: the firmware-pointer update. -/
def modeFolder_setboot (w : World) (actargs : Args) (shouldBless isAPFS useFullPath : Bool)
    (labeldata : Option Bytes) : Step Unit :=
  let mnt := actargs.kmount.argument
  let nextonly := actargs.knextonly.present
  let options := if actargs.koptions.present then some actargs.koptions.argument else none
  if actargs.ksetboot.present then
    if w.getPrebootType = BLPreBootEnvType.kBLPreBootEnvType_EFI then
      if actargs.klegacy.present then do
        let hint :=
          if actargs.klegacydrivehint.present then some actargs.klegacydrivehint.argument
          else none
        call (Call.setefilegacypath mnt nextonly hint options)
        if w.setefilegacypath mnt nextonly hint options ≠ 0 then exitWith 3
      else do
        let useFullPath :=
          if !shouldBless && !isAPFS && actargs.kfile.present then true else useFullPath
        let path := if useFullPath then actargs.kfile.argument else mnt
        call (Call.setefifilepath path nextonly options actargs.kshortform.present)
        if w.setefifilepath path nextonly options actargs.kshortform.present ≠ 0 then
          exitWith 3
    else do
      call (Call.blsustatfs 594 mnt)
      let st := w.blsustatfs 594 mnt
      if st.1 ≠ 0 then exitWith 2
      call (Call.setboot st.2.f_mntfromname labeldata)
      if w.setboot st.2.f_mntfromname labeldata ≠ 0 then exitWith 3
  else pure ()

/-- The local variables of `modeFolder` that are live when line 329 is reached. -/
structure Prepared where
  actargs : Args
  shouldBless : Bool
  c : Classification
  labeldata : Option Bytes
  labeldata2 : Option Bytes

/-- Lines 108-326 of `modeFolder`: mount point, classification, boot.efi creation, APFS driver
embedding and label step. -/
def modeFolder_prepare (w : World) (actargs : Args) : Step Prepared := do
  let e ← extractMountPoint w actargs
  if e.1 ≠ 0 then exitWith 1
  let shouldBless := e.2.kfolder.present
  let actargs := modeFolder_guessFile w e.2
  let c ← modeFolder_classify w actargs
  let actargs ← modeFolder_bootefi w actargs c.isAPFS c.sb
  modeFolder_apfsdriver w actargs c
  let l ← modeFolder_label w actargs c
  pure ⟨actargs, shouldBless, c, l.1, l.2⟩

/-- The source function `modeFolder` (lines 90-614). `Step.status` of the result is the value
returned, its trace the collaborator calls issued. -/
def modeFolder (w : World) (actargs : Args) : Step Unit := do
  let p ← modeFolder_prepare w actargs
  let b ← modeFolder_bless w p.actargs p.shouldBless p.c p.labeldata p.labeldata2
  modeFolder_personalize w b.2
  modeFolder_setboot w b.2 p.shouldBless p.c.isAPFS b.1 p.labeldata

/-! ## Classification of calls -/

/-- The blocks of `modeFolder`, in program order. -/
inductive Stage
  | mount
  | classify
  | bootefi
  | apfsdriver
  | label
  | blessHFS
  | blessAPFS
  | personalize
  | setboot
deriving DecidableEq

/-- The block of `modeFolder` that issues a call. -/
def Call.stage : Call → Stage
  | Call.BLGetCommonMountPoint _ => Stage.mount
  | Call.BLIsMountHFS _ => Stage.classify
  | Call.BLIsMountAPFS _ => Stage.classify
  | Call.BLIsMountAPFSDataRolePreSSVToSSV _ => Stage.classify
  | Call.blsustatfs line _ => if line = 157 then Stage.classify else Stage.setboot
  | Call.APFSVolumeRole _ => Stage.classify
  | Call.BLIsVolumeARV _ _ => Stage.classify
  | Call.BLGetOSVersion _ => Stage.bootefi
  | Call.access _ => Stage.bootefi
  | Call.BLLoadFile line _ =>
    if line = 200 ∨ line = 215 then Stage.bootefi
    else if line = 258 ∨ line = 263 then Stage.apfsdriver
    else Stage.label
  | Call.lstat line _ =>
    if line = 212 then Stage.bootefi
    else if line = 364 ∨ line = 385 then Stage.blessHFS
    else Stage.blessAPFS
  | Call.BLCreateFileWithOptions _ _ _ => Stage.bootefi
  | Call.CopyManifests _ _ => Stage.bootefi
  | Call.APFSContainerEFIEmbed _ _ _ => Stage.apfsdriver
  | Call.BLGenerateLabelData _ _ => Stage.label
  | Call.WriteLabelFile _ _ _ _ => Stage.label
  | Call.BLGetVolumeFinderInfo _ => Stage.blessHFS
  | Call.BLGetFileID _ => Stage.blessHFS
  | Call.BLLookupFileIDOnMount _ _ => Stage.blessHFS
  | Call.BLSetVolumeFinderInfo _ _ => Stage.blessHFS
  | Call.BLGetAPFSBlessData _ => Stage.blessAPFS
  | Call.BLGetAPFSInodeNum _ => Stage.blessAPFS
  | Call.BLLookupFileIDOnMount64 _ _ => Stage.blessAPFS
  | Call.BLSetAPFSBlessData _ _ => Stage.blessAPFS
  | Call.BlessPrebootVolume _ _ _ _ => Stage.blessAPFS
  | Call.PersonalizeOSVolume _ _ => Stage.personalize
  | Call.setefilegacypath _ _ _ _ => Stage.setboot
  | Call.setefifilepath _ _ _ _ => Stage.setboot
  | Call.setboot _ _ => Stage.setboot

/-- A label file is written. -/
def Call.isLabelWrite : Call → Bool
  | Call.WriteLabelFile _ _ _ _ => true
  | _ => false

/-- A metadata record is written: the HFS Finder info, the APFS bless data, or the blessing of
the APFS preboot volume. -/
def Call.isMetadataWrite : Call → Bool
  | Call.BLSetVolumeFinderInfo _ _ => true
  | Call.BLSetAPFSBlessData _ _ => true
  | Call.BlessPrebootVolume _ _ _ _ => true
  | _ => false

/-- The HFS Finder info is written. -/
def Call.isFinderInfoWrite : Call → Bool
  | Call.BLSetVolumeFinderInfo _ _ => true
  | _ => false

/-- The APFS bless data is written. -/
def Call.isBlessDataWrite : Call → Bool
  | Call.BLSetAPFSBlessData _ _ => true
  | _ => false

/-- The firmware boot pointer is written. -/
def Call.isPointerUpdate : Call → Bool
  | Call.setefilegacypath _ _ _ _ => true
  | Call.setefifilepath _ _ _ _ => true
  | Call.setboot _ _ => true
  | _ => false

/-- The boot-loader file is created or written. -/
def Call.isCreateFile : Call → Bool
  | Call.BLCreateFileWithOptions _ _ _ => true
  | _ => false

/-- The effects of `modeFolder` downstream of the classification: boot-loader file write and
manifest copy, driver embedding, label write, metadata write, personalization, firmware-pointer
update. -/
def Call.isEffect : Call → Bool
  | Call.BLCreateFileWithOptions _ _ _ => true
  | Call.CopyManifests _ _ => true
  | Call.APFSContainerEFIEmbed _ _ _ => true
  | Call.PersonalizeOSVolume _ _ => true
  | c => c.isLabelWrite || c.isMetadataWrite || c.isPointerUpdate

/-- Every call of the trace satisfies `P`. -/
def Step.Forall {α : Type} (P : Call → Prop) (s : Step α) : Prop := ∀ c ∈ s.trace, P c

/-- The local variables at line 329 in terms of the arguments and of the probes' answers. -/
structure PreparedOk (w : World) (a : Args) (p : Prepared) : Prop where
  shouldBless : p.shouldBless = a.kfolder.present
  kfolder : p.actargs.kfolder = a.kfolder
  kfile : p.actargs.kfile = (modeFolder_guessFile w a).kfile
  kbootefi_present : p.actargs.kbootefi.present = a.kbootefi.present
  kbootefi_hasArg : p.actargs.kbootefi.hasArg = a.kbootefi.hasArg
  ksetboot : p.actargs.ksetboot = a.ksetboot
  kpersonalize : p.actargs.kpersonalize = a.kpersonalize
  kallowui : p.actargs.kallowui = a.kallowui
  klegacy : p.actargs.klegacy = a.klegacy
  klegacydrivehint : p.actargs.klegacydrivehint = a.klegacydrivehint
  knextonly : p.actargs.knextonly = a.knextonly
  koptions : p.actargs.koptions = a.koptions
  kshortform : p.actargs.kshortform = a.kshortform
  isHFS : p.c.isHFS = (w.BLIsMountHFS p.actargs.kmount.argument).2
  isAPFS : p.c.isAPFS = (w.BLIsMountAPFS p.actargs.kmount.argument).2
  dontWrite : p.c.isAPFSDataRolePreSSVToSSVThusDontWriteToVol
    = (w.BLIsMountAPFSDataRolePreSSVToSSV p.actargs.kmount.argument).2
  sb : p.c.sb = (w.blsustatfs 157 p.actargs.kmount.argument).2
  role : p.c.isAPFS = true → p.c.role = (w.APFSVolumeRole (strskip p.c.sb.f_mntfromname 5)).2

/-! ## Concrete worlds and arguments -/

def blankArg : clarg := ⟨false, false, ""⟩

def blankArgs : Args :=
  ⟨blankArg, blankArg, blankArg, blankArg, blankArg, blankArg, blankArg, blankArg, blankArg,
   blankArg, blankArg, blankArg, blankArg, blankArg, blankArg, blankArg⟩

/-- A world in which every collaborator succeeds: an HFS+ volume mounted at `/Volumes/X` from
`/dev/disk1s2`, owned by uid 501, EFI firmware, caller is root, empty Finder info. -/
def quietWorld : World where
  kMaxArgLength := 2048
  MAXPATHLEN := 1024
  kBL_PATH_I386_BOOTDEV_EFI := "/usr/standalone/i386/bootdev.efi"
  kBL_PATH_I386_BOOT_EFI := "/usr/standalone/i386/boot.efi"
  kBL_PATH_I386_APFS_EFI := "/usr/standalone/i386/apfs.efi"
  getPrebootType := BLPreBootEnvType.kBLPreBootEnvType_EFI
  geteuid := 0
  BLGetCommonMountPoint := fun _ => (0, "/Volumes/X")
  BLIsMountHFS := fun _ => (0, true)
  BLIsMountAPFS := fun _ => (0, false)
  BLIsMountAPFSDataRolePreSSVToSSV := fun _ => (0, false)
  blsustatfs := fun _ _ => (0, ⟨0, 501, 1, "/dev/disk1s2", "/Volumes/X"⟩)
  APFSVolumeRole := fun _ => (0, VolRole.APFS_VOL_ROLE_NONE)
  BLIsVolumeARV := fun _ _ => (0, false)
  BLGetOSVersion := fun _ => ⟨10, 15⟩
  access := fun _ => 0
  BLLoadFile := fun _ _ => some [1, 2, 3]
  lstat := fun _ _ => some true
  BLCreateFileWithOptions := fun _ _ _ => 0
  CopyManifests := fun _ _ _ => 0
  sscanf_disk := fun _ => 1
  APFSContainerEFIEmbed := fun _ _ _ => 0
  BLGenerateLabelData := fun _ _ => some [1, 0, 1, 0, 1, 7]
  WriteLabelFile := fun _ _ _ _ => 0
  BLGetVolumeFinderInfo := fun _ => some (fun _ => 0)
  BLGetFileID := fun _ => some 42
  BLLookupFileIDOnMount := fun _ _ => some "/Volumes/X/System/boot.efi"
  BLSetVolumeFinderInfo := fun _ _ => 0
  BLGetAPFSBlessData := fun _ => (0, some (fun _ => 0))
  BLGetAPFSInodeNum := fun _ => some 42
  BLLookupFileIDOnMount64 := fun _ _ _ => some "/Volumes/X/System/boot.efi"
  BLSetAPFSBlessData := fun _ _ => 0
  BlessPrebootVolume := fun _ _ _ _ _ => 0
  PersonalizeOSVolume := fun _ _ => 0
  setefilegacypath := fun _ _ _ _ => 0
  setefifilepath := fun _ _ _ _ => 0
  setboot := fun _ _ => 0

/-- An APFS data volume in the pre-SSV-to-SSV state. -/
def preSSVWorld : World :=
  { quietWorld with
    BLIsMountHFS := fun _ => (0, false)
    BLIsMountAPFS := fun _ => (0, true)
    BLIsMountAPFSDataRolePreSSVToSSV := fun _ => (0, true)
    APFSVolumeRole := fun _ => (0, VolRole.APFS_VOL_ROLE_DATA) }

/-- The arguments `--folder /Volumes/X/System`. -/
def folderArgs : Args := { blankArgs with kfolder := ⟨true, true, "/Volumes/X/System"⟩ }

/-- The arguments `--mount /Volumes/X --setBoot`. -/
def mountArgs : Args :=
  { blankArgs with kmount := ⟨true, true, "/Volumes/X"⟩, ksetboot := ⟨true, false, ""⟩ }

/-- The world `quietWorld` with the caller being the owner of the volume (uid 501). -/
def ownerWorld : World := { quietWorld with geteuid := 501 }

/-- The Finder info written by `modeFolder ownerWorld folderArgs`. -/
def blessedWords : Fin 8 → Nat :=
  Function.update (Function.update (Function.update (fun _ => 0) 1 0) 5 42) 0 42

/-- The value of `actargs[kfile]` when the metadata update runs: the `--file` argument, or else,
with `--folder` and `--bootefi`, the path `<folder>/boot.efi` filled in at lines 130-136. -/
def fileArg (w : World) (a : Args) : clarg := (modeFolder_guessFile w a).kfile

/-- The scenario of a plain bless of a legacy volume mounted at `m`: a folder is given, no file,
no boot.efi creation, no label, no personalization; the probes succeed and report HFS; the
caller owns the volume; the firmware style is EFI; the Finder info read has word 1 equal to 0;
the folder resolves to the non-zero ID `fid`; the Finder-info write and the firmware-pointer
writes succeed. -/
structure LegacyBlessScenario (w : World) (a : Args) (m : String) (oldwords : Fin 8 → Nat)
    (fid : Nat) : Prop where
  folder : a.kfolder.present = true
  noFile : a.kfile.present = false
  noBootEFI : a.kbootefi.present = false
  noLabel : a.klabel.present = false
  noLabelFile : a.klabelfile.present = false
  noPersonalize : a.kpersonalize.present = false
  mount : w.BLGetCommonMountPoint
    (if a.kmount.present then a.kmount.argument else a.kfolder.argument) = (0, m)
  isHFS : w.BLIsMountHFS m = (0, true)
  notAPFS : w.BLIsMountAPFS m = (0, false)
  ssvProbe : (w.BLIsMountAPFSDataRolePreSSVToSSV m).1 = 0
  statfsOk : (w.blsustatfs 157 m).1 = 0
  owner : w.geteuid = (w.blsustatfs 157 m).2.f_owner
  efi : w.getPrebootType = BLPreBootEnvType.kBLPreBootEnvType_EFI
  read : w.BLGetVolumeFinderInfo m = some oldwords
  noBootFile : oldwords 1 = 0
  folderID : w.BLGetFileID a.kfolder.argument = some fid
  folderID_ne : fid ≠ 0
  writeOk : ∀ words, w.BLSetVolumeFinderInfo m words = 0
  pointerOk : ∀ p n o s, w.setefifilepath p n o s = 0
  legacyPointerOk : ∀ p n h o, w.setefilegacypath p n h o = 0

/-- The arguments `--folder /Volumes/X/System --file /Volumes/X/System/boot.efi`. -/
def fileArgs : Args :=
  { blankArgs with
    kfolder := ⟨true, true, "/Volumes/X/System"⟩
    kfile := ⟨true, true, "/Volumes/X/System/boot.efi"⟩ }

/-- The Finder info written by `modeFolder ownerWorld fileArgs`. -/
def blessedFileWords : Fin 8 → Nat :=
  Function.update (Function.update (Function.update (fun _ => 0) 1 42) 5 42) 0 42

/-- An APFS preboot volume mounted at `/Volumes/X`, everything else as in `quietWorld`. -/
def prebootWorld : World :=
  { quietWorld with
    BLIsMountHFS := fun _ => (0, false)
    BLIsMountAPFS := fun _ => (0, true)
    APFSVolumeRole := fun _ => (0, VolRole.APFS_VOL_ROLE_PREBOOT) }

/-- The bless data written by `modeFolder prebootWorld fileArgs`. -/
def blessedFileData : Fin 2 → Nat :=
  Function.update (Function.update (fun _ => 0) 0 42) 1 42

/-- The world `ownerWorld` with a volume whose Finder info records boot file 77. -/
def keepWorld : World :=
  { ownerWorld with BLGetVolumeFinderInfo := fun _ => some (fun i => if i = 1 then 77 else 0) }

/-- The Finder info written by `modeFolder keepWorld folderArgs`. -/
def keptWords : Fin 8 → Nat :=
  Function.update (Function.update
    (Function.update (fun i => if i = 1 then 77 else 0) 1 77) 5 42) 0 42

/-- The world `prebootWorld` with bless data recording boot file 77. -/
def keepPrebootWorld : World :=
  { prebootWorld with BLGetAPFSBlessData := fun _ => (0, some (fun i => if i = 0 then 77 else 0)) }

/-- The bless data written by `modeFolder keepPrebootWorld folderArgs`. -/
def keptData : Fin 2 → Nat :=
  Function.update (Function.update (fun i => if i = 0 then 77 else 0) 0 77) 1 42

/-- The world `quietWorld` with a caller (uid 502) that is neither root nor the owner. -/
def strangerWorld : World := { quietWorld with geteuid := 502 }

/-- The world `prebootWorld` with a caller (uid 502) that is neither root nor the owner. -/
def strangerPrebootWorld : World := { prebootWorld with geteuid := 502 }

/-- The arguments `--folder /Volumes/X/System --setBoot`. -/
def folderSetBootArgs : Args :=
  { blankArgs with
    kfolder := ⟨true, true, "/Volumes/X/System"⟩
    ksetboot := ⟨true, false, ""⟩ }

/-- The number of `BLCreateFileWithOptions` calls of a run. -/
def Step.creates {α : Type} (s : Step α) : Nat := s.trace.countP Call.isCreateFile

/-- A call of the materializer that is counted or looked for: the file creation or the manifest
copy. -/
def Call.isMaterialize : Call → Bool
  | Call.BLCreateFileWithOptions _ _ _ => true
  | Call.CopyManifests _ _ => true
  | _ => false

/-- The world `quietWorld` in which the boot.efi destination does not exist and cannot be
created. -/
def failCreateWorld : World :=
  { quietWorld with
    lstat := fun _ _ => none
    BLCreateFileWithOptions := fun _ _ _ => 1 }

/-- The arguments `--folder /Volumes/X/System --bootefi /src/boot.efi`. -/
def bootefiArgs : Args :=
  { blankArgs with
    kfolder := ⟨true, true, "/Volumes/X/System"⟩
    kbootefi := ⟨true, true, "/src/boot.efi"⟩ }

/-- The mount point that `extractMountPoint` leaves in `actargs[kmount].argument`. -/
def mountPoint (w : World) (a : Args) : String :=
  (w.BLGetCommonMountPoint
    (if a.kmount.present then a.kmount.argument else a.kfolder.argument)).2

/-- The arguments `--folder /Volumes/X/System --file /Volumes/X/System/boot.efi --setBoot`. -/
def fileSetBootArgs : Args := { fileArgs with ksetboot := ⟨true, false, ""⟩ }

/-- The world after `BLSetVolumeFinderInfo m words` has succeeded: the volume mounted at `m`
holds the Finder info `words`; every other answer is unchanged. -/
def World.withFinderInfo (w : World) (m : String) (words : Fin 8 → Nat) : World :=
  { w with
    BLGetVolumeFinderInfo := fun x => if x = m then some words else w.BLGetVolumeFinderInfo x }

/-- The world after `BLSetAPFSBlessData m words` has succeeded: the volume mounted at `m` holds
the bless data `words`; every other answer is unchanged. -/
def World.withBlessData (w : World) (m : String) (words : Fin 2 → Nat) : World :=
  { w with
    BLGetAPFSBlessData := fun x => if x = m then (0, some words) else w.BLGetAPFSBlessData x }

/-- A world in which the statfs of line 157 fails. -/
def noStatfsWorld : World :=
  { quietWorld with blsustatfs := fun _ _ => (1, ⟨0, 0, 0, "", ""⟩) }

/-- An APFS volume whose role cannot be read. -/
def noRoleWorld : World :=
  { prebootWorld with APFSVolumeRole := fun _ => (1, VolRole.APFS_VOL_ROLE_NONE) }

/-- The arguments `--folder /Volumes/X/System --bootefi /src/boot.efi --label X --personalize
--setBoot`: every downstream block is requested. -/
def everythingArgs : Args :=
  { blankArgs with
    kfolder := ⟨true, true, "/Volumes/X/System"⟩
    kbootefi := ⟨true, true, "/src/boot.efi"⟩
    klabel := ⟨true, true, "X"⟩
    kpersonalize := ⟨true, false, ""⟩
    ksetboot := ⟨true, false, ""⟩ }

/-- The world `w` with another firmware style and another filesystem sub-type in every statfs
answer; every other answer is unchanged. -/
def World.withFirmware (w : World) (preboot : BLPreBootEnvType) (subtype : Nat) : World :=
  { w with
    getPrebootType := preboot
    blsustatfs := fun l p =>
      ((w.blsustatfs l p).1, { (w.blsustatfs l p).2 with f_fssubtype := subtype }) }

/-- An APFS volume with the data role, everything else as in `quietWorld`. -/
def dataRoleWorld : World :=
  { quietWorld with
    BLIsMountHFS := fun _ => (0, false)
    BLIsMountAPFS := fun _ => (0, true)
    APFSVolumeRole := fun _ => (0, VolRole.APFS_VOL_ROLE_DATA) }

/-- The status the firmware-pointer setters answer to a firmware-pointer call (0 for every
other call). -/
def World.pointerStatus (w : World) : Call → Int
  | Call.setefilegacypath m n h o => w.setefilegacypath m n h o
  | Call.setefifilepath p n o s => w.setefifilepath p n o s
  | Call.setboot d l => w.setboot d l
  | _ => 0

/-- The world `ownerWorld` in which `setefifilepath` fails. -/
def noPointerWorld : World := { ownerWorld with setefifilepath := fun _ _ _ _ => 1 }

/-- The world `prebootWorld` under Open Firmware in which `setboot` fails. -/
def noSetbootWorld : World :=
  { prebootWorld with
    getPrebootType := BLPreBootEnvType.kBLPreBootEnvType_OpenFirmware
    setboot := fun _ _ => 1 }

/-- The world `quietWorld` with a volume that holds OS X 10.10. -/
def oldOSWorld : World := { quietWorld with BLGetOSVersion := fun _ => ⟨10, 10⟩ }

/-- The world `quietWorld` with a volume whose OS version is not recognised. -/
def unknownOSWorld : World := { quietWorld with BLGetOSVersion := fun _ => ⟨9, 0⟩ }

/-- The arguments `--folder /Volumes/X/System --bootefi` (no source path). -/
def defaultBootefiArgs : Args :=
  { blankArgs with
    kfolder := ⟨true, true, "/Volumes/X/System"⟩
    kbootefi := ⟨true, false, ""⟩ }

/-- The arguments `--folder /Volumes/X/System --label X`. -/
def labelArgs : Args :=
  { blankArgs with
    kfolder := ⟨true, true, "/Volumes/X/System"⟩
    klabel := ⟨true, true, "X"⟩ }

/-- The world `ownerWorld` with a volume whose Finder info has no boot file in word 1 and the
values `100 + i` in every other word `i`. -/
def noBootFileWorld : World :=
  { ownerWorld with
    BLGetVolumeFinderInfo := fun _ => some (fun i => if i = 1 then 0 else 100 + i.val) }

/-- The Finder info written by `modeFolder noBootFileWorld folderArgs`. -/
def noBootFileWords : Fin 8 → Nat :=
  Function.update (Function.update
    (Function.update (fun i => if i = 1 then 0 else 100 + i.val) 1 0) 5 42) 0 42

/-- The world `keepWorld` (the Finder info records boot file 77, which looks up to a regular
file) where the folder `/Volumes/X/System` has the ID 42 and every other path the ID 99. -/
def guessWorld : World :=
  { keepWorld with
    BLGetFileID := fun p => if p = "/Volumes/X/System" then some 42 else some 99 }

/-- The Finder info written by `modeFolder guessWorld bootefiArgs`. -/
def guessedWords : Fin 8 → Nat :=
  Function.update (Function.update
    (Function.update (fun i => if i = 1 then 77 else 0) 1 99) 5 42) 0 42

/-- The world `prebootWorld` with the bless data `[7, 8]` stored, where the folder
`/Volumes/X/System` has the inode number 42 and every other path the inode number 99. -/
def inodeWorld : World :=
  { prebootWorld with
    BLGetAPFSBlessData := fun _ => (0, some (fun i => 7 + i.val))
    BLGetAPFSInodeNum := fun p => if p = "/Volumes/X/System" then some 42 else some 99 }

/-- The bless data written by `modeFolder inodeWorld fileArgs`. -/
def inodeData : Fin 2 → Nat :=
  Function.update (Function.update (fun i => 7 + i.val) 0 99) 1 42

/-! ## The function `BLFormatHFS` of `libbless/HFS/BLFormatHFS.c` -/

/-- Conversion to a 64-bit `off_t` (two's complement wrap-around). -/
def toInt64 (x : Int) : Int :=
  (x + 9223372036854775808) % 18446744073709551616 - 9223372036854775808

/-- The constant `SECTORSIZE` (`512U`) of `BLFormatHFS.c`. -/
def SECTORSIZE : Nat := 512

/-- Line 70 of `BLFormatHFS.c`: `newsize = (bytesLeftFree + SECTORSIZE - 1) / SECTORSIZE`. The
sum and the quotient are computed in `off_t` (`SECTORSIZE` is converted to the signed 64-bit
type), the division truncates toward zero, and the assignment to `unsigned int` reduces modulo
`2^32`. -/
def BLFormatHFS_newsize (bytesLeftFree : Int) : Nat :=
  (Int.tdiv (toInt64 (toInt64 (bytesLeftFree + (SECTORSIZE : Int)) - 1)) (SECTORSIZE : Int)
    % 4294967296).toNat

/-- The bytes of an ASCII text: a string literal of the source, or the decimal digits that
`%u` prints. -/
def ascii (s : String) : Bytes := s.data.map Char.toNat

/-- Lines 73-79 of `BLFormatHFS.c`: the command line left in `commandline[1024]`. The arguments
are the bytes of the C strings `devicepath`, `fslabel` and `fsargs` before their NUL;
`snprintf(commandline, 1024, ...)` stores the first 1023 bytes of the formatted text. -/
def BLFormatHFS_commandline (devicepath : Bytes) (newsize : Nat) (fslabel fsargs : Bytes) :
    Bytes :=
  if newsize > 0 then
    (ascii "/sbin/newfs_hfs -w -v \"" ++ fslabel ++ ascii "\" -c f="
      ++ ascii (toString newsize) ++ ascii " " ++ fsargs ++ ascii " \"" ++ devicepath
      ++ ascii "\"").take (1024 - 1)
  else
    (ascii "/sbin/newfs_hfs -w -v \"" ++ fslabel ++ ascii "\" " ++ fsargs ++ ascii " \""
      ++ devicepath ++ ascii "\"").take (1024 - 1)

/-- The source function `BLFormatHFS` (lines 63-94 of `BLFormatHFS.c`), where `system` is the
exit status the C library function reports for a command line. Returns the command line run
and the value returned. -/
def BLFormatHFS (system : Bytes → Int) (devicepath : Bytes) (bytesLeftFree : Int)
    (fslabel fsargs : Bytes) : Bytes × Int :=
  let newsize := BLFormatHFS_newsize bytesLeftFree
  let commandline := BLFormatHFS_commandline devicepath newsize fslabel fsargs
  let err := system commandline
  if err ≠ 0 then (commandline, 7) else (commandline, 0)

/-! ## Reasoning about runs -/

theorem Step.bind_def {α β : Type} (s : Step α) (f : α → Step β) :
    (s >>= f) = Step.bind s f := rfl

@[simp] theorem Step.pure_trace {α : Type} (a : α) : (Pure.pure a : Step α).trace = [] := rfl

@[simp] theorem Step.pure_res {α : Type} (a : α) :
    (Pure.pure a : Step α).res = Except.ok a := rfl

@[simp] theorem Step.exitWith_trace {α : Type} (n : Int) :
    (exitWith n : Step α).trace = [] := rfl

@[simp] theorem Step.exitWith_res {α : Type} (n : Int) :
    (exitWith n : Step α).res = Except.error n := rfl

@[simp] theorem Step.call_trace (c : Call) : (call c).trace = [c] := rfl

@[simp] theorem Step.call_res (c : Call) : (call c).res = Except.ok () := rfl

@[simp] theorem Step.orReturn_trace {α : Type} (o : Option α) (n : Int) :
    (orReturn o n).trace = [] := by
  cases o <;> rfl

@[simp] theorem Step.orReturn_ok {α : Type} (o : Option α) (n : Int) (a : α) :
    (orReturn o n).res = Except.ok a ↔ o = some a := by
  cases o <;> simp [orReturn]

@[simp] theorem Step.orReturn_error {α : Type} (o : Option α) (n m : Int) :
    (orReturn o n).res = Except.error m ↔ o = none ∧ n = m := by
  cases o <;> simp [orReturn]

@[simp] theorem Step.mem_bind {α β : Type} (s : Step α) (f : α → Step β) (c : Call) :
    c ∈ (s >>= f).trace ↔ c ∈ s.trace ∨ ∃ a, s.res = Except.ok a ∧ c ∈ (f a).trace := by
  rw [Step.bind_def]
  unfold Step.bind
  split
  · rename_i e he
    simp [he]
  · rename_i a ha
    simp [ha]

@[simp] theorem Step.bind_ok {α β : Type} (s : Step α) (f : α → Step β) (b : β) :
    (s >>= f).res = Except.ok b ↔ ∃ a, s.res = Except.ok a ∧ (f a).res = Except.ok b := by
  rw [Step.bind_def]
  unfold Step.bind
  split
  · rename_i e he
    simp [he]
  · rename_i a ha
    simp [ha]

@[simp] theorem Step.bind_error {α β : Type} (s : Step α) (f : α → Step β) (n : Int) :
    (s >>= f).res = Except.error n ↔
      s.res = Except.error n ∨ ∃ a, s.res = Except.ok a ∧ (f a).res = Except.error n := by
  rw [Step.bind_def]
  unfold Step.bind
  split
  · rename_i e he
    simp [he]
  · rename_i a ha
    simp [ha]

@[simp] theorem Step.mem_ite {α : Type} (p : Prop) [Decidable p] (s t : Step α) (c : Call) :
    c ∈ (if p then s else t).trace ↔ (p ∧ c ∈ s.trace) ∨ (¬ p ∧ c ∈ t.trace) := by
  split <;> simp [*]

@[simp] theorem Step.ite_res {α : Type} (p : Prop) [Decidable p] (s t : Step α)
    (r : Except Int α) :
    (if p then s else t).res = r ↔ (p ∧ s.res = r) ∨ (¬ p ∧ t.res = r) := by
  split <;> simp [*]

@[simp] theorem Step.forall_pure {α : Type} (P : Call → Prop) (a : α) :
    (Pure.pure a : Step α).Forall P := by
  intro c hc; cases hc

@[simp] theorem Step.forall_exitWith {α : Type} (P : Call → Prop) (n : Int) :
    (exitWith n : Step α).Forall P := by
  intro c hc; cases hc

@[simp] theorem Step.forall_orReturn {α : Type} (P : Call → Prop) (o : Option α) (n : Int) :
    (orReturn o n).Forall P := by
  intro c hc; simp at hc

@[simp] theorem Step.forall_call (P : Call → Prop) (c : Call) : (call c).Forall P ↔ P c := by
  simp [Step.Forall]

@[simp] theorem Step.forall_bind {α β : Type} (P : Call → Prop) (s : Step α) (f : α → Step β) :
    (s >>= f).Forall P ↔ (s.Forall P ∧ ∀ a, s.res = Except.ok a → (f a).Forall P) := by
  unfold Step.Forall
  simp only [Step.mem_bind]
  constructor
  · intro h
    exact ⟨fun c hc => h c (Or.inl hc), fun a ha c hc => h c (Or.inr ⟨a, ha, hc⟩)⟩
  · rintro ⟨h1, h2⟩ c (hc | ⟨a, ha, hc⟩)
    · exact h1 c hc
    · exact h2 a ha c hc

@[simp] theorem Step.forall_ite {α : Type} (P : Call → Prop) (p : Prop) [Decidable p]
    (s t : Step α) :
    (if p then s else t).Forall P ↔ ((p → s.Forall P) ∧ (¬ p → t.Forall P)) := by
  split <;> simp [*]

theorem Step.Forall.mono {α : Type} {P Q : Call → Prop} {s : Step α} (h : s.Forall P)
    (hPQ : ∀ c, P c → Q c) : s.Forall Q :=
  fun c hc => hPQ c (h c hc)

theorem Step.forall_iff {α : Type} (P : Call → Prop) (s : Step α) :
    s.Forall P ↔ ∀ c ∈ s.trace, P c := Iff.rfl

attribute [irreducible] Step.Forall

/-! ## The calls each block issues -/

theorem extractMountPoint_stage (w : World) (a : Args) :
    (extractMountPoint w a).Forall (fun c => c.stage = Stage.mount) := by
  unfold extractMountPoint
  simp
  repeat' (first | intro _ | refine ⟨?_, ?_⟩ | split)
  all_goals simp [Call.stage]

theorem modeFolder_classify_stage (w : World) (a : Args) :
    (modeFolder_classify w a).Forall (fun c => c.stage = Stage.classify) := by
  unfold modeFolder_classify
  simp
  repeat' (first | intro _ | refine ⟨?_, ?_⟩ | split)
  all_goals simp [Call.stage]

theorem modeFolder_materialize_stage (w : World) (a : Args) (isAPFS : Bool) (d : Bytes) :
    (modeFolder_materialize w a isAPFS d).Forall (fun c => c.stage = Stage.bootefi) := by
  unfold modeFolder_materialize
  simp
  repeat' (first | intro _ | refine ⟨?_, ?_⟩ | split)
  all_goals simp [Call.stage]

theorem modeFolder_bootefi_stage (w : World) (a : Args) (isAPFS : Bool) (sb : statfs) :
    (modeFolder_bootefi w a isAPFS sb).Forall (fun c => c.stage = Stage.bootefi) := by
  unfold modeFolder_bootefi modeFolder_defaultBootEFI modeFolder_loadBootEFI
  simp
  repeat' (first | intro _ | refine ⟨?_, ?_⟩ | split)
  all_goals try simp [modeFolder_materialize_stage]
  all_goals simp [Call.stage]

theorem modeFolder_apfsdriver_stage (w : World) (a : Args) (c : Classification) :
    (modeFolder_apfsdriver w a c).Forall (fun c => c.stage = Stage.apfsdriver) := by
  unfold modeFolder_apfsdriver modeFolder_embed
  simp
  repeat' (first | intro _ | refine ⟨?_, ?_⟩ | split)
  all_goals simp [Call.stage]

theorem modeFolder_label_stage (w : World) (a : Args) (c : Classification) :
    (modeFolder_label w a c).Forall (fun c => c.stage = Stage.label) := by
  unfold modeFolder_label modeFolder_labeldata
  simp
  repeat' (first | intro _ | refine ⟨?_, ?_⟩ | split)
  all_goals simp [Call.stage]

theorem modeFolder_blessHFS_stage (w : World) (a : Args) (sb : statfs) :
    (modeFolder_blessHFS w a sb).Forall (fun c => c.stage = Stage.blessHFS) := by
  unfold modeFolder_blessHFS modeFolder_folderXid modeFolder_bootfile
  simp
  repeat' (first | intro _ | refine ⟨?_, ?_⟩ | split)
  all_goals simp [Call.stage]

theorem modeFolder_blessData_stage (w : World) (a : Args) (sb : statfs) :
    (modeFolder_blessData w a sb).Forall (fun c => c.stage = Stage.blessAPFS) := by
  unfold modeFolder_blessData modeFolder_folderInum modeFolder_fileInum
  simp
  repeat' (first | intro _ | refine ⟨?_, ?_⟩ | split)
  all_goals simp [Call.stage]

theorem modeFolder_blessAPFS_stage (w : World) (a : Args) (sh : Bool) (c : Classification)
    (l l2 : Option Bytes) :
    (modeFolder_blessAPFS w a sh c l l2).Forall (fun c => c.stage = Stage.blessAPFS) := by
  unfold modeFolder_blessAPFS
  simp
  repeat' (first | intro _ | refine ⟨?_, ?_⟩ | split)
  all_goals try simp [modeFolder_blessData_stage]
  all_goals simp [Call.stage]

theorem modeFolder_bless_stage (w : World) (a : Args) (sh : Bool) (c : Classification)
    (l l2 : Option Bytes) :
    (modeFolder_bless w a sh c l l2).Forall
      (fun c => c.stage = Stage.blessHFS ∨ c.stage = Stage.blessAPFS) := by
  unfold modeFolder_bless
  simp
  intro _
  refine ⟨fun _ => (modeFolder_blessHFS_stage _ _ _).mono (fun _ h => Or.inl h), fun _ _ => ?_⟩
  exact (modeFolder_blessAPFS_stage _ _ _ _ _ _).mono (fun _ h => Or.inr h)

theorem modeFolder_personalize_stage (w : World) (a : Args) :
    (modeFolder_personalize w a).Forall (fun c => c.stage = Stage.personalize) := by
  unfold modeFolder_personalize
  simp
  repeat' (first | intro _ | refine ⟨?_, ?_⟩ | split)
  all_goals simp [Call.stage]

theorem modeFolder_setboot_stage (w : World) (a : Args) (sh isAPFS u : Bool)
    (l : Option Bytes) :
    (modeFolder_setboot w a sh isAPFS u l).Forall (fun c => c.stage = Stage.setboot) := by
  unfold modeFolder_setboot
  simp
  repeat' (first | intro _ | refine ⟨?_, ?_⟩ | split)
  all_goals simp [Call.stage]

/-! ## Facts about the blocks -/

theorem Call.stage_of_isLabelWrite (c : Call) (h : c.isLabelWrite = true) :
    c.stage = Stage.label := by
  cases c <;> simp_all [Call.isLabelWrite, Call.stage]

theorem Call.stage_of_isMetadataWrite (c : Call) (h : c.isMetadataWrite = true) :
    c.stage = Stage.blessHFS ∨ c.stage = Stage.blessAPFS := by
  cases c <;> simp_all [Call.isMetadataWrite, Call.stage]

theorem Call.stage_of_isPointerUpdate (c : Call) (h : c.isPointerUpdate = true) :
    c.stage = Stage.setboot := by
  cases c <;> simp_all [Call.isPointerUpdate, Call.stage]

theorem Call.stage_of_isCreateFile (c : Call) (h : c.isCreateFile = true) :
    c.stage = Stage.bootefi := by
  cases c <;> simp_all [Call.isCreateFile, Call.stage]

theorem Call.stage_of_isEffect (c : Call) (h : c.isEffect = true) :
    c.stage ≠ Stage.mount ∧ c.stage ≠ Stage.classify := by
  cases c <;> simp_all [Call.isEffect, Call.isLabelWrite, Call.isMetadataWrite,
    Call.isPointerUpdate, Call.stage]

theorem Step.not_mem_of_stage {α : Type} {s : Step α} {k : Stage}
    (h : s.Forall (fun c => c.stage = k)) (c : Call) (hc : c.stage ≠ k) : c ∉ s.trace :=
  fun hm => hc ((Step.forall_iff _ _).1 h c hm)

/-- What a successful classification establishes, in terms of the probes' answers. -/
theorem modeFolder_classify_ok (w : World) (a : Args) (c : Classification)
    (h : (modeFolder_classify w a).res = Except.ok c) :
    c.isHFS = (w.BLIsMountHFS a.kmount.argument).2
    ∧ c.isAPFS = (w.BLIsMountAPFS a.kmount.argument).2
    ∧ c.isAPFSDataRolePreSSVToSSVThusDontWriteToVol
        = (w.BLIsMountAPFSDataRolePreSSVToSSV a.kmount.argument).2
    ∧ c.sb = (w.blsustatfs 157 a.kmount.argument).2
    ∧ (c.isAPFS = true → c.role = (w.APFSVolumeRole (strskip c.sb.f_mntfromname 5)).2) := by
  unfold modeFolder_classify at h
  simp at h
  obtain ⟨_, _, _, _, h⟩ := h
  rcases h with ⟨_, _, _, h⟩ | ⟨_, h⟩ <;> subst h <;> simp_all

theorem extractMountPoint_ok (w : World) (a : Args) (e : Int × Args)
    (h : (extractMountPoint w a).res = Except.ok e) :
    e.2 = { a with kmount := e.2.kmount } := by
  unfold extractMountPoint at h
  simp at h
  rcases h with ⟨_, h⟩ | ⟨_, h⟩
  · subst h; rfl
  · rcases h with ⟨_, h⟩ | ⟨_, h⟩
    · rcases h with ⟨_, h⟩ | ⟨_, h⟩ <;> subst h <;> rfl
    · subst h; rfl

theorem modeFolder_guessFile_eq (w : World) (a : Args) :
    modeFolder_guessFile w a = { a with kfile := (modeFolder_guessFile w a).kfile } := by
  unfold modeFolder_guessFile
  split
  · split <;> rfl
  · rfl

theorem modeFolder_guessFile_present (w : World) (a : Args) :
    (modeFolder_guessFile w a).kfile.present
      = (a.kfile.present || (a.kfolder.present && a.kbootefi.present)) := by
  unfold modeFolder_guessFile
  cases h1 : a.kfolder.present <;> cases h2 : a.kfile.present <;> cases h3 : a.kbootefi.present <;>
    simp [h1, h2, h3]

theorem extractMountPoint_frame (w : World) (a : Args) (e : Int × Args)
    (h : (extractMountPoint w a).res = Except.ok e) :
    ∃ km, e.2 = { a with kmount := km } := by
  unfold extractMountPoint at h
  simp at h
  rcases h with ⟨_, h⟩ | ⟨_, h⟩
  · subst h; exact ⟨_, rfl⟩
  · rcases h with ⟨_, h⟩ | ⟨_, h⟩
    · rcases h with ⟨_, h⟩ | ⟨_, h⟩ <;> subst h <;> exact ⟨_, rfl⟩
    · subst h; exact ⟨_, rfl⟩

theorem modeFolder_bootefi_frame (w : World) (a : Args) (isAPFS : Bool) (sb : statfs) (a2 : Args)
    (h : (modeFolder_bootefi w a isAPFS sb).res = Except.ok a2) :
    ∃ arg, a2 = { a with kbootefi := { a.kbootefi with argument := arg } } := by
  unfold modeFolder_bootefi modeFolder_defaultBootEFI at h
  simp at h
  rcases h with ⟨_, h⟩ | ⟨_, h⟩
  · obtain ⟨a3, h3, h⟩ := h
    have h3 : ∃ arg, a3 = { a with kbootefi := { a.kbootefi with argument := arg } } := by
      rcases h3 with ⟨_, _, _, _, h3⟩ | ⟨_, h3⟩ <;> subst h3 <;> exact ⟨_, rfl⟩
    have : a3 = a2 := by
      rcases h with ⟨_, _, h⟩ | ⟨_, h⟩ <;> exact h
    subst this
    exact h3
  · subst h; exact ⟨_, rfl⟩

theorem modeFolder_prepare_stage (w : World) (a : Args) :
    (modeFolder_prepare w a).Forall (fun c => c.stage ≠ Stage.blessHFS
      ∧ c.stage ≠ Stage.blessAPFS ∧ c.stage ≠ Stage.personalize ∧ c.stage ≠ Stage.setboot) := by
  have key : ∀ k : Stage, (k ≠ Stage.blessHFS ∧ k ≠ Stage.blessAPFS ∧ k ≠ Stage.personalize
      ∧ k ≠ Stage.setboot) →
      ∀ c : Call, c.stage = k → (c.stage ≠ Stage.blessHFS ∧ c.stage ≠ Stage.blessAPFS
        ∧ c.stage ≠ Stage.personalize ∧ c.stage ≠ Stage.setboot) := by
    intro k hk c hc
    rw [hc]
    exact hk
  unfold modeFolder_prepare
  simp
  refine ⟨(extractMountPoint_stage w a).mono (key _ (by decide)), ?_⟩
  intro _ _ _ _
  refine ⟨(modeFolder_classify_stage _ _).mono (key _ (by decide)), ?_⟩
  intro _ _
  refine ⟨(modeFolder_bootefi_stage _ _ _ _).mono (key _ (by decide)), ?_⟩
  intro _ _
  refine ⟨(modeFolder_apfsdriver_stage _ _ _).mono (key _ (by decide)), ?_⟩
  intro _ _
  exact (modeFolder_label_stage _ _ _).mono (key _ (by decide))

theorem modeFolder_guessFile_kmount (w : World) (a : Args) (km : clarg) :
    modeFolder_guessFile w { a with kmount := km }
      = { modeFolder_guessFile w a with kmount := km } := by
  unfold modeFolder_guessFile
  split
  · split <;> rfl
  · rfl

theorem modeFolder_prepare_ok (w : World) (a : Args) (p : Prepared)
    (h : (modeFolder_prepare w a).res = Except.ok p) : PreparedOk w a p := by
  unfold modeFolder_prepare at h
  simp at h
  obtain ⟨e1, e2, he, _, c, hc, a2, ha2, _, l1, l2, _, hp⟩ := h
  obtain ⟨km, rfl⟩ := extractMountPoint_frame _ _ _ he
  obtain ⟨hc1, hc2, hc3, hc4, hc5⟩ := modeFolder_classify_ok _ _ _ hc
  obtain ⟨arg, rfl⟩ := modeFolder_bootefi_frame _ _ _ _ _ ha2
  subst hp
  rw [modeFolder_guessFile_kmount] at hc1 hc2 hc3 hc4 ⊢
  have hg := modeFolder_guessFile_eq w a
  constructor <;> first | assumption | rw [hg]

theorem modeFolder_label_dontWrite (w : World) (a : Args) (c : Classification)
    (h : c.isAPFSDataRolePreSSVToSSVThusDontWriteToVol = true) :
    (modeFolder_label w a c).trace = [] := by
  unfold modeFolder_label
  simp [h]

theorem modeFolder_bless_skip (w : World) (a : Args) (c : Classification) (l l2 : Option Bytes)
    (h : c.isAPFSDataRolePreSSVToSSVThusDontWriteToVol = true) :
    (modeFolder_bless w a false c l l2).trace = [] := by
  unfold modeFolder_bless
  simp [h]

theorem modeFolder_forall (w : World) (a : Args) (P : Call → Prop)
    (hprep : (modeFolder_prepare w a).Forall P)
    (hbless : ∀ p, (modeFolder_prepare w a).res = Except.ok p →
      (modeFolder_bless w p.actargs p.shouldBless p.c p.labeldata p.labeldata2).Forall P)
    (hpers : ∀ c : Call, c.stage = Stage.personalize → P c)
    (hset : ∀ c : Call, c.stage = Stage.setboot → P c) :
    (modeFolder w a).Forall P := by
  unfold modeFolder
  simp only [Step.forall_bind]
  refine ⟨hprep, fun p hp => ⟨hbless p hp, fun b _ => ⟨?_, fun _ _ => ?_⟩⟩⟩
  · exact (modeFolder_personalize_stage _ _).mono hpers
  · exact (modeFolder_setboot_stage _ _ _ _ _ _).mono hset

theorem modeFolder_prepare_forall (w : World) (a : Args) (P : Call → Prop)
    (hP : ∀ c : Call, c.stage = Stage.mount ∨ c.stage = Stage.classify ∨ c.stage = Stage.bootefi
      ∨ c.stage = Stage.apfsdriver → P c)
    (hlabel : ∀ (e : Int × Args) (c : Classification) (a2 : Args),
      (extractMountPoint w a).res = Except.ok e →
      (modeFolder_classify w (modeFolder_guessFile w e.2)).res = Except.ok c →
      (modeFolder_label w a2 c).Forall P) :
    (modeFolder_prepare w a).Forall P := by
  unfold modeFolder_prepare
  simp
  refine ⟨(extractMountPoint_stage w a).mono (fun c hc => hP c (Or.inl hc)), ?_⟩
  intro e1 e2 he _
  refine ⟨(modeFolder_classify_stage _ _).mono (fun c hc => hP c (Or.inr (Or.inl hc))), ?_⟩
  intro c hc
  refine ⟨(modeFolder_bootefi_stage _ _ _ _).mono
    (fun c hc => hP c (Or.inr (Or.inr (Or.inl hc)))), ?_⟩
  intro a2 _
  refine ⟨(modeFolder_apfsdriver_stage _ _ _).mono
    (fun c hc => hP c (Or.inr (Or.inr (Or.inr hc)))), ?_⟩
  intro _ _
  exact hlabel (e1, e2) c a2 he hc

theorem Step.not_mem_of_forall_false {α : Type} {s : Step α} {f : Call → Bool}
    (h : s.Forall (fun c => f c = false)) {c : Call} (hc : f c = true) : c ∉ s.trace := by
  intro hm
  have := (Step.forall_iff _ _).1 h c hm
  simp [hc] at this

theorem Step.status_eq_zero {s : Step Unit} (h : s.res = Except.ok ()) : s.status = 0 := by
  unfold Step.status
  rw [h]

theorem Step.pure_def {α : Type} (a : α) : (Pure.pure a : Step α) = Step.pure a := rfl

/-! ## The metadata update -/

/-- The folder ID written to `oldwords[5]`. -/
theorem modeFolder_folderXid_res (w : World) (a : Args) (x : Nat) :
    (modeFolder_folderXid w a).res = Except.ok x ↔
      x = if a.kfolder.present then (w.BLGetFileID a.kfolder.argument).getD 0 else 0 := by
  unfold modeFolder_folderXid
  by_cases h : a.kfolder.present = true <;> simp [h] <;>
    exact ⟨fun h => h.symm, fun h => h.symm⟩

/-- The folder inode number written to `oldWords[1]`. -/
theorem modeFolder_folderInum_res (w : World) (a : Args) (x : Nat) :
    (modeFolder_folderInum w a).res = Except.ok x ↔
      x = if a.kfolder.present then (w.BLGetAPFSInodeNum a.kfolder.argument).getD 0 else 0 := by
  unfold modeFolder_folderInum
  by_cases h : a.kfolder.present = true <;> simp [h] <;>
    exact ⟨fun h => h.symm, fun h => h.symm⟩

theorem modeFolder_folderXid_noWrite (w : World) (a : Args) :
    (modeFolder_folderXid w a).Forall (fun c => c.isMetadataWrite = false) := by
  unfold modeFolder_folderXid
  simp
  intro _
  rfl

theorem modeFolder_folderInum_noWrite (w : World) (a : Args) :
    (modeFolder_folderInum w a).Forall (fun c => c.isMetadataWrite = false) := by
  unfold modeFolder_folderInum
  simp
  intro _
  rfl

theorem modeFolder_bootfile_noWrite (w : World) (k : clarg) (m : String) (n : Nat) :
    (modeFolder_bootfile w k m n).Forall (fun c => c.isMetadataWrite = false) := by
  unfold modeFolder_bootfile
  simp
  repeat' (first | intro _ | refine ⟨?_, ?_⟩ | split)
  all_goals simp [Call.isMetadataWrite]

theorem modeFolder_fileInum_noWrite (w : World) (k : clarg) (m : String) (n : Nat) :
    (modeFolder_fileInum w k m n).Forall (fun c => c.isMetadataWrite = false) := by
  unfold modeFolder_fileInum
  simp
  repeat' (first | intro _ | refine ⟨?_, ?_⟩ | split)
  all_goals simp [Call.isMetadataWrite]

/-- The boot-file resolution of the HFS block never returns from `modeFolder`; its value in
terms of the collaborators' answers. -/
theorem modeFolder_bootfile_res (w : World) (k : clarg) (m : String) (n : Nat) :
    ∃ b, (modeFolder_bootfile w k m n).res = Except.ok b
      ∧ b.2.present = k.present
      ∧ (k.present = true →
          (b.1 ≠ 0 → w.BLGetFileID k.argument = some b.1 ∧ w.lstat 364 k.argument = some true))
      ∧ (k.present = false →
          ((n ≠ 0 ∧ ∃ path, w.BLLookupFileIDOnMount m n = some path
              ∧ w.lstat 385 path = some true) → b.1 = n)
          ∧ (¬ (n ≠ 0 ∧ ∃ path, w.BLLookupFileIDOnMount m n = some path
              ∧ w.lstat 385 path = some true) → b.1 = 0)) := by
  unfold modeFolder_bootfile
  by_cases hk : k.present = true
  · cases hid : w.BLGetFileID k.argument with
    | none => simp [hk, hid]
    | some id =>
      by_cases hl : w.lstat 364 k.argument = some true
      · simp [hk, hid, hl]
      · simp [hk, hid, hl]
  · have hk : k.present = false := by simpa using hk
    by_cases hn : n = 0
    · simp [hk, hn]
    · cases hp : w.BLLookupFileIDOnMount m n with
      | none => simp [hk, hn, hp]
      | some path =>
        by_cases hl : w.lstat 385 path = some true
        · simp [hk, hn, hp, hl]
        · simp [hk, hn, hp, hl]

/-- The boot-file resolution of the APFS block never returns from `modeFolder`; its value in
terms of the collaborators' answers. -/
theorem modeFolder_fileInum_res (w : World) (k : clarg) (m : String) (n : Nat) :
    ∃ b, (modeFolder_fileInum w k m n).res = Except.ok b
      ∧ b.2.present = k.present
      ∧ (k.present = true →
          (b.1 ≠ 0 →
            w.BLGetAPFSInodeNum k.argument = some b.1 ∧ w.lstat 484 k.argument = some true))
      ∧ (k.present = false →
          ((n ≠ 0 ∧ ∃ path, w.BLLookupFileIDOnMount64 m n w.kMaxArgLength = some path
              ∧ w.lstat 505 path = some true) → b.1 = n)
          ∧ (¬ (n ≠ 0 ∧ ∃ path, w.BLLookupFileIDOnMount64 m n w.kMaxArgLength = some path
              ∧ w.lstat 505 path = some true) → b.1 = 0)) := by
  unfold modeFolder_fileInum
  by_cases hk : k.present = true
  · cases hid : w.BLGetAPFSInodeNum k.argument with
    | none => simp [hk, hid]
    | some id =>
      by_cases hl : w.lstat 484 k.argument = some true
      · simp [hk, hid, hl]
      · simp [hk, hid, hl]
  · have hk : k.present = false := by simpa using hk
    by_cases hn : n = 0
    · simp [hk, hn]
    · cases hp : w.BLLookupFileIDOnMount64 m n w.kMaxArgLength with
      | none => simp [hk, hn, hp]
      | some path =>
        by_cases hl : w.lstat 505 path = some true
        · simp [hk, hn, hp, hl]
        · simp [hk, hn, hp, hl]

/-- The Finder-info write of the HFS block, in terms of what was read and resolved. -/
theorem modeFolder_blessHFS_write (w : World) (a : Args) (sb : statfs) (m : String)
    (words : Fin 8 → Nat) :
    Call.BLSetVolumeFinderInfo m words ∈ (modeFolder_blessHFS w a sb).trace ↔
    (m = a.kmount.argument ∧ ∃ old b, w.BLGetVolumeFinderInfo m = some old
      ∧ (modeFolder_bootfile w a.kfile m (old 1)).res = Except.ok b
      ∧ (w.geteuid = 0 ∨ w.geteuid = sb.f_owner)
      ∧ words = modeFolder_word0 w a.ksetboot sb
          (if a.kfolder.present then (w.BLGetFileID a.kfolder.argument).getD 0 else 0)
          (Function.update (Function.update old 1 b.1) 5
            (if a.kfolder.present then (w.BLGetFileID a.kfolder.argument).getD 0 else 0))) := by
  unfold modeFolder_blessHFS
  have h1 : Call.BLSetVolumeFinderInfo m words ∉ (modeFolder_folderXid w a).trace :=
    Step.not_mem_of_forall_false (modeFolder_folderXid_noWrite w a) rfl
  have h2 : ∀ k m2 n, Call.BLSetVolumeFinderInfo m words ∉ (modeFolder_bootfile w k m2 n).trace :=
    fun k m2 n => Step.not_mem_of_forall_false (modeFolder_bootfile_noWrite w k m2 n) rfl
  constructor
  · intro h
    simp [h1, h2, modeFolder_folderXid_res] at h
    obtain ⟨old, hold, b1, ⟨b2, hb⟩, hauth, hm, hw⟩ := h
    subst hm
    exact ⟨rfl, old, (b1, b2), hold, hb, by omega, hw⟩
  · rintro ⟨hm, old, b, hold, hb, hauth, hw⟩
    subst hm
    simp [h1, h2, modeFolder_folderXid_res]
    exact ⟨old, hold, b.1, ⟨b.2, hb⟩, by omega, hw⟩

/-- The bless-data write of the APFS block, in terms of what was read and resolved. -/
theorem modeFolder_blessData_write (w : World) (a : Args) (sb : statfs) (m : String)
    (words : Fin 2 → Nat) :
    Call.BLSetAPFSBlessData m words ∈ (modeFolder_blessData w a sb).trace ↔
    (m = a.kmount.argument
      ∧ ((w.BLGetAPFSBlessData m).1 = 0 ∨ (w.BLGetAPFSBlessData m).1 = ENOENT)
      ∧ ∃ f, (modeFolder_fileInum w a.kfile m
            ((w.BLGetAPFSBlessData m).2.getD (fun _ => 0) 0)).res = Except.ok f
      ∧ (w.geteuid = 0 ∨ w.geteuid = sb.f_owner)
      ∧ words = Function.update
          (Function.update ((w.BLGetAPFSBlessData m).2.getD (fun _ => 0)) 0 f.1) 1
          (if a.kfolder.present then (w.BLGetAPFSInodeNum a.kfolder.argument).getD 0 else 0)) := by
  unfold modeFolder_blessData
  have h1 : Call.BLSetAPFSBlessData m words ∉ (modeFolder_folderInum w a).trace :=
    Step.not_mem_of_forall_false (modeFolder_folderInum_noWrite w a) rfl
  have h2 : ∀ k m2 n, Call.BLSetAPFSBlessData m words ∉ (modeFolder_fileInum w k m2 n).trace :=
    fun k m2 n => Step.not_mem_of_forall_false (modeFolder_fileInum_noWrite w k m2 n) rfl
  constructor
  · intro h
    simp [h1, h2, modeFolder_folderInum_res] at h
    obtain ⟨hg, b1, ⟨b2, hb⟩, hauth, hm, hw⟩ := h
    subst hm
    exact ⟨rfl, by tauto, (b1, b2), hb, by omega, hw⟩
  · rintro ⟨hm, hg, f, hb, hauth, hw⟩
    subst hm
    simp [h1, h2, modeFolder_folderInum_res]
    exact ⟨by tauto, f.1, ⟨f.2, hb⟩, by omega, hw⟩


/-- The calls of the HFS block are those of a run that reaches it. -/
theorem modeFolder_mem_blessHFS (w : World) (a : Args) (c : Call)
    (hc : c.stage = Stage.blessHFS) :
    c ∈ (modeFolder w a).trace ↔
      ∃ p, (modeFolder_prepare w a).res = Except.ok p
        ∧ (p.shouldBless = true ∨
            (p.c.isAPFS = true ∧ p.c.isAPFSDataRolePreSSVToSSVThusDontWriteToVol = false))
        ∧ p.c.isHFS = true
        ∧ c ∈ (modeFolder_blessHFS w p.actargs p.c.sb).trace := by
  have hA : ∀ a2 sh cl l l2, c ∉ (modeFolder_blessAPFS w a2 sh cl l l2).trace := by
    intro a2 sh cl l l2
    refine Step.not_mem_of_stage (modeFolder_blessAPFS_stage w a2 sh cl l l2) c ?_
    rw [hc]
    decide
  have h0 : c ∉ (modeFolder_prepare w a).trace := fun h =>
    ((Step.forall_iff _ _).1 (modeFolder_prepare_stage w a) c h).1 hc
  have h1 : ∀ a2, c ∉ (modeFolder_personalize w a2).trace := by
    intro a2
    refine Step.not_mem_of_stage (modeFolder_personalize_stage w a2) c ?_
    rw [hc]
    decide
  have h2 : ∀ a2 sh i u l, c ∉ (modeFolder_setboot w a2 sh i u l).trace := by
    intro a2 sh i u l
    refine Step.not_mem_of_stage (modeFolder_setboot_stage w a2 sh i u l) c ?_
    rw [hc]
    decide
  unfold modeFolder modeFolder_bless
  simp only [Step.mem_bind, h0, h1, h2, false_or, or_false, and_false, exists_false]
  constructor
  · rintro ⟨p, hp, h⟩
    refine ⟨p, hp, ?_⟩
    simpa [hA] using h
  · rintro ⟨p, hp, h⟩
    refine ⟨p, hp, ?_⟩
    simpa [hA] using h

/-- The calls of the APFS block are those of a run that reaches it. -/
theorem modeFolder_mem_blessAPFS (w : World) (a : Args) (c : Call)
    (hc : c.stage = Stage.blessAPFS) :
    c ∈ (modeFolder w a).trace ↔
      ∃ p, (modeFolder_prepare w a).res = Except.ok p
        ∧ (p.shouldBless = true ∨
            (p.c.isAPFS = true ∧ p.c.isAPFSDataRolePreSSVToSSVThusDontWriteToVol = false))
        ∧ p.c.isHFS = false ∧ p.c.isAPFS = true
        ∧ c ∈ (modeFolder_blessAPFS w p.actargs p.shouldBless p.c
            p.labeldata p.labeldata2).trace := by
  have hA : ∀ a2 sb, c ∉ (modeFolder_blessHFS w a2 sb).trace := by
    intro a2 sb
    refine Step.not_mem_of_stage (modeFolder_blessHFS_stage w a2 sb) c ?_
    rw [hc]
    decide
  have h0 : c ∉ (modeFolder_prepare w a).trace := fun h =>
    ((Step.forall_iff _ _).1 (modeFolder_prepare_stage w a) c h).2.1 hc
  have h1 : ∀ a2, c ∉ (modeFolder_personalize w a2).trace := by
    intro a2
    refine Step.not_mem_of_stage (modeFolder_personalize_stage w a2) c ?_
    rw [hc]
    decide
  have h2 : ∀ a2 sh i u l, c ∉ (modeFolder_setboot w a2 sh i u l).trace := by
    intro a2 sh i u l
    refine Step.not_mem_of_stage (modeFolder_setboot_stage w a2 sh i u l) c ?_
    rw [hc]
    decide
  unfold modeFolder modeFolder_bless
  simp only [Step.mem_bind, h0, h1, h2, false_or, or_false, and_false, exists_false]
  constructor
  · rintro ⟨p, hp, h⟩
    refine ⟨p, hp, ?_⟩
    simpa [hA] using h
  · rintro ⟨p, hp, h⟩
    refine ⟨p, hp, ?_⟩
    simpa [hA] using h

/-- The Finder-info write of `modeFolder`, in terms of what was read and resolved. -/
theorem modeFolder_setFinderInfo (w : World) (a : Args) (m : String) (words : Fin 8 → Nat)
    (h : Call.BLSetVolumeFinderInfo m words ∈ (modeFolder w a).trace) :
    ∃ old b, w.BLGetVolumeFinderInfo m = some old
      ∧ (w.BLIsMountHFS m).2 = true
      ∧ (modeFolder_bootfile w (modeFolder_guessFile w a).kfile m (old 1)).res = Except.ok b
      ∧ (w.geteuid = 0 ∨ w.geteuid = (w.blsustatfs 157 m).2.f_owner)
      ∧ words = modeFolder_word0 w a.ksetboot (w.blsustatfs 157 m).2
          (if a.kfolder.present then (w.BLGetFileID a.kfolder.argument).getD 0 else 0)
          (Function.update (Function.update old 1 b.1) 5
            (if a.kfolder.present then (w.BLGetFileID a.kfolder.argument).getD 0 else 0)) := by
  obtain ⟨p, hp, _, hHFS, h⟩ := (modeFolder_mem_blessHFS w a (Call.BLSetVolumeFinderInfo m words) rfl).1 h
  have ok := modeFolder_prepare_ok _ _ _ hp
  obtain ⟨hm, old, b, hold, hb, hauth, hw⟩ := (modeFolder_blessHFS_write _ _ _ _ _).1 h
  rw [ok.kfolder, ok.ksetboot] at hw
  rw [ok.kfile] at hb
  rw [ok.sb, ← hm] at hauth hw
  rw [ok.isHFS, ← hm] at hHFS
  exact ⟨old, b, hold, hHFS, hb, hauth, hw⟩

/-- The bless-data write of `modeFolder`, in terms of what was read and resolved. -/
theorem modeFolder_setBlessData (w : World) (a : Args) (m : String) (words : Fin 2 → Nat)
    (h : Call.BLSetAPFSBlessData m words ∈ (modeFolder w a).trace) :
    ∃ f, a.kfolder.present = true
      ∧ (w.BLIsMountHFS m).2 = false ∧ (w.BLIsMountAPFS m).2 = true
      ∧ ((w.APFSVolumeRole (strskip (w.blsustatfs 157 m).2.f_mntfromname 5)).2
            = VolRole.APFS_VOL_ROLE_PREBOOT
          ∨ (w.APFSVolumeRole (strskip (w.blsustatfs 157 m).2.f_mntfromname 5)).2
            = VolRole.APFS_VOL_ROLE_RECOVERY)
      ∧ ((w.BLGetAPFSBlessData m).1 = 0 ∨ (w.BLGetAPFSBlessData m).1 = ENOENT)
      ∧ (modeFolder_fileInum w (modeFolder_guessFile w a).kfile m
            ((w.BLGetAPFSBlessData m).2.getD (fun _ => 0) 0)).res = Except.ok f
      ∧ (w.geteuid = 0 ∨ w.geteuid = (w.blsustatfs 157 m).2.f_owner)
      ∧ words = Function.update
          (Function.update ((w.BLGetAPFSBlessData m).2.getD (fun _ => 0)) 0 f.1) 1
          (if a.kfolder.present then (w.BLGetAPFSInodeNum a.kfolder.argument).getD 0 else 0) := by
  obtain ⟨p, hp, _, hHFS, hAPFS, h⟩ := (modeFolder_mem_blessAPFS w a (Call.BLSetAPFSBlessData m words) rfl).1 h
  have ok := modeFolder_prepare_ok _ _ _ hp
  unfold modeFolder_blessAPFS at h
  simp at h
  obtain ⟨hsh, hrole, h⟩ := h
  obtain ⟨hm, hg, f, hb, hauth, hw⟩ := (modeFolder_blessData_write _ _ _ _ _).1 h
  have hr := ok.role hAPFS
  rw [ok.kfolder] at hw
  rw [ok.kfile] at hb
  rw [ok.sb, ← hm] at hauth hr
  rw [ok.isHFS, ← hm] at hHFS
  rw [ok.isAPFS, ← hm] at hAPFS
  rw [hr] at hrole
  rw [ok.shouldBless] at hsh
  exact ⟨f, hsh, hHFS, hAPFS, hrole, hg, hb, hauth, hw⟩

theorem word0_at_zero (w : World) (k : clarg) (sb : statfs) (x : Nat) (f : Fin 8 → Nat) :
    modeFolder_word0 w k sb x f 0 =
      if k.present = true ∧ w.getPrebootType = BLPreBootEnvType.kBLPreBootEnvType_OpenFirmware
          ∧ (sb.f_fssubtype % 4294967296) &&& 4294967294 ≠ 0 then 0
      else if x ≠ 0 then x else f 0 := by
  unfold modeFolder_word0
  split
  · simp
  · split <;> simp

theorem word0_at_ne (w : World) (k : clarg) (sb : statfs) (x : Nat) (f : Fin 8 → Nat)
    (i : Fin 8) (hi : i ≠ 0) : modeFolder_word0 w k sb x f i = f i := by
  unfold modeFolder_word0
  split
  · simp [Function.update, hi]
  · split <;> simp [Function.update, hi]

theorem ownerWorld_folderArgs_trace :
    (modeFolder ownerWorld folderArgs).trace =
      [Call.BLGetCommonMountPoint "/Volumes/X/System", Call.BLIsMountHFS "/Volumes/X",
       Call.BLIsMountAPFS "/Volumes/X", Call.BLIsMountAPFSDataRolePreSSVToSSV "/Volumes/X",
       Call.blsustatfs 157 "/Volumes/X", Call.BLGetVolumeFinderInfo "/Volumes/X",
       Call.BLGetFileID "/Volumes/X/System",
       Call.BLSetVolumeFinderInfo "/Volumes/X" blessedWords] := by
  rfl

theorem ownerWorld_folderArgs_scenario :
    LegacyBlessScenario ownerWorld folderArgs "/Volumes/X" (fun _ => 0) 42 := by
  constructor <;> first | rfl | decide | (intros; rfl)

theorem ownerWorld_fileArgs_trace :
    (modeFolder ownerWorld fileArgs).trace =
      [Call.BLGetCommonMountPoint "/Volumes/X/System", Call.BLIsMountHFS "/Volumes/X",
       Call.BLIsMountAPFS "/Volumes/X", Call.BLIsMountAPFSDataRolePreSSVToSSV "/Volumes/X",
       Call.blsustatfs 157 "/Volumes/X", Call.BLGetVolumeFinderInfo "/Volumes/X",
       Call.BLGetFileID "/Volumes/X/System", Call.BLGetFileID "/Volumes/X/System/boot.efi",
       Call.lstat 364 "/Volumes/X/System/boot.efi",
       Call.BLSetVolumeFinderInfo "/Volumes/X" blessedFileWords] := by
  rfl

theorem prebootWorld_fileArgs_trace :
    (modeFolder prebootWorld fileArgs).trace =
      [Call.BLGetCommonMountPoint "/Volumes/X/System", Call.BLIsMountHFS "/Volumes/X",
       Call.BLIsMountAPFS "/Volumes/X", Call.BLIsMountAPFSDataRolePreSSVToSSV "/Volumes/X",
       Call.blsustatfs 157 "/Volumes/X", Call.APFSVolumeRole "disk1s2",
       Call.BLIsVolumeARV "/Volumes/X" "disk1s2", Call.BLGetAPFSBlessData "/Volumes/X",
       Call.BLGetAPFSInodeNum "/Volumes/X/System",
       Call.BLGetAPFSInodeNum "/Volumes/X/System/boot.efi",
       Call.lstat 484 "/Volumes/X/System/boot.efi",
       Call.BLSetAPFSBlessData "/Volumes/X" blessedFileData,
       Call.BlessPrebootVolume "disk1s2" none none none] := by
  rfl

theorem keepWorld_folderArgs_trace :
    (modeFolder keepWorld folderArgs).trace =
      [Call.BLGetCommonMountPoint "/Volumes/X/System", Call.BLIsMountHFS "/Volumes/X",
       Call.BLIsMountAPFS "/Volumes/X", Call.BLIsMountAPFSDataRolePreSSVToSSV "/Volumes/X",
       Call.blsustatfs 157 "/Volumes/X", Call.BLGetVolumeFinderInfo "/Volumes/X",
       Call.BLGetFileID "/Volumes/X/System", Call.BLLookupFileIDOnMount "/Volumes/X" 77,
       Call.lstat 385 "/Volumes/X/System/boot.efi",
       Call.BLSetVolumeFinderInfo "/Volumes/X" keptWords] := by
  rfl

theorem keepPrebootWorld_folderArgs_trace :
    (modeFolder keepPrebootWorld folderArgs).trace =
      [Call.BLGetCommonMountPoint "/Volumes/X/System", Call.BLIsMountHFS "/Volumes/X",
       Call.BLIsMountAPFS "/Volumes/X", Call.BLIsMountAPFSDataRolePreSSVToSSV "/Volumes/X",
       Call.blsustatfs 157 "/Volumes/X", Call.APFSVolumeRole "disk1s2",
       Call.BLIsVolumeARV "/Volumes/X" "disk1s2", Call.BLGetAPFSBlessData "/Volumes/X",
       Call.BLGetAPFSInodeNum "/Volumes/X/System",
       Call.BLLookupFileIDOnMount64 "/Volumes/X" 77,
       Call.lstat 505 "/Volumes/X/System/boot.efi",
       Call.BLSetAPFSBlessData "/Volumes/X" keptData,
       Call.BlessPrebootVolume "disk1s2" none none none] := by
  rfl

theorem modeFolder_blessHFS_read_arg (w : World) (a : Args) (sb : statfs) :
    (modeFolder_blessHFS w a sb).Forall
      (fun c => ∀ m, c = Call.BLGetVolumeFinderInfo m → m = a.kmount.argument) := by
  unfold modeFolder_blessHFS modeFolder_folderXid modeFolder_bootfile
  simp
  repeat' (first | intro _ | refine ⟨?_, ?_⟩ | split)
  all_goals simp_all

theorem modeFolder_blessData_read_arg (w : World) (a : Args) (sb : statfs) :
    (modeFolder_blessData w a sb).Forall
      (fun c => ∀ m, c = Call.BLGetAPFSBlessData m → m = a.kmount.argument) := by
  unfold modeFolder_blessData modeFolder_folderInum modeFolder_fileInum
  simp
  repeat' (first | intro _ | refine ⟨?_, ?_⟩ | split)
  all_goals simp_all

/-- Once the Finder info is read and the caller is authorized, it is written. -/
theorem modeFolder_finderInfo_written (w : World) (a : Args) (m : String)
    (oldwords : Fin 8 → Nat)
    (h : Call.BLGetVolumeFinderInfo m ∈ (modeFolder w a).trace)
    (hold : w.BLGetVolumeFinderInfo m = some oldwords)
    (hauth : w.geteuid = 0 ∨ w.geteuid = (w.blsustatfs 157 m).2.f_owner) :
    ∃ words, Call.BLSetVolumeFinderInfo m words ∈ (modeFolder w a).trace := by
  obtain ⟨p, hp, hgate, hHFS, h⟩ :=
    (modeFolder_mem_blessHFS w a (Call.BLGetVolumeFinderInfo m) rfl).1 h
  have ok := modeFolder_prepare_ok _ _ _ hp
  have hm := (Step.forall_iff _ _).1 (modeFolder_blessHFS_read_arg w p.actargs p.c.sb) _ h m rfl
  obtain ⟨b, hb, _⟩ := modeFolder_bootfile_res w p.actargs.kfile m (oldwords 1)
  refine ⟨_, (modeFolder_mem_blessHFS w a (Call.BLSetVolumeFinderInfo m _) rfl).2
    ⟨p, hp, hgate, hHFS, (modeFolder_blessHFS_write _ _ _ _ _).2
      ⟨hm, oldwords, b, hold, hb, ?_, rfl⟩⟩⟩
  rw [ok.sb, ← hm]
  exact hauth

/-- Once the bless data is read and the caller is authorized, it is written. -/
theorem modeFolder_blessData_written (w : World) (a : Args) (m : String)
    (h : Call.BLGetAPFSBlessData m ∈ (modeFolder w a).trace)
    (hread : (w.BLGetAPFSBlessData m).1 = 0 ∨ (w.BLGetAPFSBlessData m).1 = ENOENT)
    (hauth : w.geteuid = 0 ∨ w.geteuid = (w.blsustatfs 157 m).2.f_owner) :
    ∃ words, Call.BLSetAPFSBlessData m words ∈ (modeFolder w a).trace := by
  obtain ⟨p, hp, hgate, hHFS, hAPFS, h⟩ :=
    (modeFolder_mem_blessAPFS w a (Call.BLGetAPFSBlessData m) rfl).1 h
  have ok := modeFolder_prepare_ok _ _ _ hp
  unfold modeFolder_blessAPFS at h
  simp at h
  obtain ⟨hsh, hrole, h⟩ := h
  have hm := (Step.forall_iff _ _).1 (modeFolder_blessData_read_arg w p.actargs p.c.sb) _ h m rfl
  obtain ⟨f, hf, _⟩ := modeFolder_fileInum_res w p.actargs.kfile m
    ((w.BLGetAPFSBlessData m).2.getD (fun _ => 0) 0)
  obtain ⟨words, hset⟩ : ∃ words,
      Call.BLSetAPFSBlessData m words ∈ (modeFolder_blessData w p.actargs p.c.sb).trace :=
    ⟨_, (modeFolder_blessData_write _ _ _ _ _).2
      ⟨hm, hread, f, hf, by rw [ok.sb, ← hm]; exact hauth, rfl⟩⟩
  refine ⟨words, (modeFolder_mem_blessAPFS w a (Call.BLSetAPFSBlessData m words) rfl).2
    ⟨p, hp, hgate, hHFS, hAPFS, ?_⟩⟩
  unfold modeFolder_blessAPFS
  simp [hsh, hrole]
  exact hset

theorem Step.status_of_error {s : Step Unit} {n : Int} (h : s.res = Except.error n) :
    s.status = n := by
  unfold Step.status
  rw [h]

theorem modeFolder_blessHFS_unauthorized (w : World) (a : Args) (sb : statfs)
    (old : Fin 8 → Nat) (hold : w.BLGetVolumeFinderInfo a.kmount.argument = some old)
    (hu : w.geteuid ≠ 0 ∧ w.geteuid ≠ sb.f_owner) :
    (modeFolder_blessHFS w a sb).res = Except.error 1 := by
  obtain ⟨b, hb, _⟩ := modeFolder_bootfile_res w a.kfile a.kmount.argument (old 1)
  unfold modeFolder_blessHFS
  simp [hold, modeFolder_folderXid_res, hb, hu]
  exact Or.inr ⟨b.1, b.2, rfl⟩

theorem modeFolder_blessData_unauthorized (w : World) (a : Args) (sb : statfs)
    (hread : (w.BLGetAPFSBlessData a.kmount.argument).1 = 0
      ∨ (w.BLGetAPFSBlessData a.kmount.argument).1 = ENOENT)
    (hu : w.geteuid ≠ 0 ∧ w.geteuid ≠ sb.f_owner) :
    (modeFolder_blessData w a sb).res = Except.error 1 := by
  obtain ⟨b, hb, _⟩ := modeFolder_fileInum_res w a.kfile a.kmount.argument
    ((w.BLGetAPFSBlessData a.kmount.argument).2.getD (fun _ => 0) 0)
  unfold modeFolder_blessData
  simp [modeFolder_folderInum_res, hb, hu]
  tauto

/-- A run whose metadata block returns `n` returns `n` and issues no call after that block. -/
theorem modeFolder_of_bless_error (w : World) (a : Args) (p : Prepared) (n : Int)
    (hp : (modeFolder_prepare w a).res = Except.ok p)
    (hb : (modeFolder_bless w p.actargs p.shouldBless p.c p.labeldata p.labeldata2).res
      = Except.error n) :
    (modeFolder w a).status = n
    ∧ ∀ c ∈ (modeFolder w a).trace, c ∈ (modeFolder_prepare w a).trace
      ∨ c ∈ (modeFolder_bless w p.actargs p.shouldBless p.c p.labeldata p.labeldata2).trace := by
  constructor
  · apply Step.status_of_error
    unfold modeFolder
    simp only [Step.bind_error]
    exact Or.inr ⟨p, hp, Or.inl hb⟩
  · intro c hc
    unfold modeFolder at hc
    simp only [Step.mem_bind] at hc
    rcases hc with hc | ⟨p2, hp2, hc | ⟨b, hb2, _⟩⟩
    · exact Or.inl hc
    · rw [hp] at hp2
      cases hp2
      exact Or.inr hc
    · rw [hp] at hp2
      cases hp2
      rw [hb] at hb2
      cases hb2

theorem Call.not_write_of_prepare (w : World) (a : Args) (c : Call)
    (h : c ∈ (modeFolder_prepare w a).trace) :
    c.isMetadataWrite = false ∧ c.isPointerUpdate = false := by
  have hs := (Step.forall_iff _ _).1 (modeFolder_prepare_stage w a) c h
  constructor
  · cases hm : c.isMetadataWrite
    · rfl
    · rcases Call.stage_of_isMetadataWrite c hm with h2 | h2
      · exact absurd h2 hs.1
      · exact absurd h2 hs.2.1
  · cases hm : c.isPointerUpdate
    · rfl
    · exact absurd (Call.stage_of_isPointerUpdate c hm) hs.2.2.2

theorem Call.eq_setFinderInfo_of (c : Call) (h1 : c.stage = Stage.blessHFS)
    (h2 : c.isMetadataWrite = true) : ∃ m words, c = Call.BLSetVolumeFinderInfo m words := by
  cases c <;> simp_all [Call.stage, Call.isMetadataWrite]

theorem modeFolder_unauthorized_hfs (w : World) (a : Args) (m : String) (old : Fin 8 → Nat)
    (h : Call.BLGetVolumeFinderInfo m ∈ (modeFolder w a).trace)
    (hold : w.BLGetVolumeFinderInfo m = some old)
    (hu : w.geteuid ≠ 0 ∧ w.geteuid ≠ (w.blsustatfs 157 m).2.f_owner) :
    (modeFolder w a).status = 1
    ∧ ∀ c ∈ (modeFolder w a).trace, c.isMetadataWrite = false ∧ c.isPointerUpdate = false := by
  obtain ⟨p, hp, hgate, hHFS, h⟩ :=
    (modeFolder_mem_blessHFS w a (Call.BLGetVolumeFinderInfo m) rfl).1 h
  have ok := modeFolder_prepare_ok _ _ _ hp
  have hm := (Step.forall_iff _ _).1 (modeFolder_blessHFS_read_arg w p.actargs p.c.sb) _ h m rfl
  have hu2 : w.geteuid ≠ 0 ∧ w.geteuid ≠ p.c.sb.f_owner := by
    rw [ok.sb, ← hm]; exact hu
  have herr := modeFolder_blessHFS_unauthorized w p.actargs p.c.sb old (hm ▸ hold) hu2
  have hbless : modeFolder_bless w p.actargs p.shouldBless p.c p.labeldata p.labeldata2
      = (do let a ← modeFolder_blessHFS w p.actargs p.c.sb; pure (false, a)) := by
    unfold modeFolder_bless
    rw [if_pos (by simpa using hgate), if_pos hHFS]
  have hb : (modeFolder_bless w p.actargs p.shouldBless p.c p.labeldata p.labeldata2).res
      = Except.error 1 := by
    rw [hbless]
    simp [herr]
  obtain ⟨hs, ht⟩ := modeFolder_of_bless_error w a p 1 hp hb
  refine ⟨hs, fun c hc => ?_⟩
  rcases ht c hc with hc | hc
  · exact Call.not_write_of_prepare w a c hc
  · rw [hbless] at hc
    simp at hc
    have hst := (Step.forall_iff _ _).1 (modeFolder_blessHFS_stage w p.actargs p.c.sb) c hc
    constructor
    · cases hw : c.isMetadataWrite
      · rfl
      · obtain ⟨m2, words, rfl⟩ := Call.eq_setFinderInfo_of c hst hw
        obtain ⟨_, _, _, _, _, hauth, _⟩ := (modeFolder_blessHFS_write _ _ _ _ _).1 hc
        omega
    · cases hw : c.isPointerUpdate
      · rfl
      · have := Call.stage_of_isPointerUpdate c hw
        rw [hst] at this
        exact absurd this (by decide)

theorem modeFolder_blessData_writes (w : World) (a : Args) (sb : statfs) :
    (modeFolder_blessData w a sb).Forall
      (fun c => c.isMetadataWrite = true → ∃ m words, c = Call.BLSetAPFSBlessData m words) := by
  unfold modeFolder_blessData modeFolder_folderInum modeFolder_fileInum
  simp
  repeat' (first | intro _ | refine ⟨?_, ?_⟩ | split)
  all_goals simp_all [Call.isMetadataWrite]

theorem modeFolder_unauthorized_apfs (w : World) (a : Args) (m : String)
    (h : Call.BLGetAPFSBlessData m ∈ (modeFolder w a).trace)
    (hread : (w.BLGetAPFSBlessData m).1 = 0 ∨ (w.BLGetAPFSBlessData m).1 = ENOENT)
    (hu : w.geteuid ≠ 0 ∧ w.geteuid ≠ (w.blsustatfs 157 m).2.f_owner) :
    (modeFolder w a).status = 1
    ∧ ∀ c ∈ (modeFolder w a).trace, c.isMetadataWrite = false ∧ c.isPointerUpdate = false := by
  obtain ⟨p, hp, hgate, hHFS, hAPFS, h⟩ :=
    (modeFolder_mem_blessAPFS w a (Call.BLGetAPFSBlessData m) rfl).1 h
  have ok := modeFolder_prepare_ok _ _ _ hp
  unfold modeFolder_blessAPFS at h
  simp at h
  obtain ⟨hsh, hrole, h⟩ := h
  have hm := (Step.forall_iff _ _).1 (modeFolder_blessData_read_arg w p.actargs p.c.sb) _ h m rfl
  have hu2 : w.geteuid ≠ 0 ∧ w.geteuid ≠ p.c.sb.f_owner := by
    rw [ok.sb, ← hm]; exact hu
  have herr := modeFolder_blessData_unauthorized w p.actargs p.c.sb (hm ▸ hread) hu2
  have hbless : modeFolder_bless w p.actargs p.shouldBless p.c p.labeldata p.labeldata2
      = modeFolder_blessAPFS w p.actargs p.shouldBless p.c p.labeldata p.labeldata2 := by
    unfold modeFolder_bless
    rw [if_pos (by simpa using hgate), if_neg (by simp [hHFS]), if_pos hAPFS]
  have hb : (modeFolder_bless w p.actargs p.shouldBless p.c p.labeldata p.labeldata2).res
      = Except.error 1 := by
    rw [hbless]
    unfold modeFolder_blessAPFS
    simp [hsh, hrole, herr]
  obtain ⟨hs, ht⟩ := modeFolder_of_bless_error w a p 1 hp hb
  refine ⟨hs, fun c hc => ?_⟩
  rcases ht c hc with hc | hc
  · exact Call.not_write_of_prepare w a c hc
  · rw [hbless] at hc
    unfold modeFolder_blessAPFS at hc
    simp [hsh, hrole, herr] at hc
    have hst := (Step.forall_iff _ _).1 (modeFolder_blessData_stage w p.actargs p.c.sb) c hc
    constructor
    · cases hw : c.isMetadataWrite
      · rfl
      · obtain ⟨m2, words, rfl⟩ :=
          (Step.forall_iff _ _).1 (modeFolder_blessData_writes w p.actargs p.c.sb) c hc hw
        obtain ⟨_, _, _, _, hauth, _⟩ := (modeFolder_blessData_write _ _ _ _ _).1 hc
        omega
    · cases hw : c.isPointerUpdate
      · rfl
      · have := Call.stage_of_isPointerUpdate c hw
        rw [hst] at this
        exact absurd this (by decide)

theorem strangerWorld_trace :
    (modeFolder strangerWorld folderSetBootArgs).trace =
      [Call.BLGetCommonMountPoint "/Volumes/X/System", Call.BLIsMountHFS "/Volumes/X",
       Call.BLIsMountAPFS "/Volumes/X", Call.BLIsMountAPFSDataRolePreSSVToSSV "/Volumes/X",
       Call.blsustatfs 157 "/Volumes/X", Call.BLGetVolumeFinderInfo "/Volumes/X",
       Call.BLGetFileID "/Volumes/X/System"] := by
  rfl

theorem strangerPrebootWorld_trace :
    (modeFolder strangerPrebootWorld folderArgs).trace =
      [Call.BLGetCommonMountPoint "/Volumes/X/System", Call.BLIsMountHFS "/Volumes/X",
       Call.BLIsMountAPFS "/Volumes/X", Call.BLIsMountAPFSDataRolePreSSVToSSV "/Volumes/X",
       Call.blsustatfs 157 "/Volumes/X", Call.APFSVolumeRole "disk1s2",
       Call.BLIsVolumeARV "/Volumes/X" "disk1s2", Call.BLGetAPFSBlessData "/Volumes/X",
       Call.BLGetAPFSInodeNum "/Volumes/X/System"] := by
  rfl

theorem Step.trace_bind {α β : Type} (s : Step α) (f : α → Step β) :
    (s >>= f).trace = s.trace ++
      (match s.res with
        | Except.ok a => (f a).trace
        | Except.error _ => []) := by
  rw [Step.bind_def]
  unfold Step.bind
  cases h : s.res <;> simp

theorem Step.res_bind {α β : Type} (s : Step α) (f : α → Step β) :
    (s >>= f).res =
      (match s.res with
        | Except.ok a => (f a).res
        | Except.error e => Except.error e) := by
  rw [Step.bind_def]
  unfold Step.bind
  cases h : s.res <;> simp

theorem modeFolder_materialize_spec (w : World) (a : Args) (isAPFS : Bool) (data : Bytes) :
    ((w.lstat 212 a.kfile.argument = some true ∧ w.BLLoadFile 215 a.kfile.argument = some data) →
      (modeFolder_materialize w a isAPFS data).creates = 0
      ∧ Call.CopyManifests a.kfile.argument a.kbootefi.argument
          ∈ (modeFolder_materialize w a isAPFS data).trace
      ∧ (modeFolder_materialize w a isAPFS data).res =
          if w.CopyManifests a.kfile.argument a.kbootefi.argument a.kbootefi.argument ≠ 0
          then Except.error 3 else Except.ok ())
    ∧ (¬ (w.lstat 212 a.kfile.argument = some true
          ∧ w.BLLoadFile 215 a.kfile.argument = some data) →
      (modeFolder_materialize w a isAPFS data).creates = 1
      ∧ Call.BLCreateFileWithOptions data a.kfile.argument
          (if isAPFS then Preallocate.kTryPreallocate else Preallocate.kMustPreallocate)
          ∈ (modeFolder_materialize w a isAPFS data).trace
      ∧ (w.BLCreateFileWithOptions data a.kfile.argument
          (if isAPFS then Preallocate.kTryPreallocate else Preallocate.kMustPreallocate) = 0 →
        Call.CopyManifests a.kfile.argument a.kbootefi.argument
          ∈ (modeFolder_materialize w a isAPFS data).trace
        ∧ (modeFolder_materialize w a isAPFS data).res =
          if w.CopyManifests a.kfile.argument a.kbootefi.argument a.kbootefi.argument ≠ 0
          then Except.error 3 else Except.ok ())
      ∧ (w.BLCreateFileWithOptions data a.kfile.argument
          (if isAPFS then Preallocate.kTryPreallocate else Preallocate.kMustPreallocate) ≠ 0 →
        (∀ d s, Call.CopyManifests d s ∉ (modeFolder_materialize w a isAPFS data).trace)
        ∧ (modeFolder_materialize w a isAPFS data).res = Except.error 2)) := by
  unfold Step.creates modeFolder_materialize
  by_cases hl : w.lstat 212 a.kfile.argument = some true
  · by_cases hd : w.BLLoadFile 215 a.kfile.argument = some data
    · by_cases hc : w.CopyManifests a.kfile.argument a.kbootefi.argument a.kbootefi.argument = 0
      · simp [Step.trace_bind, Step.res_bind, hl, hd, hc, Call.isCreateFile]
      · simp [Step.trace_bind, Step.res_bind, hl, hd, hc, Call.isCreateFile]
    · by_cases hw : w.BLCreateFileWithOptions data a.kfile.argument
          (if isAPFS then Preallocate.kTryPreallocate else Preallocate.kMustPreallocate) = 0
      · by_cases hc :
            w.CopyManifests a.kfile.argument a.kbootefi.argument a.kbootefi.argument = 0
        · simp [Step.trace_bind, Step.res_bind, hl, hd, hc, hw, Call.isCreateFile]
        · simp [Step.trace_bind, Step.res_bind, hl, hd, hc, hw, Call.isCreateFile]
      · simp [Step.trace_bind, Step.res_bind, hl, hd, hw, Call.isCreateFile]
  · by_cases hw : w.BLCreateFileWithOptions data a.kfile.argument
        (if isAPFS then Preallocate.kTryPreallocate else Preallocate.kMustPreallocate) = 0
    · by_cases hc :
          w.CopyManifests a.kfile.argument a.kbootefi.argument a.kbootefi.argument = 0
      · simp [Step.trace_bind, Step.res_bind, hl, hc, hw, Call.isCreateFile]
      · simp [Step.trace_bind, Step.res_bind, hl, hc, hw, Call.isCreateFile]
    · simp [Step.trace_bind, Step.res_bind, hl, hw, Call.isCreateFile]

theorem Call.stage_of_isMaterialize (c : Call) (h : c.isMaterialize = true) :
    c.stage = Stage.bootefi := by
  cases c <;> simp_all [Call.isMaterialize, Call.stage]

theorem Step.filter_eq_nil_of_stage {α : Type} {s : Step α} {k : Stage}
    (h : s.Forall (fun c => c.stage = k)) (hk : k ≠ Stage.bootefi) :
    s.trace.filter Call.isMaterialize = [] := by
  rw [List.filter_eq_nil_iff]
  intro c hc hm
  have h1 := (Step.forall_iff _ _).1 h c hc
  have h2 := Call.stage_of_isMaterialize c hm
  rw [h1] at h2
  exact hk h2

theorem modeFolder_defaultBootEFI_filter (w : World) (a : Args) :
    (modeFolder_defaultBootEFI w a).trace.filter Call.isMaterialize = [] := by
  rw [List.filter_eq_nil_iff]
  intro c hc
  revert c
  rw [← Step.forall_iff]
  unfold modeFolder_defaultBootEFI
  simp
  repeat' (first | intro _ | refine ⟨?_, ?_⟩ | split)
  all_goals simp_all [Call.isMaterialize]

theorem modeFolder_materialize_lstat (w : World) (a : Args) (isAPFS : Bool) (data : Bytes) :
    (modeFolder_materialize w a isAPFS data).Forall
      (fun c => ∀ dst, c = Call.lstat 212 dst → dst = a.kfile.argument) := by
  unfold modeFolder_materialize
  simp

theorem List.filter_isMaterialize_eq_nil {l : List Call}
    (h : ∀ c ∈ l, c.stage ≠ Stage.bootefi) : l.filter Call.isMaterialize = [] := by
  rw [List.filter_eq_nil_iff]
  intro c hc hm
  exact h c hc (Call.stage_of_isMaterialize c hm)

/-- The calls after line 326 are not calls of the boot.efi block. -/
theorem modeFolder_rest_stage (w : World) (p : Prepared) :
    (do
      let b ← modeFolder_bless w p.actargs p.shouldBless p.c p.labeldata p.labeldata2
      modeFolder_personalize w b.2
      modeFolder_setboot w b.2 p.shouldBless p.c.isAPFS b.1 p.labeldata).Forall
      (fun c => c.stage ≠ Stage.bootefi) := by
  simp only [Step.forall_bind]
  refine ⟨(modeFolder_bless_stage _ _ _ _ _ _).mono ?_, fun b _ => ⟨?_, fun _ _ => ?_⟩⟩
  · rintro c (h | h) <;> rw [h] <;> decide
  · exact (modeFolder_personalize_stage _ _).mono (fun c h => by rw [h]; decide)
  · exact (modeFolder_setboot_stage _ _ _ _ _ _).mono (fun c h => by rw [h]; decide)

theorem modeFolder_of_prepare (w : World) (a : Args) :
    (modeFolder w a).trace.filter Call.isMaterialize
        = (modeFolder_prepare w a).trace.filter Call.isMaterialize
    ∧ (∀ n, (modeFolder_prepare w a).res = Except.error n → (modeFolder w a).status = n)
    ∧ (∀ c, c.stage = Stage.bootefi → c ∈ (modeFolder w a).trace →
        c ∈ (modeFolder_prepare w a).trace) := by
  unfold modeFolder
  refine ⟨?_, ?_, ?_⟩
  · rw [Step.trace_bind, List.filter_append]
    cases hp : (modeFolder_prepare w a).res with
    | error e => simp
    | ok p =>
      simp only [List.append_right_eq_self]
      exact List.filter_isMaterialize_eq_nil ((Step.forall_iff _ _).1 (modeFolder_rest_stage w p))
  · intro n hn
    apply Step.status_of_error
    rw [Step.res_bind, hn]
  · intro c hc h
    rw [Step.trace_bind, List.mem_append] at h
    rcases h with h | h
    · exact h
    · cases hp : (modeFolder_prepare w a).res with
      | error e => rw [hp] at h; simp at h
      | ok p =>
        rw [hp] at h
        exact absurd hc ((Step.forall_iff _ _).1 (modeFolder_rest_stage w p) c h)

theorem modeFolder_prepare_of_bootefi (w : World) (a : Args) (e : Int × Args)
    (cl : Classification) (he : (extractMountPoint w a).res = Except.ok e) (h0 : e.1 = 0)
    (hcl : (modeFolder_classify w (modeFolder_guessFile w e.2)).res = Except.ok cl) :
    (modeFolder_prepare w a).trace.filter Call.isMaterialize
        = (modeFolder_bootefi w (modeFolder_guessFile w e.2) cl.isAPFS cl.sb).trace.filter
            Call.isMaterialize
    ∧ (∀ n, (modeFolder_bootefi w (modeFolder_guessFile w e.2) cl.isAPFS cl.sb).res
          = Except.error n → (modeFolder_prepare w a).res = Except.error n) := by
  have f1 := Step.filter_eq_nil_of_stage (extractMountPoint_stage w a) (by decide)
  have f2 := Step.filter_eq_nil_of_stage
    (modeFolder_classify_stage w (modeFolder_guessFile w e.2)) (by decide)
  have f3 : ∀ a2, (modeFolder_apfsdriver w a2 cl).trace.filter Call.isMaterialize = [] :=
    fun a2 => Step.filter_eq_nil_of_stage (modeFolder_apfsdriver_stage w a2 cl) (by decide)
  have f4 : ∀ a2, (modeFolder_label w a2 cl).trace.filter Call.isMaterialize = [] :=
    fun a2 => Step.filter_eq_nil_of_stage (modeFolder_label_stage w a2 cl) (by decide)
  unfold modeFolder_prepare
  constructor
  · simp only [Step.trace_bind, Step.res_bind, he, h0, hcl, List.filter_append, f1, f2]
    simp [Step.trace_bind, Step.res_bind, hcl, List.filter_append, f2]
    have g3 : ∀ a2, ∀ c ∈ (modeFolder_apfsdriver w a2 cl).trace, c.isMaterialize = false := by
      intro a2 c hc
      have := List.filter_eq_nil_iff.1 (f3 a2) c hc
      simpa using this
    have g4 : ∀ a2, ∀ c ∈ (modeFolder_label w a2 cl).trace, c.isMaterialize = false := by
      intro a2 c hc
      have := List.filter_eq_nil_iff.1 (f4 a2) c hc
      simpa using this
    cases hb : (modeFolder_bootefi w (modeFolder_guessFile w e.2) cl.isAPFS cl.sb).res with
    | error n => simp
    | ok a2 =>
      simp
      cases hd : (modeFolder_apfsdriver w a2 cl).res with
      | error n =>
        simp
        exact g3 a2
      | ok u =>
        simp
        cases hl : (modeFolder_label w a2 cl).res <;> simp <;>
          (rintro c (hc | hc); exact g3 a2 c hc; exact g4 a2 c hc)
  · intro n hn
    simp [Step.res_bind, he, h0, hcl, hn]

theorem modeFolder_prepare_reach_bootefi (w : World) (a : Args) (c : Call)
    (hc : c.stage = Stage.bootefi) (h : c ∈ (modeFolder_prepare w a).trace) :
    ∃ e cl, (extractMountPoint w a).res = Except.ok e ∧ e.1 = 0
      ∧ (modeFolder_classify w (modeFolder_guessFile w e.2)).res = Except.ok cl
      ∧ c ∈ (modeFolder_bootefi w (modeFolder_guessFile w e.2) cl.isAPFS cl.sb).trace := by
  have n1 : c ∉ (extractMountPoint w a).trace :=
    Step.not_mem_of_stage (extractMountPoint_stage w a) c (by rw [hc]; decide)
  have n2 : ∀ a2, c ∉ (modeFolder_classify w a2).trace := fun a2 =>
    Step.not_mem_of_stage (modeFolder_classify_stage w a2) c (by rw [hc]; decide)
  have n3 : ∀ a2 cl, c ∉ (modeFolder_apfsdriver w a2 cl).trace := fun a2 cl =>
    Step.not_mem_of_stage (modeFolder_apfsdriver_stage w a2 cl) c (by rw [hc]; decide)
  have n4 : ∀ a2 cl, c ∉ (modeFolder_label w a2 cl).trace := fun a2 cl =>
    Step.not_mem_of_stage (modeFolder_label_stage w a2 cl) c (by rw [hc]; decide)
  unfold modeFolder_prepare at h
  simp [n1, n2, n3, n4] at h
  obtain ⟨e1, e2, he, h0, cl, hcl, h⟩ := h
  exact ⟨(e1, e2), cl, he, h0, hcl, h⟩

theorem modeFolder_defaultBootEFI_lstat (w : World) (a : Args) (l : Nat) (d : String) :
    Call.lstat l d ∉ (modeFolder_defaultBootEFI w a).trace := by
  have : (modeFolder_defaultBootEFI w a).Forall (fun c => c ≠ Call.lstat l d) := by
    unfold modeFolder_defaultBootEFI
    simp
  exact fun h => (Step.forall_iff _ _).1 this _ h rfl

theorem modeFolder_loadBootEFI_reach (w : World) (a3 : Args) (isAPFS : Bool) (dst : String)
    (h : Call.lstat 212 dst ∈ (modeFolder_loadBootEFI w a3 isAPFS).trace) :
    ∃ data, a3.kfile.argument = dst
      ∧ w.BLLoadFile 200 a3.kbootefi.argument = some data
      ∧ (modeFolder_loadBootEFI w a3 isAPFS).trace.filter Call.isMaterialize
          = (modeFolder_materialize w a3 isAPFS data).trace.filter Call.isMaterialize
      ∧ (∀ n, (modeFolder_materialize w a3 isAPFS data).res = Except.error n →
          (modeFolder_loadBootEFI w a3 isAPFS).res = Except.error n) := by
  unfold modeFolder_loadBootEFI at h ⊢
  cases hd : w.BLLoadFile 200 a3.kbootefi.argument with
  | none => simp [hd] at h
  | some data =>
    by_cases hk : a3.kfile.present = true
    · simp [hd, hk] at h
      have hdst := (Step.forall_iff _ _).1 (modeFolder_materialize_lstat w a3 isAPFS data) _ h
        dst rfl
      refine ⟨data, hdst.symm, rfl, ?_, ?_⟩
      · simp [Step.trace_bind, hk, Call.isMaterialize]
      · intro n hn
        simp [Step.res_bind, hk, hn]
    · simp [hd, hk] at h

theorem modeFolder_bootefi_reach (w : World) (a : Args) (isAPFS : Bool) (sb : statfs)
    (dst : String) (h : Call.lstat 212 dst ∈ (modeFolder_bootefi w a isAPFS sb).trace) :
    ∃ a3 data, a3.kfile.argument = dst
      ∧ w.BLLoadFile 200 a3.kbootefi.argument = some data
      ∧ (modeFolder_bootefi w a isAPFS sb).trace.filter Call.isMaterialize
          = (modeFolder_materialize w a3 isAPFS data).trace.filter Call.isMaterialize
      ∧ (∀ n, (modeFolder_materialize w a3 isAPFS data).res = Except.error n →
          (modeFolder_bootefi w a isAPFS sb).res = Except.error n) := by
  unfold modeFolder_bootefi at h ⊢
  by_cases hp : a.kbootefi.present = true
  · simp only [hp, if_true] at h ⊢
    rw [Step.mem_bind] at h
    rcases h with h | ⟨a3, h3, h⟩
    · by_cases hh : a.kbootefi.hasArg = true
      · simp [hh] at h
      · simp [hh, modeFolder_defaultBootEFI_lstat] at h
    · have f0 : (if (!a.kbootefi.hasArg) = true then modeFolder_defaultBootEFI w a
          else pure a).trace.filter Call.isMaterialize = [] := by
        by_cases hh : a.kbootefi.hasArg = true
        · simp [hh]
        · simp only [hh]
          simpa using modeFolder_defaultBootEFI_filter w a
      by_cases hc : (!isAPFS || (sb.f_flags &&& MNT_RDONLY) == 0) = true
      · simp only [hc, if_true] at h ⊢
        simp at h
        obtain ⟨data, h1, h2, h3f, h4⟩ := modeFolder_loadBootEFI_reach w a3 isAPFS dst h
        refine ⟨a3, data, h1, h2, ?_, ?_⟩
        · rw [Step.trace_bind, h3, List.filter_append, f0]
          simp [Step.trace_bind, List.filter_append, ← h3f]
          cases (modeFolder_loadBootEFI w a3 isAPFS).res <;> simp
        · intro n hn
          rw [Step.res_bind, h3]
          simp [Step.res_bind, h4 n hn]
      · simp [hc] at h
  · simp [hp] at h

/-- A run that reaches the materializer: the calls counted are those of the materializer, and a
`return` of the materializer is a `return` of `modeFolder`. -/
theorem modeFolder_reaches_materialize (w : World) (a : Args) (dst : String)
    (h : Call.lstat 212 dst ∈ (modeFolder w a).trace) :
    ∃ a3 isAPFS data, a3.kfile.argument = dst
      ∧ w.BLLoadFile 200 a3.kbootefi.argument = some data
      ∧ (modeFolder w a).trace.filter Call.isMaterialize
          = (modeFolder_materialize w a3 isAPFS data).trace.filter Call.isMaterialize
      ∧ (∀ n, (modeFolder_materialize w a3 isAPFS data).res = Except.error n →
          (modeFolder w a).status = n) := by
  obtain ⟨p1, p2, p3⟩ := modeFolder_of_prepare w a
  obtain ⟨e, cl, he, h0, hcl, hb⟩ :=
    modeFolder_prepare_reach_bootefi w a (Call.lstat 212 dst) rfl
      (p3 (Call.lstat 212 dst) rfl h)
  obtain ⟨q1, q2⟩ := modeFolder_prepare_of_bootefi w a e cl he h0 hcl
  obtain ⟨a3, data, r1, r2, r3, r4⟩ := modeFolder_bootefi_reach w _ _ _ dst hb
  exact ⟨a3, cl.isAPFS, data, r1, r2, by rw [p1, q1, r3],
    fun n hn => p2 n (q2 n (r4 n hn))⟩

theorem List.countP_isCreateFile_filter (l : List Call) :
    (l.filter Call.isMaterialize).countP Call.isCreateFile = l.countP Call.isCreateFile := by
  induction l with
  | nil => rfl
  | cons c l ih =>
    cases c <;> simp [List.filter_cons, List.countP_cons, Call.isMaterialize, Call.isCreateFile, ih]

theorem List.mem_filter_isMaterialize {l : List Call} {c : Call} (hc : c.isMaterialize = true) :
    c ∈ l.filter Call.isMaterialize ↔ c ∈ l := by
  simp [List.mem_filter, hc]

theorem failCreateWorld_trace :
    (modeFolder failCreateWorld bootefiArgs).trace =
      [Call.BLGetCommonMountPoint "/Volumes/X/System", Call.BLIsMountHFS "/Volumes/X",
       Call.BLIsMountAPFS "/Volumes/X", Call.BLIsMountAPFSDataRolePreSSVToSSV "/Volumes/X",
       Call.blsustatfs 157 "/Volumes/X", Call.BLLoadFile 200 "/src/boot.efi",
       Call.lstat 212 "/Volumes/X/System/boot.efi",
       Call.BLCreateFileWithOptions [1, 2, 3] "/Volumes/X/System/boot.efi"
         Preallocate.kMustPreallocate] := by
  rfl

theorem quietWorld_bootefi_trace :
    (modeFolder quietWorld bootefiArgs).trace =
      [Call.BLGetCommonMountPoint "/Volumes/X/System", Call.BLIsMountHFS "/Volumes/X",
       Call.BLIsMountAPFS "/Volumes/X", Call.BLIsMountAPFSDataRolePreSSVToSSV "/Volumes/X",
       Call.blsustatfs 157 "/Volumes/X", Call.BLLoadFile 200 "/src/boot.efi",
       Call.lstat 212 "/Volumes/X/System/boot.efi",
       Call.BLLoadFile 215 "/Volumes/X/System/boot.efi",
       Call.CopyManifests "/Volumes/X/System/boot.efi" "/src/boot.efi",
       Call.BLGetVolumeFinderInfo "/Volumes/X",
       Call.BLGetFileID "/Volumes/X/System", Call.BLGetFileID "/Volumes/X/System/boot.efi",
       Call.lstat 364 "/Volumes/X/System/boot.efi",
       Call.BLSetVolumeFinderInfo "/Volumes/X" blessedFileWords] := by
  rfl

theorem extractMountPoint_mount (w : World) (a : Args) (e : Int × Args)
    (h : (extractMountPoint w a).res = Except.ok e) (h0 : e.1 = 0) :
    e.2.kmount.argument = mountPoint w a := by
  unfold extractMountPoint at h
  unfold mountPoint
  by_cases hm : a.kmount.present = true
  · simp [hm] at h
    subst h
    simp [hm]
  · by_cases hf : a.kfolder.present = true
    · simp [hm, hf] at h
      rcases h with ⟨_, h⟩ | ⟨_, h⟩ <;> subst h <;> simp [hm]
    · simp [hm, hf] at h
      subst h
      simp at h0

theorem modeFolder_prepare_mount (w : World) (a : Args) (p : Prepared)
    (h : (modeFolder_prepare w a).res = Except.ok p) :
    p.actargs.kmount.argument = mountPoint w a := by
  unfold modeFolder_prepare at h
  simp at h
  obtain ⟨e1, e2, he, h0, c, hc, a2, ha2, _, l1, l2, _, hp⟩ := h
  have hm := extractMountPoint_mount _ _ _ he h0
  obtain ⟨arg, rfl⟩ := modeFolder_bootefi_frame _ _ _ _ _ ha2
  subst hp
  have hg := modeFolder_guessFile_eq w e2
  simp at hm ⊢
  rw [hg]
  exact hm

theorem modeFolder_bootfile_frame (w : World) (k : clarg) (m : String) (n : Nat)
    (b : Nat × clarg) (h : (modeFolder_bootfile w k m n).res = Except.ok b) :
    b.2.present = k.present ∧ (k.present = true → b.2 = k) := by
  unfold modeFolder_bootfile at h
  by_cases hk : k.present = true
  · cases hid : w.BLGetFileID k.argument with
    | none =>
      simp [hk, hid] at h
      subst h
      simp
    | some id =>
      by_cases hl : w.lstat 364 k.argument = some true
      · simp [hk, hid, hl] at h
        subst h
        simp
      · simp [hk, hid, hl] at h
        subst h
        simp
  · have hk : k.present = false := by simpa using hk
    by_cases hn : n = 0
    · simp [hk, hn] at h
      subst h
      simp
    · cases hp : w.BLLookupFileIDOnMount m n with
      | none =>
        simp [hk, hn, hp] at h
        subst h
        simp
      | some path =>
        by_cases hl : w.lstat 385 path = some true
        · simp [hk, hn, hp, hl] at h
          subst h
          simp [hk]
        · simp [hk, hn, hp, hl] at h
          subst h
          simp [hk]

theorem modeFolder_fileInum_frame (w : World) (k : clarg) (m : String) (n : Nat)
    (b : Nat × clarg) (h : (modeFolder_fileInum w k m n).res = Except.ok b) :
    b.2.present = k.present ∧ (k.present = true → b.2 = k) := by
  unfold modeFolder_fileInum at h
  by_cases hk : k.present = true
  · cases hid : w.BLGetAPFSInodeNum k.argument with
    | none =>
      simp [hk, hid] at h
      subst h
      simp
    | some id =>
      by_cases hl : w.lstat 484 k.argument = some true
      · simp [hk, hid, hl] at h
        subst h
        simp
      · simp [hk, hid, hl] at h
        subst h
        simp
  · have hk : k.present = false := by simpa using hk
    by_cases hn : n = 0
    · simp [hk, hn] at h
      subst h
      simp
    · cases hp : w.BLLookupFileIDOnMount64 m n w.kMaxArgLength with
      | none =>
        simp [hk, hn, hp] at h
        subst h
        simp
      | some path =>
        by_cases hl : w.lstat 505 path = some true
        · simp [hk, hn, hp, hl] at h
          subst h
          simp [hk]
        · simp [hk, hn, hp, hl] at h
          subst h
          simp [hk]

theorem modeFolder_blessHFS_frame (w : World) (a : Args) (sb : statfs) (a2 : Args)
    (h : (modeFolder_blessHFS w a sb).res = Except.ok a2) :
    ∃ k, a2 = { a with kfile := k } ∧ k.present = a.kfile.present
      ∧ (a.kfile.present = true → k = a.kfile) := by
  unfold modeFolder_blessHFS at h
  simp at h
  obtain ⟨old, _, x, _, b1, b2, hb, _, _, h⟩ := h
  obtain ⟨f1, f2⟩ := modeFolder_bootfile_frame _ _ _ _ _ hb
  exact ⟨b2, h.symm, f1, f2⟩

theorem modeFolder_blessData_frame (w : World) (a : Args) (sb : statfs) (a2 : Args)
    (h : (modeFolder_blessData w a sb).res = Except.ok a2) :
    ∃ k, a2 = { a with kfile := k } ∧ k.present = a.kfile.present
      ∧ (a.kfile.present = true → k = a.kfile) := by
  unfold modeFolder_blessData at h
  simp at h
  obtain ⟨_, x, _, b1, b2, hb, _, _, h⟩ := h
  obtain ⟨f1, f2⟩ := modeFolder_fileInum_frame _ _ _ _ _ hb
  exact ⟨b2, h.symm, f1, f2⟩

/-- The value of `useFullPath` and of `actargs` after the metadata block. -/
theorem modeFolder_bless_ok (w : World) (a : Args) (sh : Bool) (c : Classification)
    (l l2 : Option Bytes) (b : Bool × Args)
    (h : (modeFolder_bless w a sh c l l2).res = Except.ok b) :
    (b.1 = true ↔ (sh = true ∧ c.isHFS = false ∧ c.isAPFS = true
        ∧ (c.role = VolRole.APFS_VOL_ROLE_PREBOOT ∨ c.role = VolRole.APFS_VOL_ROLE_RECOVERY)
        ∧ a.kfile.present = true))
    ∧ ∃ k, b.2 = { a with kfile := k } ∧ k.present = a.kfile.present
      ∧ (a.kfile.present = true → k = a.kfile) := by
  have self : ∃ k, a = { a with kfile := k } ∧ k.present = a.kfile.present
      ∧ (a.kfile.present = true → k = a.kfile) := ⟨a.kfile, rfl, rfl, fun _ => rfl⟩
  unfold modeFolder_bless at h
  by_cases hg : (sh || (c.isAPFS && !c.isAPFSDataRolePreSSVToSSVThusDontWriteToVol)) = true
  · rw [if_pos hg] at h
    by_cases hH : c.isHFS = true
    · rw [if_pos hH] at h
      simp at h
      obtain ⟨a2, ha2, hb⟩ := h
      subst hb
      exact ⟨by simp [hH], modeFolder_blessHFS_frame _ _ _ _ ha2⟩
    · rw [if_neg hH] at h
      have hH : c.isHFS = false := by simpa using hH
      by_cases hA : c.isAPFS = true
      · rw [if_pos hA] at h
        unfold modeFolder_blessAPFS at h
        by_cases hs : sh = true
        · by_cases hr : c.role = VolRole.APFS_VOL_ROLE_PREBOOT
              ∨ c.role = VolRole.APFS_VOL_ROLE_RECOVERY
          · simp [hs, hr] at h
            obtain ⟨⟨a2, ha2, hb⟩, _⟩ := h
            subst hb
            refine ⟨by simp [hs, hH, hA, hr], modeFolder_blessData_frame _ _ _ _ ha2⟩
          · simp [hs, hr] at h
            obtain ⟨_, hb⟩ := h
            subst hb
            exact ⟨by simp [hr], self⟩
        · simp [hs] at h
          obtain ⟨_, hb⟩ := h
          subst hb
          exact ⟨by simp [hs], self⟩
      · rw [if_neg hA] at h
        simp at h
        subst h
        exact ⟨by simp [hA], self⟩
  · rw [if_neg hg] at h
    simp at h
    subst h
    simp at hg
    exact ⟨by simp [hg.1], self⟩

/-- A call of the firmware-pointer block is issued after the metadata update has succeeded. -/
theorem modeFolder_mem_setboot (w : World) (a : Args) (c : Call) (hs : c.stage = Stage.setboot)
    (h : c ∈ (modeFolder w a).trace) :
    ∃ p b, (modeFolder_prepare w a).res = Except.ok p
      ∧ (modeFolder_bless w p.actargs p.shouldBless p.c p.labeldata p.labeldata2).res
          = Except.ok b
      ∧ c ∈ (modeFolder_setboot w b.2 p.shouldBless p.c.isAPFS b.1 p.labeldata).trace := by
  unfold modeFolder at h
  simp only [Step.mem_bind] at h
  rcases h with h | ⟨p, hp, h | ⟨b, hb, h | ⟨_, _, h⟩⟩⟩
  · have := (Step.forall_iff _ _).1 (modeFolder_prepare_stage w a) c h
    rw [hs] at this
    simp at this
  · have := (Step.forall_iff _ _).1 (modeFolder_bless_stage _ _ _ _ _ _) c h
    rw [hs] at this
    simp at this
  · have := (Step.forall_iff _ _).1 (modeFolder_personalize_stage _ _) c h
    rw [hs] at this
    simp at this
  · exact ⟨p, b, hp, hb, h⟩

/-- A run that returns 0 has gone through every block. -/
theorem modeFolder_ok (w : World) (a : Args) (h : (modeFolder w a).res = Except.ok ()) :
    ∃ p b, (modeFolder_prepare w a).res = Except.ok p
      ∧ (modeFolder_bless w p.actargs p.shouldBless p.c p.labeldata p.labeldata2).res
          = Except.ok b
      ∧ ∀ c, c ∈ (modeFolder_setboot w b.2 p.shouldBless p.c.isAPFS b.1 p.labeldata).trace →
          c ∈ (modeFolder w a).trace := by
  have h2 := h
  unfold modeFolder at h2
  simp only [Step.bind_ok] at h2
  obtain ⟨p, hp, b, hb, u, hu, _⟩ := h2
  refine ⟨p, b, hp, hb, fun c hc => ?_⟩
  unfold modeFolder
  simp only [Step.mem_bind]
  exact Or.inr ⟨p, hp, Or.inr ⟨b, hb, Or.inr ⟨u, hu, hc⟩⟩⟩

/-- The calls of the firmware-pointer block under the EFI firmware style. -/
theorem modeFolder_setboot_efi (w : World) (a : Args) (sh isAPFS full : Bool)
    (l : Option Bytes) (hefi : w.getPrebootType = BLPreBootEnvType.kBLPreBootEnvType_EFI)
    (c : Call) :
    c ∈ (modeFolder_setboot w a sh isAPFS full l).trace ↔
      a.ksetboot.present = true ∧
      ((a.klegacy.present = true ∧ c = Call.setefilegacypath a.kmount.argument a.knextonly.present
          (if a.klegacydrivehint.present then some a.klegacydrivehint.argument else none)
          (if a.koptions.present then some a.koptions.argument else none))
       ∨ (a.klegacy.present = false ∧ c = Call.setefifilepath
          (if (if !sh && !isAPFS && a.kfile.present then true else full) = true
            then a.kfile.argument else a.kmount.argument)
          a.knextonly.present
          (if a.koptions.present then some a.koptions.argument else none)
          a.kshortform.present)) := by
  unfold modeFolder_setboot
  by_cases hsb : a.ksetboot.present = true
  · by_cases hl : a.klegacy.present = true
    · simp [hsb, hefi, hl]
    · simp [hsb, hefi, hl]
  · simp [hsb]

/-- The path handed to `setefifilepath`, in terms of the arguments and the probes' answers. -/
theorem modeFolder_pointer_path (w : World) (a : Args) (p : Prepared) (b : Bool × Args)
    (hp : (modeFolder_prepare w a).res = Except.ok p)
    (hb : (modeFolder_bless w p.actargs p.shouldBless p.c p.labeldata p.labeldata2).res
      = Except.ok b) :
    (if (if !p.shouldBless && !p.c.isAPFS && b.2.kfile.present then true else b.1) = true
      then b.2.kfile.argument else b.2.kmount.argument)
    = (if ((fileArg w a).present
          && ((!a.kfolder.present && !(w.BLIsMountAPFS (mountPoint w a)).2)
            || (a.kfolder.present && !(w.BLIsMountHFS (mountPoint w a)).2
                && (w.BLIsMountAPFS (mountPoint w a)).2
                && decide ((w.APFSVolumeRole
                      (strskip (w.blsustatfs 157 (mountPoint w a)).2.f_mntfromname 5)).2
                    = VolRole.APFS_VOL_ROLE_PREBOOT
                  ∨ (w.APFSVolumeRole
                      (strskip (w.blsustatfs 157 (mountPoint w a)).2.f_mntfromname 5)).2
                    = VolRole.APFS_VOL_ROLE_RECOVERY)))) = true
        then (fileArg w a).argument else mountPoint w a) := by
  have po := modeFolder_prepare_ok w a p hp
  have hm := modeFolder_prepare_mount w a p hp
  obtain ⟨hb1, k, hb2, hk1, hk2⟩ := modeFolder_bless_ok _ _ _ _ _ _ _ hb
  have hkf : p.actargs.kfile = fileArg w a := po.kfile
  have hH := po.isHFS
  have hA := po.isAPFS
  have hR := po.role
  have hS := po.sb
  have hsh := po.shouldBless
  rw [hm] at hH hA hS
  rw [hS] at hR
  rw [hb2]
  simp only []
  rw [hm, ← hH, ← hA, ← hsh, ← hkf]
  rw [hkf] at hk1 hk2 hb1
  rw [hkf]
  by_cases hf : (fileArg w a).present = true
  · have hk : k = fileArg w a := hk2 hf
    subst hk
    by_cases hA2 : p.c.isAPFS = true
    · rw [← hR hA2]
      cases hb11 : b.1
      · have := hb1.not.1 (by simp [hb11])
        simp [hf, hA2] at this
        by_cases hs2 : p.shouldBless = true
        · by_cases hH2 : p.c.isHFS = true
          · simp [hf, hA2, hs2, hH2]
          · have hH2 : p.c.isHFS = false := by simpa using hH2
            have h3 := this hs2 hH2
            simp [hf, hA2, hs2, hH2, h3]
        · simp [hf, hA2, hs2]
      · obtain ⟨h1, h2, h3, h4, _⟩ := hb1.1 hb11
        simp [hf, h1, h2, h3, h4]
    · have hA2 : p.c.isAPFS = false := by simpa using hA2
      cases hb11 : b.1
      · simp [hf, hA2]
      · obtain ⟨h1, h2, h3, h4, _⟩ := hb1.1 hb11
        rw [hA2] at h3
        cases h3
  · have hf : (fileArg w a).present = false := by simpa using hf
    have hb11 : b.1 = false := by
      cases hb11 : b.1
      · rfl
      · have := hb1.1 hb11
        rw [hf] at this
        simp at this
    simp [hf, hk1, hb11]

theorem prebootWorld_fileSetBootArgs_trace :
    (modeFolder prebootWorld fileSetBootArgs).trace =
      [Call.BLGetCommonMountPoint "/Volumes/X/System", Call.BLIsMountHFS "/Volumes/X",
       Call.BLIsMountAPFS "/Volumes/X", Call.BLIsMountAPFSDataRolePreSSVToSSV "/Volumes/X",
       Call.blsustatfs 157 "/Volumes/X", Call.APFSVolumeRole "disk1s2",
       Call.BLIsVolumeARV "/Volumes/X" "disk1s2",
       Call.BLLoadFile 258 "/Volumes/X/usr/standalone/i386/apfs.efi",
       Call.APFSContainerEFIEmbed "disk1" [1, 2, 3] 3,
       Call.BLGetAPFSBlessData "/Volumes/X",
       Call.BLGetAPFSInodeNum "/Volumes/X/System",
       Call.BLGetAPFSInodeNum "/Volumes/X/System/boot.efi",
       Call.lstat 484 "/Volumes/X/System/boot.efi",
       Call.BLSetAPFSBlessData "/Volumes/X" blessedFileData,
       Call.BlessPrebootVolume "disk1s2" none none none,
       Call.setefifilepath "/Volumes/X/System/boot.efi" false none false] := by
  rfl

theorem modeFolder_prepare_withFinderInfo (w : World) (m : String) (words : Fin 8 → Nat)
    (a : Args) : modeFolder_prepare (w.withFinderInfo m words) a = modeFolder_prepare w a := rfl

theorem modeFolder_prepare_withBlessData (w : World) (m : String) (words : Fin 2 → Nat)
    (a : Args) : modeFolder_prepare (w.withBlessData m words) a = modeFolder_prepare w a := rfl

theorem modeFolder_bootfile_withFinderInfo (w : World) (m : String) (words : Fin 8 → Nat)
    (k : clarg) (m2 : String) (n : Nat) :
    modeFolder_bootfile (w.withFinderInfo m words) k m2 n = modeFolder_bootfile w k m2 n := rfl

theorem modeFolder_fileInum_withBlessData (w : World) (m : String) (words : Fin 2 → Nat)
    (k : clarg) (m2 : String) (n : Nat) :
    modeFolder_fileInum (w.withBlessData m words) k m2 n = modeFolder_fileInum w k m2 n := rfl

theorem modeFolder_word0_withFinderInfo (w : World) (m : String) (words : Fin 8 → Nat)
    (k : clarg) (sb : statfs) (x : Nat) (f : Fin 8 → Nat) :
    modeFolder_word0 (w.withFinderInfo m words) k sb x f = modeFolder_word0 w k sb x f := rfl

/-- Resolving the boot file again from the resolved value gives the same value. -/
theorem modeFolder_bootfile_idem (w : World) (k : clarg) (m : String) (n : Nat)
    (b b2 : Nat × clarg) (h : (modeFolder_bootfile w k m n).res = Except.ok b)
    (h2 : (modeFolder_bootfile w k m b.1).res = Except.ok b2) : b2.1 = b.1 := by
  unfold modeFolder_bootfile at h h2
  by_cases hk : k.present = true
  · cases hid : w.BLGetFileID k.argument with
    | none =>
      simp [hk, hid] at h h2
      subst h h2
      rfl
    | some id =>
      by_cases hl : w.lstat 364 k.argument = some true
      · simp [hk, hid, hl] at h h2
        subst h h2
        rfl
      · simp [hk, hid, hl] at h h2
        subst h h2
        rfl
  · have hk : k.present = false := by simpa using hk
    by_cases hn : n = 0
    · simp [hk, hn] at h
      subst h
      simp [hk] at h2
      subst h2
      rfl
    · cases hp : w.BLLookupFileIDOnMount m n with
      | none =>
        simp [hk, hn, hp] at h
        subst h
        simp [hk] at h2
        subst h2
        rfl
      | some path =>
        by_cases hl : w.lstat 385 path = some true
        · simp [hk, hn, hp, hl] at h
          subst h
          simp [hk, hn, hp, hl] at h2
          subst h2
          rfl
        · simp [hk, hn, hp, hl] at h
          subst h
          simp [hk] at h2
          subst h2
          rfl

/-- Resolving the boot file inode again from the resolved value gives the same value. -/
theorem modeFolder_fileInum_idem (w : World) (k : clarg) (m : String) (n : Nat)
    (b b2 : Nat × clarg) (h : (modeFolder_fileInum w k m n).res = Except.ok b)
    (h2 : (modeFolder_fileInum w k m b.1).res = Except.ok b2) : b2.1 = b.1 := by
  unfold modeFolder_fileInum at h h2
  by_cases hk : k.present = true
  · cases hid : w.BLGetAPFSInodeNum k.argument with
    | none =>
      simp [hk, hid] at h h2
      subst h h2
      rfl
    | some id =>
      by_cases hl : w.lstat 484 k.argument = some true
      · simp [hk, hid, hl] at h h2
        subst h h2
        rfl
      · simp [hk, hid, hl] at h h2
        subst h h2
        rfl
  · have hk : k.present = false := by simpa using hk
    by_cases hn : n = 0
    · simp [hk, hn] at h
      subst h
      simp [hk] at h2
      subst h2
      rfl
    · cases hp : w.BLLookupFileIDOnMount64 m n w.kMaxArgLength with
      | none =>
        simp [hk, hn, hp] at h
        subst h
        simp [hk] at h2
        subst h2
        rfl
      | some path =>
        by_cases hl : w.lstat 505 path = some true
        · simp [hk, hn, hp, hl] at h
          subst h
          simp [hk, hn, hp, hl] at h2
          subst h2
          rfl
        · simp [hk, hn, hp, hl] at h
          subst h
          simp [hk] at h2
          subst h2
          rfl

/-- Lines 410-429 applied to their own result change nothing. -/
theorem modeFolder_word0_idem (w : World) (k : clarg) (sb : statfs) (x y : Nat)
    (old : Fin 8 → Nat) :
    modeFolder_word0 w k sb x (Function.update (Function.update
        (modeFolder_word0 w k sb x (Function.update (Function.update old 1 y) 5 x)) 1 y) 5 x)
      = modeFolder_word0 w k sb x (Function.update (Function.update old 1 y) 5 x) := by
  funext i
  by_cases hi : i = 0
  · subst hi
    rw [word0_at_zero, word0_at_zero]
    split
    · rfl
    · split
      · rfl
      · simp [Function.update, word0_at_zero, *]
  · rw [word0_at_ne _ _ _ _ _ _ hi]
    by_cases h5 : i = 5
    · subst h5
      rw [word0_at_ne _ _ _ _ _ _ hi]
      simp
    · by_cases h1 : i = 1
      · subst h1
        rw [word0_at_ne _ _ _ _ _ _ hi]
        simp [Function.update]
      · rw [Function.update_noteq h5, Function.update_noteq h1]

/-- The Finder-info write of a second run of `modeFolder` on the record the first run wrote. -/
theorem modeFolder_finderInfo_again (w : World) (a : Args) (m : String) (words : Fin 8 → Nat)
    (h : Call.BLSetVolumeFinderInfo m words ∈ (modeFolder w a).trace) (m2 : String)
    (words2 : Fin 8 → Nat) :
    Call.BLSetVolumeFinderInfo m2 words2 ∈ (modeFolder (w.withFinderInfo m words) a).trace
      ↔ (m2 = m ∧ words2 = words) := by
  obtain ⟨p, hp, hgate, hHFS, h⟩ :=
    (modeFolder_mem_blessHFS w a (Call.BLSetVolumeFinderInfo m words) rfl).1 h
  obtain ⟨hm, old, b, hold, hb, hauth, hw⟩ := (modeFolder_blessHFS_write _ _ _ _ _).1 h
  have hw1 : words 1 = b.1 := by
    rw [hw, word0_at_ne _ _ _ _ _ _ (by decide)]
    simp [Function.update]
  rw [modeFolder_mem_blessHFS (w.withFinderInfo m words) a
    (Call.BLSetVolumeFinderInfo m2 words2) rfl]
  have hread : (w.withFinderInfo m words).BLGetVolumeFinderInfo m = some words := by
    simp [World.withFinderInfo]
  constructor
  · rintro ⟨p2, hp2, _, _, h2⟩
    rw [modeFolder_prepare_withFinderInfo, hp] at hp2
    injection hp2 with hp2
    subst hp2
    obtain ⟨hm2, old2, b2, hold2, hb2, _, hw2⟩ := (modeFolder_blessHFS_write _ _ _ _ _).1 h2
    rw [← hm] at hm2
    subst hm2
    rw [hread] at hold2
    injection hold2 with hold2
    subst hold2
    have hb3 : (modeFolder_bootfile w p.actargs.kfile m2 b.1).res = Except.ok b2 := by
      rw [← hw1]
      exact hb2
    have hidem := modeFolder_bootfile_idem w _ _ _ _ _ hb hb3
    refine ⟨rfl, ?_⟩
    rw [hw2, hidem]
    conv_rhs => rw [hw]
    conv_lhs => rw [hw]
    exact modeFolder_word0_idem w _ _ _ _ _
  · rintro ⟨rfl, rfl⟩
    refine ⟨p, ?_, hgate, hHFS, ?_⟩
    · rw [modeFolder_prepare_withFinderInfo, hp]
    · obtain ⟨b2, hb2, _⟩ := modeFolder_bootfile_res w p.actargs.kfile m2 (words2 1)
      have hb3 : (modeFolder_bootfile w p.actargs.kfile m2 b.1).res = Except.ok b2 := by
        rw [← hw1]
        exact hb2
      have hidem := modeFolder_bootfile_idem w _ _ _ _ _ hb hb3
      refine (modeFolder_blessHFS_write _ _ _ _ _).2 ⟨hm, words2, b2, hread, hb2, hauth, ?_⟩
      rw [hidem]
      conv_lhs => rw [hw]
      conv_rhs => rw [hw]
      exact (modeFolder_word0_idem w _ _ _ _ _).symm

/-- The bless-data write of a second run of `modeFolder` on the record the first run wrote. -/
theorem modeFolder_blessData_again (w : World) (a : Args) (m : String) (words : Fin 2 → Nat)
    (h : Call.BLSetAPFSBlessData m words ∈ (modeFolder w a).trace) (m2 : String)
    (words2 : Fin 2 → Nat) :
    Call.BLSetAPFSBlessData m2 words2 ∈ (modeFolder (w.withBlessData m words) a).trace
      ↔ (m2 = m ∧ words2 = words) := by
  obtain ⟨p, hp, hgate, hHFS, hAPFS, h⟩ :=
    (modeFolder_mem_blessAPFS w a (Call.BLSetAPFSBlessData m words) rfl).1 h
  unfold modeFolder_blessAPFS at h
  simp at h
  obtain ⟨hsh, hrole, h⟩ := h
  obtain ⟨hm, hg, f, hf, hauth, hw⟩ := (modeFolder_blessData_write _ _ _ _ _).1 h
  have hw0 : words 0 = f.1 := by
    rw [hw]
    simp [Function.update]
  rw [modeFolder_mem_blessAPFS (w.withBlessData m words) a
    (Call.BLSetAPFSBlessData m2 words2) rfl]
  have hread : (w.withBlessData m words).BLGetAPFSBlessData m = (0, some words) := by
    simp [World.withBlessData]
  constructor
  · rintro ⟨p2, hp2, _, _, _, h2⟩
    rw [modeFolder_prepare_withBlessData, hp] at hp2
    injection hp2 with hp2
    subst hp2
    unfold modeFolder_blessAPFS at h2
    simp at h2
    obtain ⟨_, _, h2⟩ := h2
    obtain ⟨hm2, _, f2, hf2, _, hw2⟩ := (modeFolder_blessData_write _ _ _ _ _).1 h2
    rw [← hm] at hm2
    subst hm2
    rw [hread] at hf2 hw2
    have hf3 : (modeFolder_fileInum w p.actargs.kfile m2 f.1).res = Except.ok f2 := by
      rw [← hw0]
      exact hf2
    have hidem := modeFolder_fileInum_idem w _ _ _ _ _ hf hf3
    refine ⟨rfl, ?_⟩
    rw [hw2, hidem]
    simp only [Option.getD_some]
    conv_rhs => rw [hw]
    conv_lhs => rw [hw]
    funext i
    fin_cases i
    · simp [Function.update]
    · simp [Function.update]
      rfl
  · rintro ⟨rfl, rfl⟩
    refine ⟨p, ?_, hgate, hHFS, hAPFS, ?_⟩
    · rw [modeFolder_prepare_withBlessData, hp]
    · unfold modeFolder_blessAPFS
      simp [hsh, hrole]
      obtain ⟨f2, hf2, _⟩ := modeFolder_fileInum_res w p.actargs.kfile m2 (words2 0)
      have hf3 : (modeFolder_fileInum w p.actargs.kfile m2 f.1).res = Except.ok f2 := by
        rw [← hw0]
        exact hf2
      have hidem := modeFolder_fileInum_idem w _ _ _ _ _ hf hf3
      refine (modeFolder_blessData_write _ _ _ _ _).2
        ⟨hm, Or.inl (by rw [hread]), f2, by rw [hread]; exact hf2, hauth, ?_⟩
      rw [hread, hidem]
      simp only [Option.getD_some]
      conv_lhs => rw [hw]
      conv_rhs => rw [hw]
      funext i
      fin_cases i
      · simp [Function.update]
      · simp [Function.update]
        rfl

/-- A classification probe is called by the classification block, after the mount point was
found. -/
theorem modeFolder_mem_classify (w : World) (a : Args) (c : Call)
    (hs : c.stage = Stage.classify) (h : c ∈ (modeFolder w a).trace) :
    ∃ e, (extractMountPoint w a).res = Except.ok e ∧ e.1 = 0
      ∧ c ∈ (modeFolder_classify w (modeFolder_guessFile w e.2)).trace := by
  have no : ∀ {α : Type} (s : Step α) (k : Stage), s.Forall (fun c => c.stage = k) →
      k ≠ Stage.classify → c ∉ s.trace := by
    intro α s k hk hne hc
    have := (Step.forall_iff _ _).1 hk c hc
    rw [hs] at this
    exact hne this.symm
  unfold modeFolder at h
  simp only [Step.mem_bind] at h
  rcases h with h | ⟨p, hp, h | ⟨b, hb, h | ⟨_, _, h⟩⟩⟩
  · unfold modeFolder_prepare at h
    simp only [Step.mem_bind] at h
    rcases h with h | ⟨e, he, h⟩
    · exact absurd h (no _ _ (extractMountPoint_stage w a) (by decide))
    · by_cases h0 : e.1 = 0
      · rw [if_neg (by simp [h0])] at h
        simp only [Step.mem_bind] at h
        rcases h with h | ⟨_, _, h⟩
        · simp at h
        · rcases h with h | ⟨cl, hcl, h⟩
          · exact ⟨e, he, h0, h⟩
          · rcases h with h | ⟨a2, ha2, h⟩
            · exact absurd h (no _ _ (modeFolder_bootefi_stage _ _ _ _) (by decide))
            · rcases h with h | ⟨_, _, h⟩
              · exact absurd h (no _ _ (modeFolder_apfsdriver_stage _ _ _) (by decide))
              · rcases h with h | ⟨_, _, h⟩
                · exact absurd h (no _ _ (modeFolder_label_stage _ _ _) (by decide))
                · simp at h
      · rw [if_pos h0] at h
        simp at h
  · have := (Step.forall_iff _ _).1 (modeFolder_bless_stage _ _ _ _ _ _) c h
    rw [hs] at this
    simp at this
  · exact absurd h (no _ _ (modeFolder_personalize_stage _ _) (by decide))
  · exact absurd h (no _ _ (modeFolder_setboot_stage _ _ _ _ _ _) (by decide))

/-- A failed classification ends `modeFolder` with the status of the classification, after
calls of the mount-point and classification blocks only. -/
theorem modeFolder_of_classify_error (w : World) (a : Args) (e : Int × Args) (n : Int)
    (he : (extractMountPoint w a).res = Except.ok e) (h0 : e.1 = 0)
    (hc : (modeFolder_classify w (modeFolder_guessFile w e.2)).res = Except.error n) :
    (modeFolder w a).status = n
    ∧ ∀ c ∈ (modeFolder w a).trace, c.isEffect = false := by
  have hp : (modeFolder_prepare w a).res = Except.error n := by
    unfold modeFolder_prepare
    simp only [Step.bind_error]
    refine Or.inr ⟨e, he, ?_⟩
    rw [if_neg (by simp [h0])]
    simp only [Step.bind_error]
    exact Or.inr ⟨(), rfl, Or.inl hc⟩
  constructor
  · apply Step.status_of_error
    unfold modeFolder
    simp only [Step.bind_error]
    exact Or.inl hp
  · intro c h
    have hstage : c.stage = Stage.mount ∨ c.stage = Stage.classify := by
      unfold modeFolder at h
      simp only [Step.mem_bind, hp] at h
      simp at h
      unfold modeFolder_prepare at h
      simp only [Step.mem_bind] at h
      rcases h with h | ⟨e2, he2, h⟩
      · exact Or.inl ((Step.forall_iff _ _).1 (extractMountPoint_stage w a) c h)
      rw [he] at he2
      injection he2 with he2
      subst he2
      rw [if_neg (by simp [h0])] at h
      simp only [Step.mem_bind, hc] at h
      simp at h
      exact Or.inr ((Step.forall_iff _ _).1 (modeFolder_classify_stage _ _) c h)
    cases hcE : c.isEffect
    · rfl
    · have := Call.stage_of_isEffect c hcE
      rcases hstage with h | h
      · exact absurd h this.1
      · exact absurd h this.2

/-- A classification probe that is called and fails ends the classification: with 1 for the
type, pre-migration and statfs probes, with 2 for the role and ARV probes. -/
theorem modeFolder_classify_fail (w : World) (a : Args) :
    (∀ m, Call.BLIsMountHFS m ∈ (modeFolder_classify w a).trace →
      (w.BLIsMountHFS m).1 ≠ 0 → (modeFolder_classify w a).res = Except.error 1)
    ∧ (∀ m, Call.BLIsMountAPFS m ∈ (modeFolder_classify w a).trace →
      (w.BLIsMountAPFS m).1 ≠ 0 → (modeFolder_classify w a).res = Except.error 1)
    ∧ (∀ m, Call.BLIsMountAPFSDataRolePreSSVToSSV m ∈ (modeFolder_classify w a).trace →
      (w.BLIsMountAPFSDataRolePreSSVToSSV m).1 ≠ 0 →
      (modeFolder_classify w a).res = Except.error 1)
    ∧ (∀ m, Call.blsustatfs 157 m ∈ (modeFolder_classify w a).trace →
      (w.blsustatfs 157 m).1 ≠ 0 → (modeFolder_classify w a).res = Except.error 1)
    ∧ (∀ d, Call.APFSVolumeRole d ∈ (modeFolder_classify w a).trace →
      (w.APFSVolumeRole d).1 ≠ 0 → (modeFolder_classify w a).res = Except.error 2)
    ∧ (∀ m d, Call.BLIsVolumeARV m d ∈ (modeFolder_classify w a).trace →
      (w.BLIsVolumeARV m d).1 ≠ 0 → (modeFolder_classify w a).res = Except.error 2) := by
  unfold modeFolder_classify
  by_cases h1 : (w.BLIsMountHFS a.kmount.argument).1 = 0
  · by_cases h2 : (w.BLIsMountAPFS a.kmount.argument).1 = 0
    · by_cases h3 : (w.BLIsMountAPFSDataRolePreSSVToSSV a.kmount.argument).1 = 0
      · by_cases h4 : (w.blsustatfs 157 a.kmount.argument).1 = 0
        · by_cases hA : (w.BLIsMountAPFS a.kmount.argument).2 = true
          · by_cases h5 : (w.APFSVolumeRole
                (strskip (w.blsustatfs 157 a.kmount.argument).2.f_mntfromname 5)).1 = 0
            · by_cases h6 : (w.BLIsVolumeARV (w.blsustatfs 157 a.kmount.argument).2.f_mntonname
                  (strskip (w.blsustatfs 157 a.kmount.argument).2.f_mntfromname
                    (strlen _PATH_DEV))).1 = 0
              · simp [-Step.bind_ok, -Step.mem_bind, -Step.bind_error, Step.bind_def, Step.bind,
                  call, exitWith, Step.pure_def, Step.pure, h1, h2, h3, h4, hA, h5, h6]
              · simp [-Step.bind_ok, -Step.mem_bind, -Step.bind_error, Step.bind_def, Step.bind,
                  call, exitWith, Step.pure_def, Step.pure, h1, h2, h3, h4, hA, h5, h6]
            · simp [-Step.bind_ok, -Step.mem_bind, -Step.bind_error, Step.bind_def, Step.bind,
                call, exitWith, Step.pure_def, Step.pure, h1, h2, h3, h4, hA, h5]
          · simp [-Step.bind_ok, -Step.mem_bind, -Step.bind_error, Step.bind_def, Step.bind,
              call, exitWith, Step.pure_def, Step.pure, h1, h2, h3, h4, hA]
        · simp [-Step.bind_ok, -Step.mem_bind, -Step.bind_error, Step.bind_def, Step.bind,
            call, exitWith, Step.pure_def, Step.pure, h1, h2, h3, h4]
      · simp [-Step.bind_ok, -Step.mem_bind, -Step.bind_error, Step.bind_def, Step.bind,
          call, exitWith, Step.pure_def, Step.pure, h1, h2, h3]
    · simp [-Step.bind_ok, -Step.mem_bind, -Step.bind_error, Step.bind_def, Step.bind,
        call, exitWith, Step.pure_def, Step.pure, h1, h2]
  · simp [-Step.bind_ok, -Step.mem_bind, -Step.bind_error, Step.bind_def, Step.bind,
      call, exitWith, Step.pure_def, Step.pure, h1]

theorem noStatfsWorld_trace :
    (modeFolder noStatfsWorld everythingArgs).trace =
      [Call.BLGetCommonMountPoint "/Volumes/X/System", Call.BLIsMountHFS "/Volumes/X",
       Call.BLIsMountAPFS "/Volumes/X", Call.BLIsMountAPFSDataRolePreSSVToSSV "/Volumes/X",
       Call.blsustatfs 157 "/Volumes/X"] := by
  rfl

theorem noRoleWorld_trace :
    (modeFolder noRoleWorld everythingArgs).trace =
      [Call.BLGetCommonMountPoint "/Volumes/X/System", Call.BLIsMountHFS "/Volumes/X",
       Call.BLIsMountAPFS "/Volumes/X", Call.BLIsMountAPFSDataRolePreSSVToSSV "/Volumes/X",
       Call.blsustatfs 157 "/Volumes/X", Call.APFSVolumeRole "disk1s2"] := by
  rfl

theorem modeFolder_guessFile_ksetboot (w : World) (a : Args) (k : clarg) :
    (modeFolder_guessFile w { a with ksetboot := k }).kfile = (modeFolder_guessFile w a).kfile := by
  unfold modeFolder_guessFile
  split
  · split <;> rfl
  · rfl

/-- The mount point a bless-data write of `modeFolder` addresses. -/
theorem modeFolder_setBlessData_mount (w : World) (a : Args) (m : String) (words : Fin 2 → Nat)
    (h : Call.BLSetAPFSBlessData m words ∈ (modeFolder w a).trace) : m = mountPoint w a := by
  obtain ⟨p, hp, _, _, _, h⟩ :=
    (modeFolder_mem_blessAPFS w a (Call.BLSetAPFSBlessData m words) rfl).1 h
  unfold modeFolder_blessAPFS at h
  simp at h
  obtain ⟨_, _, h⟩ := h
  obtain ⟨hm, _⟩ := (modeFolder_blessData_write _ _ _ _ _).1 h
  rw [hm]
  exact modeFolder_prepare_mount w a p hp

theorem dataRoleWorld_trace :
    (modeFolder dataRoleWorld fileArgs).trace =
      [Call.BLGetCommonMountPoint "/Volumes/X/System", Call.BLIsMountHFS "/Volumes/X",
       Call.BLIsMountAPFS "/Volumes/X", Call.BLIsMountAPFSDataRolePreSSVToSSV "/Volumes/X",
       Call.blsustatfs 157 "/Volumes/X", Call.APFSVolumeRole "disk1s2",
       Call.BLIsVolumeARV "/Volumes/X" "disk1s2",
       Call.BlessPrebootVolume "disk1s2" none none none] := by
  rfl

theorem prebootWorld_openFirmware_trace :
    (modeFolder (prebootWorld.withFirmware BLPreBootEnvType.kBLPreBootEnvType_OpenFirmware 7)
        fileSetBootArgs).trace =
      [Call.BLGetCommonMountPoint "/Volumes/X/System", Call.BLIsMountHFS "/Volumes/X",
       Call.BLIsMountAPFS "/Volumes/X", Call.BLIsMountAPFSDataRolePreSSVToSSV "/Volumes/X",
       Call.blsustatfs 157 "/Volumes/X", Call.APFSVolumeRole "disk1s2",
       Call.BLIsVolumeARV "/Volumes/X" "disk1s2",
       Call.BLLoadFile 258 "/Volumes/X/usr/standalone/i386/apfs.efi",
       Call.APFSContainerEFIEmbed "disk1" [1, 2, 3] 3,
       Call.BLGetAPFSBlessData "/Volumes/X",
       Call.BLGetAPFSInodeNum "/Volumes/X/System",
       Call.BLGetAPFSInodeNum "/Volumes/X/System/boot.efi",
       Call.lstat 484 "/Volumes/X/System/boot.efi",
       Call.BLSetAPFSBlessData "/Volumes/X" blessedFileData,
       Call.BlessPrebootVolume "disk1s2" none none none,
       Call.blsustatfs 594 "/Volumes/X",
       Call.setboot "/dev/disk1s2" none] := by
  rfl

theorem Bytes.getD_lt (data : Bytes) (h : ∀ b ∈ data, b < 256) (i : Nat) :
    data.getD i 0 < 256 := by
  by_cases hi : i < data.length
  · rw [List.getD_eq_getElem _ _ hi]
    exact h _ (List.getElem_mem hi)
  · rw [List.getD_eq_default _ _ (by omega)]
    decide

/-- The test of lines 620-628 for a first byte `v`, a width `W`, a height `H` and a label size
`n` that is a non-negative `int`. -/
theorem isOFLabel_test (v W H : Nat) (n : Int) (hW : W ≤ 65535) (hH : H ≤ 65535) (h0 : 0 ≤ n)
    (h1 : n ≤ 2147483647) :
    ((if v ≠ 1 then (0 : Int) else if n ≠ toInt32 ((W : Int) * (H : Int) + 5) then 0 else 1) = 1
      ↔ v = 1 ∧ n = (W : Int) * (H : Int) + 5)
    ∧ ((if v ≠ 1 then (0 : Int) else if n ≠ toInt32 ((W : Int) * (H : Int) + 5) then 0 else 1)
        ≠ 1 →
      (if v ≠ 1 then (0 : Int) else if n ≠ toInt32 ((W : Int) * (H : Int) + 5) then 0 else 1)
        = 0) := by
  have hx : W * H ≤ 65535 * 65535 := Nat.mul_le_mul hW hH
  have hx2 : (W : Int) * (H : Int) ≤ 65535 * 65535 := by exact_mod_cast hx
  have hx3 : (0 : Int) ≤ (W : Int) * (H : Int) := by positivity
  have key : n = toInt32 ((W : Int) * (H : Int) + 5) ↔ n = (W : Int) * (H : Int) + 5 := by
    unfold toInt32
    generalize (W : Int) * (H : Int) = x at hx2 hx3
    omega
  by_cases hv : v = 1
  · by_cases hn : n = toInt32 ((W : Int) * (H : Int) + 5)
    · have := key.1 hn
      simp [hv, ← hn, this]
    · have : ¬ n = (W : Int) * (H : Int) + 5 := fun h => hn (key.2 h)
      simp [hv, hn, this]
  · simp [hv]

/-- The firmware-pointer block (lines 568-607) ends with its firmware-pointer call, and
returns 3 exactly when that call fails. -/
theorem modeFolder_setboot_last (w : World) (a : Args) (sh isAPFS full : Bool)
    (l : Option Bytes) (c : Call)
    (hc : c ∈ (modeFolder_setboot w a sh isAPFS full l).trace)
    (hp : c.isPointerUpdate = true) :
    (∃ pre, (modeFolder_setboot w a sh isAPFS full l).trace = pre ++ [c]
      ∧ ∀ c2 ∈ pre, c2.isPointerUpdate = false ∧ c2.isMetadataWrite = false)
    ∧ (modeFolder_setboot w a sh isAPFS full l).res
        = if w.pointerStatus c ≠ 0 then Except.error 3 else Except.ok () := by
  unfold modeFolder_setboot at hc ⊢
  by_cases hsb : a.ksetboot.present = true
  · by_cases hefi : w.getPrebootType = BLPreBootEnvType.kBLPreBootEnvType_EFI
    · by_cases hl : a.klegacy.present = true
      · simp [hsb, hefi, hl] at hc
        subst hc
        refine ⟨⟨[], ?_, by simp⟩, ?_⟩
        · simp [-Step.bind_ok, -Step.mem_bind, -Step.bind_error, Step.bind_def, Step.bind,
            call, exitWith, Step.pure_def, Step.pure, hsb, hefi, hl]
          split_ifs <;> rfl
        · simp only [World.pointerStatus]
          simp [-Step.bind_ok, -Step.mem_bind, -Step.bind_error, Step.bind_def, Step.bind,
            call, exitWith, Step.pure_def, Step.pure, hsb, hefi, hl]
          split_ifs <;> simp_all
      · simp [hsb, hefi, hl] at hc
        subst hc
        refine ⟨⟨[], ?_, by simp⟩, ?_⟩
        · simp [-Step.bind_ok, -Step.mem_bind, -Step.bind_error, Step.bind_def, Step.bind,
            call, exitWith, Step.pure_def, Step.pure, hsb, hefi, hl]
          split_ifs <;> rfl
        · simp only [World.pointerStatus]
          simp [-Step.bind_ok, -Step.mem_bind, -Step.bind_error, Step.bind_def, Step.bind,
            call, exitWith, Step.pure_def, Step.pure, hsb, hefi, hl]
          split_ifs <;> simp_all
    · by_cases hst : (w.blsustatfs 594 a.kmount.argument).1 = 0
      · simp [hsb, hefi, hst] at hc
        rcases hc with hc | hc
        · subst hc
          simp [Call.isPointerUpdate] at hp
        · subst hc
          refine ⟨⟨[Call.blsustatfs 594 a.kmount.argument], ?_, by simp [Call.isPointerUpdate,
            Call.isMetadataWrite]⟩, ?_⟩
          · simp [-Step.bind_ok, -Step.mem_bind, -Step.bind_error, Step.bind_def, Step.bind,
              call, exitWith, Step.pure_def, Step.pure, hsb, hefi, hst]
            split_ifs <;> rfl
          · simp only [World.pointerStatus]
            simp [-Step.bind_ok, -Step.mem_bind, -Step.bind_error, Step.bind_def, Step.bind,
              call, exitWith, Step.pure_def, Step.pure, hsb, hefi, hst]
            split_ifs <;> simp_all
      · simp [hsb, hefi, hst] at hc
        subst hc
        simp [Call.isPointerUpdate] at hp
  · simp [hsb] at hc

/-- A run that issues a call of the firmware-pointer block consists of the calls of the four
blocks in order and returns what the firmware-pointer block returns. -/
theorem modeFolder_reach_setboot (w : World) (a : Args) (c : Call)
    (hs : c.stage = Stage.setboot) (h : c ∈ (modeFolder w a).trace) :
    ∃ (p : Prepared) (b : Bool × Args),
      c ∈ (modeFolder_setboot w b.2 p.shouldBless p.c.isAPFS b.1 p.labeldata).trace
      ∧ (modeFolder w a).trace = (modeFolder_prepare w a).trace
          ++ ((modeFolder_bless w p.actargs p.shouldBless p.c p.labeldata p.labeldata2).trace
          ++ ((modeFolder_personalize w b.2).trace
          ++ (modeFolder_setboot w b.2 p.shouldBless p.c.isAPFS b.1 p.labeldata).trace))
      ∧ (modeFolder w a).res
          = (modeFolder_setboot w b.2 p.shouldBless p.c.isAPFS b.1 p.labeldata).res := by
  have h2 := h
  unfold modeFolder at h2
  simp only [Step.mem_bind] at h2
  rcases h2 with h2 | ⟨p, hp, h2 | ⟨b, hb, h2 | ⟨u, hu, h2⟩⟩⟩
  · have := (Step.forall_iff _ _).1 (modeFolder_prepare_stage w a) c h2
    rw [hs] at this
    simp at this
  · have := (Step.forall_iff _ _).1 (modeFolder_bless_stage _ _ _ _ _ _) c h2
    rw [hs] at this
    simp at this
  · have := (Step.forall_iff _ _).1 (modeFolder_personalize_stage _ _) c h2
    rw [hs] at this
    simp at this
  · refine ⟨p, b, h2, ?_, ?_⟩
    · unfold modeFolder
      rw [Step.trace_bind, hp]
      simp only []
      rw [Step.trace_bind, hb]
      simp only []
      rw [Step.trace_bind, hu]
    · unfold modeFolder
      rw [Step.res_bind, hp]
      simp only []
      rw [Step.res_bind, hb]
      simp only []
      rw [Step.res_bind, hu]

theorem noPointerWorld_trace :
    (modeFolder noPointerWorld folderSetBootArgs).trace =
      [Call.BLGetCommonMountPoint "/Volumes/X/System", Call.BLIsMountHFS "/Volumes/X",
       Call.BLIsMountAPFS "/Volumes/X", Call.BLIsMountAPFSDataRolePreSSVToSSV "/Volumes/X",
       Call.blsustatfs 157 "/Volumes/X", Call.BLGetVolumeFinderInfo "/Volumes/X",
       Call.BLGetFileID "/Volumes/X/System",
       Call.BLSetVolumeFinderInfo "/Volumes/X" blessedWords,
       Call.setefifilepath "/Volumes/X" false none false] := by
  rfl

theorem noSetbootWorld_trace :
    (modeFolder noSetbootWorld fileSetBootArgs).trace =
      [Call.BLGetCommonMountPoint "/Volumes/X/System", Call.BLIsMountHFS "/Volumes/X",
       Call.BLIsMountAPFS "/Volumes/X", Call.BLIsMountAPFSDataRolePreSSVToSSV "/Volumes/X",
       Call.blsustatfs 157 "/Volumes/X", Call.APFSVolumeRole "disk1s2",
       Call.BLIsVolumeARV "/Volumes/X" "disk1s2",
       Call.BLLoadFile 258 "/Volumes/X/usr/standalone/i386/apfs.efi",
       Call.APFSContainerEFIEmbed "disk1" [1, 2, 3] 3,
       Call.BLGetAPFSBlessData "/Volumes/X",
       Call.BLGetAPFSInodeNum "/Volumes/X/System",
       Call.BLGetAPFSInodeNum "/Volumes/X/System/boot.efi",
       Call.lstat 484 "/Volumes/X/System/boot.efi",
       Call.BLSetAPFSBlessData "/Volumes/X" blessedFileData,
       Call.BlessPrebootVolume "disk1s2" none none none,
       Call.blsustatfs 594 "/Volumes/X",
       Call.setboot "/dev/disk1s2" none] := by
  rfl

/-- The source path lines 177-196 choose, or the `return 2` for an unrecognised OS version. -/
theorem modeFolder_defaultBootEFI_res (w : World) (a : Args) :
    (w.BLGetOSVersion a.kmount.argument).major < 10 ∧
        (modeFolder_defaultBootEFI w a).res = Except.error 2
    ∨ ¬ (w.BLGetOSVersion a.kmount.argument).major < 10 ∧
        (modeFolder_defaultBootEFI w a).res = Except.ok { a with kbootefi := { a.kbootefi with
          argument :=
            if ((w.BLGetOSVersion a.kmount.argument).major > 10
                  ∨ (w.BLGetOSVersion a.kmount.argument).minor ≥ 11)
                ∧ w.access (snprintf (w.kMaxArgLength - 1)
                    (a.kmount.argument ++ w.kBL_PATH_I386_BOOTDEV_EFI)) = 0
                ∧ (snprintf (w.kMaxArgLength - 1)
                    (a.kmount.argument ++ w.kBL_PATH_I386_BOOTDEV_EFI)) ≠ ""
            then snprintf (w.kMaxArgLength - 1)
              (a.kmount.argument ++ w.kBL_PATH_I386_BOOTDEV_EFI)
            else snprintf (w.kMaxArgLength - 1)
              (a.kmount.argument ++ w.kBL_PATH_I386_BOOT_EFI) } } := by
  unfold modeFolder_defaultBootEFI
  by_cases h1 : (w.BLGetOSVersion a.kmount.argument).major < 10
  · left
    simp [-Step.bind_ok, -Step.mem_bind, -Step.bind_error, Step.bind_def, Step.bind,
      call, exitWith, Step.pure_def, Step.pure, h1]
  · right
    refine ⟨h1, ?_⟩
    by_cases h2 : (w.BLGetOSVersion a.kmount.argument).major > 10
        ∨ (w.BLGetOSVersion a.kmount.argument).minor ≥ 11
    · by_cases h3 : w.access (snprintf (w.kMaxArgLength - 1)
          (a.kmount.argument ++ w.kBL_PATH_I386_BOOTDEV_EFI)) = 0
      · by_cases h4 : (snprintf (w.kMaxArgLength - 1)
            (a.kmount.argument ++ w.kBL_PATH_I386_BOOTDEV_EFI)) = ""
        · simp [-Step.bind_ok, -Step.mem_bind, -Step.bind_error, Step.bind_def, Step.bind,
            call, exitWith, Step.pure_def, Step.pure, h1, h2, h3, h4]
        · have h5 : (snprintf (w.kMaxArgLength - 1)
              (a.kmount.argument ++ w.kBL_PATH_I386_BOOTDEV_EFI)).data ≠ [] := by
            intro hd
            apply h4
            exact String.ext hd
          simp [-Step.bind_ok, -Step.mem_bind, -Step.bind_error, Step.bind_def, Step.bind,
            call, exitWith, Step.pure_def, Step.pure, h1, h2, h3, h4, h5]
      · simp [-Step.bind_ok, -Step.mem_bind, -Step.bind_error, Step.bind_def, Step.bind,
          call, exitWith, Step.pure_def, Step.pure, h1, h2, h3]
    · simp [-Step.bind_ok, -Step.mem_bind, -Step.bind_error, Step.bind_def, Step.bind,
        call, exitWith, Step.pure_def, Step.pure, h1, h2]

theorem modeFolder_loadBootEFI_source (w : World) (a : Args) (isAPFS : Bool) :
    (modeFolder_loadBootEFI w a isAPFS).Forall
      (fun c => ∀ src, c = Call.BLLoadFile 200 src → src = a.kbootefi.argument) := by
  unfold modeFolder_loadBootEFI modeFolder_materialize
  simp
  repeat' (first | intro _ | refine ⟨?_, ?_⟩ | split)
  all_goals simp_all

theorem modeFolder_defaultBootEFI_noLoad (w : World) (a : Args) :
    (modeFolder_defaultBootEFI w a).Forall (fun c => ∀ l src, c ≠ Call.BLLoadFile l src) := by
  unfold modeFolder_defaultBootEFI
  simp

/-- The source that the boot.efi block loads at line 200. -/
theorem modeFolder_bootefi_source (w : World) (a : Args) (isAPFS : Bool) (sb : statfs)
    (src : String) (h : Call.BLLoadFile 200 src ∈ (modeFolder_bootefi w a isAPFS sb).trace) :
    a.kbootefi.present = true
    ∧ (a.kbootefi.hasArg = true → src = a.kbootefi.argument)
    ∧ (a.kbootefi.hasArg = false →
        ∃ a3, (modeFolder_defaultBootEFI w a).res = Except.ok a3 ∧ src = a3.kbootefi.argument) := by
  unfold modeFolder_bootefi at h
  by_cases hp : a.kbootefi.present = true
  · refine ⟨hp, ?_⟩
    simp only [hp, if_true] at h
    rw [Step.mem_bind] at h
    by_cases hh : a.kbootefi.hasArg = true
    · simp [hh] at h
      obtain ⟨_, h⟩ := h
      have := (Step.forall_iff _ _).1 (modeFolder_loadBootEFI_source w a isAPFS) _ h src rfl
      simp [hh, this]
    · have hh : a.kbootefi.hasArg = false := by simpa using hh
      simp only [hh, Bool.not_false, if_true] at h
      rcases h with h | ⟨a3, h3, h⟩
      · exact absurd rfl ((Step.forall_iff _ _).1 (modeFolder_defaultBootEFI_noLoad w a) _ h
          200 src)
      · simp [Step.mem_ite] at h
        obtain ⟨_, h⟩ := h
        have := (Step.forall_iff _ _).1 (modeFolder_loadBootEFI_source w a3 isAPFS) _ h src rfl
        simp [hh]
        exact ⟨a3, h3, this⟩
  · simp [hp] at h

/-- The arguments with which the boot.efi block is entered. -/
theorem modeFolder_bootefi_entry (w : World) (a : Args) (e : Int × Args)
    (he : (extractMountPoint w a).res = Except.ok e) (h0 : e.1 = 0) :
    (modeFolder_guessFile w e.2).kmount.argument = mountPoint w a
    ∧ (modeFolder_guessFile w e.2).kbootefi = a.kbootefi := by
  have hm := extractMountPoint_mount w a e he h0
  obtain ⟨km, hkm⟩ := extractMountPoint_frame w a e he
  have hg := modeFolder_guessFile_eq w e.2
  constructor
  · rw [hg]
    exact hm
  · rw [hg, hkm]

theorem oldOSWorld_trace :
    (modeFolder oldOSWorld defaultBootefiArgs).trace =
      [Call.BLGetCommonMountPoint "/Volumes/X/System", Call.BLIsMountHFS "/Volumes/X",
       Call.BLIsMountAPFS "/Volumes/X", Call.BLIsMountAPFSDataRolePreSSVToSSV "/Volumes/X",
       Call.blsustatfs 157 "/Volumes/X", Call.BLGetOSVersion "/Volumes/X",
       Call.BLLoadFile 200 "/Volumes/X/usr/standalone/i386/boot.efi",
       Call.lstat 212 "/Volumes/X/System/boot.efi",
       Call.BLLoadFile 215 "/Volumes/X/System/boot.efi",
       Call.CopyManifests "/Volumes/X/System/boot.efi" "/Volumes/X/usr/standalone/i386/boot.efi",
       Call.BLGetVolumeFinderInfo "/Volumes/X",
       Call.BLGetFileID "/Volumes/X/System",
       Call.BLGetFileID "/Volumes/X/System/boot.efi",
       Call.lstat 364 "/Volumes/X/System/boot.efi",
       Call.BLSetVolumeFinderInfo "/Volumes/X" blessedFileWords] := by
  rfl

theorem quietWorld_defaultBootefi_trace :
    (modeFolder quietWorld defaultBootefiArgs).trace =
      [Call.BLGetCommonMountPoint "/Volumes/X/System", Call.BLIsMountHFS "/Volumes/X",
       Call.BLIsMountAPFS "/Volumes/X", Call.BLIsMountAPFSDataRolePreSSVToSSV "/Volumes/X",
       Call.blsustatfs 157 "/Volumes/X", Call.BLGetOSVersion "/Volumes/X",
       Call.access "/Volumes/X/usr/standalone/i386/bootdev.efi",
       Call.BLLoadFile 200 "/Volumes/X/usr/standalone/i386/bootdev.efi",
       Call.lstat 212 "/Volumes/X/System/boot.efi",
       Call.BLLoadFile 215 "/Volumes/X/System/boot.efi",
       Call.CopyManifests "/Volumes/X/System/boot.efi"
         "/Volumes/X/usr/standalone/i386/bootdev.efi",
       Call.BLGetVolumeFinderInfo "/Volumes/X",
       Call.BLGetFileID "/Volumes/X/System",
       Call.BLGetFileID "/Volumes/X/System/boot.efi",
       Call.lstat 364 "/Volumes/X/System/boot.efi",
       Call.BLSetVolumeFinderInfo "/Volumes/X" blessedFileWords] := by
  rfl

theorem unknownOSWorld_trace :
    (modeFolder unknownOSWorld defaultBootefiArgs).trace =
      [Call.BLGetCommonMountPoint "/Volumes/X/System", Call.BLIsMountHFS "/Volumes/X",
       Call.BLIsMountAPFS "/Volumes/X", Call.BLIsMountAPFSDataRolePreSSVToSSV "/Volumes/X",
       Call.blsustatfs 157 "/Volumes/X", Call.BLGetOSVersion "/Volumes/X"] := by
  rfl

/-- The reserved sector count for a byte count in the range where nothing wraps. -/
theorem BLFormatHFS_newsize_eq (b : Int) (h0 : 0 ≤ b) (h1 : b ≤ 512 * (2 ^ 32 - 1)) :
    (BLFormatHFS_newsize b : Int) = (b + 511) / 512 := by
  unfold BLFormatHFS_newsize toInt64 SECTORSIZE
  have e1 : ((b + ((512 : Nat) : Int) + 9223372036854775808) % 18446744073709551616
      - 9223372036854775808 - 1 + 9223372036854775808) % 18446744073709551616
      - 9223372036854775808 = b + 511 := by
    push_cast
    omega
  rw [e1, Int.tdiv_eq_ediv (by omega) (by decide)]
  push_cast
  rw [Int.toNat_of_nonneg (by omega)]
  omega

theorem isOFLabel_eq (data : Bytes) (n : Int) : isOFLabel data n = 0 ∨ isOFLabel data n = 1 := by
  unfold isOFLabel
  split
  · exact Or.inl rfl
  · simp only []
    split
    · exact Or.inl rfl
    · exact Or.inr rfl

/-- The label files the label step writes. -/
theorem modeFolder_label_write (w : World) (a : Args) (c : Classification) :
    (modeFolder_label w a c).Forall (fun k => ∀ path data flag scale,
      k = Call.WriteLabelFile path data flag scale →
        a.kfolder.present = true
        ∧ (c.isAPFS = false ∨ (c.sb.f_flags &&& MNT_RDONLY) = 0)
        ∧ (scale = BitmapScale.kBitmapScale_1x →
            flag = (isOFLabel data (toInt32 data.length) != 0 && c.isHFS))
        ∧ (scale = BitmapScale.kBitmapScale_2x → flag = false)) := by
  unfold modeFolder_label modeFolder_labeldata
  simp
  repeat' (first | intro _ | refine ⟨?_, ?_⟩ | split)
  all_goals subst_vars
  all_goals simp_all

/-- A call of the label step is issued after the mount point was found, the classification
succeeded and the boot.efi block has returned. -/
theorem modeFolder_mem_label (w : World) (a : Args) (c : Call)
    (hs : c.stage = Stage.label) (h : c ∈ (modeFolder w a).trace) :
    ∃ e cl a2, (extractMountPoint w a).res = Except.ok e ∧ e.1 = 0
      ∧ (modeFolder_classify w (modeFolder_guessFile w e.2)).res = Except.ok cl
      ∧ (modeFolder_bootefi w (modeFolder_guessFile w e.2) cl.isAPFS cl.sb).res = Except.ok a2
      ∧ c ∈ (modeFolder_label w a2 cl).trace := by
  have no : ∀ {α : Type} (s : Step α) (k : Stage), s.Forall (fun c => c.stage = k) →
      k ≠ Stage.label → c ∉ s.trace := by
    intro α s k hk hne hc
    have := (Step.forall_iff _ _).1 hk c hc
    rw [hs] at this
    exact hne this.symm
  unfold modeFolder at h
  simp only [Step.mem_bind] at h
  rcases h with h | ⟨p, hp, h | ⟨b, hb, h | ⟨_, _, h⟩⟩⟩
  · unfold modeFolder_prepare at h
    simp only [Step.mem_bind] at h
    rcases h with h | ⟨e, he, h⟩
    · exact absurd h (no _ _ (extractMountPoint_stage w a) (by decide))
    · by_cases h0 : e.1 = 0
      · rw [if_neg (by simp [h0])] at h
        simp only [Step.mem_bind] at h
        rcases h with h | ⟨_, _, h⟩
        · simp at h
        · rcases h with h | ⟨cl, hcl, h⟩
          · exact absurd h (no _ _ (modeFolder_classify_stage _ _) (by decide))
          · rcases h with h | ⟨a2, ha2, h⟩
            · exact absurd h (no _ _ (modeFolder_bootefi_stage _ _ _ _) (by decide))
            · rcases h with h | ⟨_, _, h⟩
              · exact absurd h (no _ _ (modeFolder_apfsdriver_stage _ _ _) (by decide))
              · rcases h with h | ⟨_, _, h⟩
                · exact ⟨e, cl, a2, he, h0, hcl, ha2, h⟩
                · simp at h
      · rw [if_pos h0] at h
        simp at h
  · have := (Step.forall_iff _ _).1 (modeFolder_bless_stage _ _ _ _ _ _) c h
    rw [hs] at this
    simp at this
  · exact absurd h (no _ _ (modeFolder_personalize_stage _ _) (by decide))
  · exact absurd h (no _ _ (modeFolder_setboot_stage _ _ _ _ _ _) (by decide))

theorem quietWorld_labelArgs_trace :
    (modeFolder quietWorld labelArgs).trace =
      [Call.BLGetCommonMountPoint "/Volumes/X/System", Call.BLIsMountHFS "/Volumes/X",
       Call.BLIsMountAPFS "/Volumes/X", Call.BLIsMountAPFSDataRolePreSSVToSSV "/Volumes/X",
       Call.blsustatfs 157 "/Volumes/X",
       Call.BLGenerateLabelData "X" BitmapScale.kBitmapScale_1x,
       Call.BLGenerateLabelData "X" BitmapScale.kBitmapScale_2x,
       Call.WriteLabelFile "/Volumes/X/System/.disk_label" [1, 0, 1, 0, 1, 7] true
         BitmapScale.kBitmapScale_1x,
       Call.WriteLabelFile "/Volumes/X/System/.disk_label_2x" [1, 0, 1, 0, 1, 7] false
         BitmapScale.kBitmapScale_2x,
       Call.BLGetVolumeFinderInfo "/Volumes/X",
       Call.BLGetFileID "/Volumes/X/System",
       Call.BLSetVolumeFinderInfo "/Volumes/X" blessedWords] := by
  rfl

/-- The value of `bootfile` that lines 356-396 leave, in terms of the collaborators' answers. -/
theorem modeFolder_bootfile_val (w : World) (k : clarg) (m : String) (n : Nat)
    (b : Nat × clarg) (h : (modeFolder_bootfile w k m n).res = Except.ok b) :
    (k.present = true → b.1 = match w.BLGetFileID k.argument with
        | some id => if w.lstat 364 k.argument = some true then id else 0
        | none => 0)
    ∧ (k.present = false → b.1 = if n = 0 then 0 else
        match w.BLLookupFileIDOnMount m n with
        | some path => if w.lstat 385 path = some true then n else 0
        | none => 0) := by
  unfold modeFolder_bootfile at h
  by_cases hk : k.present = true
  · refine ⟨fun _ => ?_, fun h2 => (by rw [hk] at h2; cases h2)⟩
    cases hid : w.BLGetFileID k.argument with
    | none =>
      simp [hk, hid] at h
      subst h
      rfl
    | some id =>
      by_cases hl : w.lstat 364 k.argument = some true
      · simp [hk, hid, hl] at h
        subst h
        simp [hl]
      · simp [hk, hid, hl] at h
        subst h
        simp [hl]
  · have hk : k.present = false := by simpa using hk
    refine ⟨fun h2 => (by rw [hk] at h2; cases h2), fun _ => ?_⟩
    by_cases hn : n = 0
    · simp [hk, hn] at h
      subst h
      simp [hn]
    · cases hp : w.BLLookupFileIDOnMount m n with
      | none =>
        simp [hk, hn, hp] at h
        subst h
        simp [hn]
      | some path =>
        by_cases hl : w.lstat 385 path = some true
        · simp [hk, hn, hp, hl] at h
          subst h
          simp [hn, hl]
        · simp [hk, hn, hp, hl] at h
          subst h
          simp [hn, hl]

/-- The value of `fileInum` that lines 476-518 leave, in terms of the collaborators'
answers. -/
theorem modeFolder_fileInum_val (w : World) (k : clarg) (m : String) (n : Nat)
    (b : Nat × clarg) (h : (modeFolder_fileInum w k m n).res = Except.ok b) :
    (k.present = true → b.1 = match w.BLGetAPFSInodeNum k.argument with
        | some inum => if w.lstat 484 k.argument = some true then inum else 0
        | none => 0)
    ∧ (k.present = false → b.1 = if n = 0 then 0 else
        match w.BLLookupFileIDOnMount64 m n w.kMaxArgLength with
        | some path => if w.lstat 505 path = some true then n else 0
        | none => 0) := by
  unfold modeFolder_fileInum at h
  by_cases hk : k.present = true
  · refine ⟨fun _ => ?_, fun h2 => (by rw [hk] at h2; cases h2)⟩
    cases hid : w.BLGetAPFSInodeNum k.argument with
    | none =>
      simp [hk, hid] at h
      subst h
      rfl
    | some id =>
      by_cases hl : w.lstat 484 k.argument = some true
      · simp [hk, hid, hl] at h
        subst h
        simp [hl]
      · simp [hk, hid, hl] at h
        subst h
        simp [hl]
  · have hk : k.present = false := by simpa using hk
    refine ⟨fun h2 => (by rw [hk] at h2; cases h2), fun _ => ?_⟩
    by_cases hn : n = 0
    · simp [hk, hn] at h
      subst h
      simp [hn]
    · cases hp : w.BLLookupFileIDOnMount64 m n w.kMaxArgLength with
      | none =>
        simp [hk, hn, hp] at h
        subst h
        simp [hn]
      | some path =>
        by_cases hl : w.lstat 505 path = some true
        · simp [hk, hn, hp, hl] at h
          subst h
          simp [hn, hl]
        · simp [hk, hn, hp, hl] at h
          subst h
          simp [hn, hl]

theorem noBootFileWorld_folderArgs_trace :
    (modeFolder noBootFileWorld folderArgs).trace =
      [Call.BLGetCommonMountPoint "/Volumes/X/System", Call.BLIsMountHFS "/Volumes/X",
       Call.BLIsMountAPFS "/Volumes/X", Call.BLIsMountAPFSDataRolePreSSVToSSV "/Volumes/X",
       Call.blsustatfs 157 "/Volumes/X", Call.BLGetVolumeFinderInfo "/Volumes/X",
       Call.BLGetFileID "/Volumes/X/System",
       Call.BLSetVolumeFinderInfo "/Volumes/X" noBootFileWords] := by
  rfl

/-- Lines 130-136 with `--folder` and `--bootefi` but no `--file`: `actargs[kfile]` becomes
`<folder>/boot.efi`. -/
theorem fileArg_guessed (w : World) (a : Args) (hfile : a.kfile.present = false)
    (hfolder : a.kfolder.present = true) (hbootefi : a.kbootefi.present = true) :
    (fileArg w a).present = true
    ∧ (fileArg w a).argument = snprintf w.kMaxArgLength (a.kfolder.argument ++ "/boot.efi") := by
  unfold fileArg modeFolder_guessFile
  simp [hfile, hfolder, hbootefi]

theorem guessWorld_trace :
    (modeFolder guessWorld bootefiArgs).trace =
      [Call.BLGetCommonMountPoint "/Volumes/X/System", Call.BLIsMountHFS "/Volumes/X",
       Call.BLIsMountAPFS "/Volumes/X", Call.BLIsMountAPFSDataRolePreSSVToSSV "/Volumes/X",
       Call.blsustatfs 157 "/Volumes/X", Call.BLLoadFile 200 "/src/boot.efi",
       Call.lstat 212 "/Volumes/X/System/boot.efi",
       Call.BLLoadFile 215 "/Volumes/X/System/boot.efi",
       Call.CopyManifests "/Volumes/X/System/boot.efi" "/src/boot.efi",
       Call.BLGetVolumeFinderInfo "/Volumes/X",
       Call.BLGetFileID "/Volumes/X/System", Call.BLGetFileID "/Volumes/X/System/boot.efi",
       Call.lstat 364 "/Volumes/X/System/boot.efi",
       Call.BLSetVolumeFinderInfo "/Volumes/X" guessedWords] := by
  rfl

theorem inodeWorld_fileArgs_trace :
    (modeFolder inodeWorld fileArgs).trace =
      [Call.BLGetCommonMountPoint "/Volumes/X/System", Call.BLIsMountHFS "/Volumes/X",
       Call.BLIsMountAPFS "/Volumes/X", Call.BLIsMountAPFSDataRolePreSSVToSSV "/Volumes/X",
       Call.blsustatfs 157 "/Volumes/X", Call.APFSVolumeRole "disk1s2",
       Call.BLIsVolumeARV "/Volumes/X" "disk1s2", Call.BLGetAPFSBlessData "/Volumes/X",
       Call.BLGetAPFSInodeNum "/Volumes/X/System",
       Call.BLGetAPFSInodeNum "/Volumes/X/System/boot.efi",
       Call.lstat 484 "/Volumes/X/System/boot.efi",
       Call.BLSetAPFSBlessData "/Volumes/X" inodeData,
       Call.BlessPrebootVolume "disk1s2" none none none] := by
  rfl

theorem inodeWorld_openFirmware_trace :
    (modeFolder (inodeWorld.withFirmware BLPreBootEnvType.kBLPreBootEnvType_OpenFirmware 7)
        fileSetBootArgs).trace =
      [Call.BLGetCommonMountPoint "/Volumes/X/System", Call.BLIsMountHFS "/Volumes/X",
       Call.BLIsMountAPFS "/Volumes/X", Call.BLIsMountAPFSDataRolePreSSVToSSV "/Volumes/X",
       Call.blsustatfs 157 "/Volumes/X", Call.APFSVolumeRole "disk1s2",
       Call.BLIsVolumeARV "/Volumes/X" "disk1s2",
       Call.BLLoadFile 258 "/Volumes/X/usr/standalone/i386/apfs.efi",
       Call.APFSContainerEFIEmbed "disk1" [1, 2, 3] 3,
       Call.BLGetAPFSBlessData "/Volumes/X",
       Call.BLGetAPFSInodeNum "/Volumes/X/System",
       Call.BLGetAPFSInodeNum "/Volumes/X/System/boot.efi",
       Call.lstat 484 "/Volumes/X/System/boot.efi",
       Call.BLSetAPFSBlessData "/Volumes/X" inodeData,
       Call.BlessPrebootVolume "disk1s2" none none none,
       Call.blsustatfs 594 "/Volumes/X",
       Call.setboot "/dev/disk1s2" none] := by
  rfl

/-- The `access` probe of lines 177-196: only on `bootdev.efi` under the mount point, and only
when the OS version is 10.11 or later. -/
theorem modeFolder_defaultBootEFI_access (w : World) (a : Args) (p : String) :
    Call.access p ∈ (modeFolder_defaultBootEFI w a).trace ↔
      (10 ≤ (w.BLGetOSVersion a.kmount.argument).major
        ∧ ((w.BLGetOSVersion a.kmount.argument).major > 10
          ∨ (w.BLGetOSVersion a.kmount.argument).minor ≥ 11)
        ∧ p = snprintf (w.kMaxArgLength - 1)
            (a.kmount.argument ++ w.kBL_PATH_I386_BOOTDEV_EFI)) := by
  unfold modeFolder_defaultBootEFI
  by_cases h1 : (w.BLGetOSVersion a.kmount.argument).major < 10
  · simp [-Step.bind_ok, -Step.mem_bind, -Step.bind_error, Step.bind_def, Step.bind,
      call, exitWith, Step.pure_def, Step.pure, h1]
  · by_cases h2 : (w.BLGetOSVersion a.kmount.argument).major > 10
        ∨ (w.BLGetOSVersion a.kmount.argument).minor ≥ 11
    · by_cases h3 : w.access (snprintf (w.kMaxArgLength - 1)
          (a.kmount.argument ++ w.kBL_PATH_I386_BOOTDEV_EFI)) = 0
      · simp [-Step.bind_ok, -Step.mem_bind, -Step.bind_error, Step.bind_def, Step.bind,
          call, exitWith, Step.pure_def, Step.pure, h1, h2, h3]
        intro _
        omega
      · simp [-Step.bind_ok, -Step.mem_bind, -Step.bind_error, Step.bind_def, Step.bind,
          call, exitWith, Step.pure_def, Step.pure, h1, h2, h3]
        intro _
        omega
    · simp [-Step.bind_ok, -Step.mem_bind, -Step.bind_error, Step.bind_def, Step.bind,
        call, exitWith, Step.pure_def, Step.pure, h1, h2]

theorem modeFolder_loadBootEFI_noAccess (w : World) (a : Args) (isAPFS : Bool) :
    (modeFolder_loadBootEFI w a isAPFS).Forall (fun c => ∀ p, c ≠ Call.access p) := by
  unfold modeFolder_loadBootEFI modeFolder_materialize
  simp
  repeat' (first | intro _ | refine ⟨?_, ?_⟩ | split)
  all_goals simp_all

/-- The `access` probes of the boot.efi block are those of lines 177-196, which run when
`--bootefi` is given without a path. -/
theorem modeFolder_bootefi_access (w : World) (a : Args) (isAPFS : Bool) (sb : statfs)
    (p : String) :
    Call.access p ∈ (modeFolder_bootefi w a isAPFS sb).trace ↔
      (a.kbootefi.present = true ∧ a.kbootefi.hasArg = false
        ∧ Call.access p ∈ (modeFolder_defaultBootEFI w a).trace) := by
  have no : ∀ a3, Call.access p ∉ (modeFolder_loadBootEFI w a3 isAPFS).trace := fun a3 h =>
    (Step.forall_iff _ _).1 (modeFolder_loadBootEFI_noAccess w a3 isAPFS) _ h p rfl
  unfold modeFolder_bootefi
  by_cases hp : a.kbootefi.present = true
  · by_cases hh : a.kbootefi.hasArg = true
    · simp [hp, hh, no]
    · have hh : a.kbootefi.hasArg = false := by simpa using hh
      simp [hp, hh, no]
  · simp [hp]

/-- A call of the boot.efi block is a call of `modeFolder`. -/
theorem modeFolder_mem_of_bootefi (w : World) (a : Args) (e : Int × Args)
    (cl : Classification) (c : Call)
    (he : (extractMountPoint w a).res = Except.ok e) (h0 : e.1 = 0)
    (hcl : (modeFolder_classify w (modeFolder_guessFile w e.2)).res = Except.ok cl)
    (h : c ∈ (modeFolder_bootefi w (modeFolder_guessFile w e.2) cl.isAPFS cl.sb).trace) :
    c ∈ (modeFolder w a).trace := by
  unfold modeFolder
  rw [Step.mem_bind]
  left
  unfold modeFolder_prepare
  rw [Step.mem_bind]
  right
  refine ⟨e, he, ?_⟩
  rw [if_neg (by simp [h0])]
  rw [Step.mem_bind]
  right
  refine ⟨(), rfl, ?_⟩
  rw [Step.mem_bind]
  right
  refine ⟨cl, hcl, ?_⟩
  rw [Step.mem_bind]
  left
  exact h

theorem BLFormatHFS_fst (system : Bytes → Int) (devicepath : Bytes) (b : Int)
    (fslabel fsargs : Bytes) :
    (BLFormatHFS system devicepath b fslabel fsargs).1
      = BLFormatHFS_commandline devicepath (BLFormatHFS_newsize b) fslabel fsargs := by
  unfold BLFormatHFS
  simp only []
  split <;> rfl

theorem BLFormatHFS_snd (system : Bytes → Int) (devicepath : Bytes) (b : Int)
    (fslabel fsargs : Bytes) :
    (BLFormatHFS system devicepath b fslabel fsargs).2
      = if system (BLFormatHFS system devicepath b fslabel fsargs).1 ≠ 0 then 7 else 0 := by
  rw [BLFormatHFS_fst]
  unfold BLFormatHFS
  simp only []
  split <;> rfl

theorem BLFormatHFS_newsize_1000 : BLFormatHFS_newsize 1000 = 2 := by
  have h := BLFormatHFS_newsize_eq 1000 (by decide) (by decide)
  have : (BLFormatHFS_newsize 1000 : Int) = 2 := by
    rw [h]
    decide
  exact_mod_cast this

theorem BLFormatHFS_newsize_0 : BLFormatHFS_newsize 0 = 0 := by
  have h := BLFormatHFS_newsize_eq 0 (by decide) (by decide)
  have : (BLFormatHFS_newsize 0 : Int) = 0 := by
    rw [h]
    decide
  exact_mod_cast this

/-- A text cut inside a run of equal bytes. -/
theorem List.take_append_replicate (P X : Bytes) (N M c : Nat) (h : M ≤ N) :
    (P ++ (List.replicate N c ++ X)).take (P.length + M) = P ++ List.replicate M c := by
  rw [List.take_append_eq_append_take, List.take_of_length_le (by omega),
    List.take_append_eq_append_take, List.take_replicate]
  simp only [Nat.add_sub_cancel_left, List.length_replicate, Nat.min_eq_left h]
  rw [Nat.sub_eq_zero_of_le h]
  simp

theorem List.prefix_take_append (A B : Bytes) (n : Nat) (h : A.length ≤ n) :
    A <+: (A ++ B).take n := by
  rw [List.take_append_eq_append_take, List.take_of_length_le h]
  exact List.prefix_append _ _

/-! ## The claims -/

/-- C1, counterexample: on an APFS data volume for which `BLIsMountAPFSDataRolePreSSVToSSV`
reports the flag set, `modeFolder --folder ...` returns 0 after calling `BlessPrebootVolume`,
one of the metadata writes the claim excludes. -/
theorem C1_folder_blesses_despite_flag :
    (∀ m, (preSSVWorld.BLIsMountAPFSDataRolePreSSVToSSV m).2 = true)
    ∧ (modeFolder preSSVWorld folderArgs).status = 0
    ∧ Call.BlessPrebootVolume "disk1s2" none none none ∈ (modeFolder preSSVWorld folderArgs).trace
    ∧ (Call.BlessPrebootVolume "disk1s2" none none none).isMetadataWrite = true := by
  refine ⟨fun _ => rfl, rfl, ?_, rfl⟩
  have : (modeFolder preSSVWorld folderArgs).trace =
      [Call.BLGetCommonMountPoint "/Volumes/X/System", Call.BLIsMountHFS "/Volumes/X",
       Call.BLIsMountAPFS "/Volumes/X", Call.BLIsMountAPFSDataRolePreSSVToSSV "/Volumes/X",
       Call.blsustatfs 157 "/Volumes/X", Call.APFSVolumeRole "disk1s2",
       Call.BLIsVolumeARV "/Volumes/X" "disk1s2",
       Call.BlessPrebootVolume "disk1s2" none none none] := by
    rfl
  rw [this]
  simp

/-- C1, amended: in every run in which `BLIsMountAPFSDataRolePreSSVToSSV` reports the flag set,
no label file is written (`WriteLabelFile`), and, when no folder is given, no metadata record
is written either (`BLSetVolumeFinderInfo`, `BLSetAPFSBlessData`, `BlessPrebootVolume`). -/
theorem C1_flag_suppresses_label_and_unrequested_bless (w : World) (a : Args)
    (hflag : ∀ m, (w.BLIsMountAPFSDataRolePreSSVToSSV m).2 = true) :
    (∀ c ∈ (modeFolder w a).trace, c.isLabelWrite = false)
    ∧ (a.kfolder.present = false → ∀ c ∈ (modeFolder w a).trace, c.isMetadataWrite = false) := by
  have hl : ∀ k : Stage, k ≠ Stage.label → ∀ c : Call, c.stage = k → c.isLabelWrite = false := by
    intro k hk c hc
    cases h : c.isLabelWrite
    · rfl
    · exact absurd ((Call.stage_of_isLabelWrite c h).symm.trans hc).symm hk
  have hm : ∀ k : Stage, k ≠ Stage.blessHFS ∧ k ≠ Stage.blessAPFS →
      ∀ c : Call, c.stage = k → c.isMetadataWrite = false := by
    intro k hk c hc
    cases h : c.isMetadataWrite
    · rfl
    · rcases Call.stage_of_isMetadataWrite c h with h2 | h2
      · exact absurd (hc.symm.trans h2) hk.1
      · exact absurd (hc.symm.trans h2) hk.2
  constructor
  · rw [← Step.forall_iff]
    apply modeFolder_forall
    · apply modeFolder_prepare_forall
      · rintro c (h | h | h | h) <;> exact hl _ (by decide) c h
      · intro e c a2 _ hc
        have hc3 := (modeFolder_classify_ok _ _ _ hc).2.2.1
        rw [hflag] at hc3
        rw [Step.forall_iff, modeFolder_label_dontWrite _ _ _ hc3]
        simp
    · intro p _
      refine (modeFolder_bless_stage _ _ _ _ _ _).mono ?_
      rintro c (h | h)
      · exact hl _ (by decide) c h
      · exact hl _ (by decide) c h
    · exact hl _ (by decide)
    · exact hl _ (by decide)
  · intro hfolder
    rw [← Step.forall_iff]
    apply modeFolder_forall
    · exact (modeFolder_prepare_stage w a).mono (fun c hc => hm _ ⟨hc.1, hc.2.1⟩ c rfl)
    · intro p hp
      have ok := modeFolder_prepare_ok _ _ _ hp
      have h1 := ok.shouldBless
      have h3 := ok.dontWrite
      rw [hfolder] at h1
      rw [hflag] at h3
      rw [Step.forall_iff, h1, modeFolder_bless_skip _ _ _ _ _ h3]
      simp
    · exact hm _ (by decide)
    · exact hm _ (by decide)

/-- C1, witness: the flag is set and no folder is given (`--mount /Volumes/X --setBoot`). -/
theorem C1_flag_suppresses_label_and_unrequested_bless_witness :
    (∀ m, (preSSVWorld.BLIsMountAPFSDataRolePreSSVToSSV m).2 = true)
    ∧ (∀ c ∈ (modeFolder preSSVWorld mountArgs).trace, c.isLabelWrite = false)
    ∧ (∀ c ∈ (modeFolder preSSVWorld mountArgs).trace, c.isMetadataWrite = false) :=
  ⟨fun _ => rfl,
    (C1_flag_suppresses_label_and_unrequested_bless preSSVWorld mountArgs (fun _ => rfl)).1,
    (C1_flag_suppresses_label_and_unrequested_bless preSSVWorld mountArgs (fun _ => rfl)).2 rfl⟩

/-- C2: in the HFS Finder-info update of `modeFolder`, the word 0 written is 0 if a
firmware-pointer update is requested (`--setBoot`), the firmware style is Open Firmware and
`f_fssubtype & ~1` is non-zero; otherwise it is the folder ID if that is non-zero; otherwise it
is the word 0 that was read. -/
theorem C2_word0_of_finder_info (w : World) (a : Args) (m : String) (words : Fin 8 → Nat)
    (h : Call.BLSetVolumeFinderInfo m words ∈ (modeFolder w a).trace) :
    ∃ oldwords, w.BLGetVolumeFinderInfo m = some oldwords
      ∧ words 0 =
        if a.ksetboot.present = true
            ∧ w.getPrebootType = BLPreBootEnvType.kBLPreBootEnvType_OpenFirmware
            ∧ ((w.blsustatfs 157 m).2.f_fssubtype % 4294967296) &&& 4294967294 ≠ 0 then 0
        else if (if a.kfolder.present then (w.BLGetFileID a.kfolder.argument).getD 0 else 0) ≠ 0
          then (if a.kfolder.present then (w.BLGetFileID a.kfolder.argument).getD 0 else 0)
        else oldwords 0 := by
  obtain ⟨old, b, hold, _, _, _, hw⟩ := modeFolder_setFinderInfo w a m words h
  refine ⟨old, hold, ?_⟩
  rw [hw, word0_at_zero]
  simp [Function.update]

/-- C2, witness: `modeFolder --folder /Volumes/X/System` on an HFS volume. -/
theorem C2_word0_of_finder_info_witness :
    Call.BLSetVolumeFinderInfo "/Volumes/X" blessedWords
      ∈ (modeFolder ownerWorld folderArgs).trace
    ∧ ∃ oldwords, ownerWorld.BLGetVolumeFinderInfo "/Volumes/X" = some oldwords
      ∧ blessedWords 0 =
        if folderArgs.ksetboot.present = true
            ∧ ownerWorld.getPrebootType = BLPreBootEnvType.kBLPreBootEnvType_OpenFirmware
            ∧ ((ownerWorld.blsustatfs 157 "/Volumes/X").2.f_fssubtype % 4294967296)
                &&& 4294967294 ≠ 0 then 0
        else if (if folderArgs.kfolder.present
            then (ownerWorld.BLGetFileID folderArgs.kfolder.argument).getD 0 else 0) ≠ 0
          then (if folderArgs.kfolder.present
            then (ownerWorld.BLGetFileID folderArgs.kfolder.argument).getD 0 else 0)
        else oldwords 0 :=
  ⟨by rw [ownerWorld_folderArgs_trace]; simp,
   C2_word0_of_finder_info ownerWorld folderArgs "/Volumes/X" blessedWords
    (by rw [ownerWorld_folderArgs_trace]; simp)⟩

/-- C4: whenever the boot-loader-file slot of a record that `modeFolder` writes (word 1 of the
HFS Finder info, word 0 of the APFS bless data) is non-zero, either a file is given, the slot is
its identifier and `lstat` on its path reported a regular file, or no file is given and `lstat`
on the path returned by the reverse lookup of the stored identifier reported a regular file; in
particular the slot is 0 when the resolution or `lstat` fails or the path is not a regular
file. The resolution never makes `modeFolder` return: once the record is read and the caller is
authorized, the record is written. -/
theorem C4_file_slot_is_regular_file_or_zero (w : World) (a : Args) :
    (∀ m words, Call.BLSetVolumeFinderInfo m words ∈ (modeFolder w a).trace →
      ∃ oldwords, w.BLGetVolumeFinderInfo m = some oldwords ∧
        (words 1 ≠ 0 →
          ((fileArg w a).present = true
            ∧ w.BLGetFileID (fileArg w a).argument = some (words 1)
            ∧ w.lstat 364 (fileArg w a).argument = some true)
          ∨ ((fileArg w a).present = false
            ∧ ∃ path, w.BLLookupFileIDOnMount m (oldwords 1) = some path
              ∧ w.lstat 385 path = some true)))
    ∧ (∀ m words, Call.BLSetAPFSBlessData m words ∈ (modeFolder w a).trace →
        (words 0 ≠ 0 →
          ((fileArg w a).present = true
            ∧ w.BLGetAPFSInodeNum (fileArg w a).argument = some (words 0)
            ∧ w.lstat 484 (fileArg w a).argument = some true)
          ∨ ((fileArg w a).present = false
            ∧ ∃ path, w.BLLookupFileIDOnMount64 m
                ((w.BLGetAPFSBlessData m).2.getD (fun _ => 0) 0) w.kMaxArgLength = some path
              ∧ w.lstat 505 path = some true)))
    ∧ (∀ m oldwords, Call.BLGetVolumeFinderInfo m ∈ (modeFolder w a).trace →
        w.BLGetVolumeFinderInfo m = some oldwords →
        (w.geteuid = 0 ∨ w.geteuid = (w.blsustatfs 157 m).2.f_owner) →
        ∃ words, Call.BLSetVolumeFinderInfo m words ∈ (modeFolder w a).trace)
    ∧ (∀ m, Call.BLGetAPFSBlessData m ∈ (modeFolder w a).trace →
        ((w.BLGetAPFSBlessData m).1 = 0 ∨ (w.BLGetAPFSBlessData m).1 = ENOENT) →
        (w.geteuid = 0 ∨ w.geteuid = (w.blsustatfs 157 m).2.f_owner) →
        ∃ words, Call.BLSetAPFSBlessData m words ∈ (modeFolder w a).trace) := by
  refine ⟨?_, ?_, ?_, ?_⟩
  · intro m words h
    obtain ⟨old, b, hold, _, hb, _, hw⟩ := modeFolder_setFinderInfo w a m words h
    refine ⟨old, hold, ?_⟩
    have h1 : words 1 = b.1 := by
      rw [hw, word0_at_ne _ _ _ _ _ _ (by decide)]
      simp [Function.update]
    obtain ⟨b2, hb2, _, hpres, habs⟩ :=
      modeFolder_bootfile_res w (modeFolder_guessFile w a).kfile m (old 1)
    have hbb : b2 = b := by
      rw [hb2] at hb
      exact Except.ok.inj hb
    subst hbb
    rw [h1]
    intro hne
    unfold fileArg
    by_cases hk : (modeFolder_guessFile w a).kfile.present = true
    · exact Or.inl ⟨hk, (hpres hk hne).1, (hpres hk hne).2⟩
    · have hk : (modeFolder_guessFile w a).kfile.present = false := by simpa using hk
      refine Or.inr ⟨hk, ?_⟩
      by_contra hcon
      exact hne ((habs hk).2 (fun hc => hcon hc.2))
  · intro m words h
    obtain ⟨f, _, _, _, _, _, hb, _, hw⟩ := modeFolder_setBlessData w a m words h
    have h1 : words 0 = f.1 := by
      rw [hw]
      simp [Function.update]
    obtain ⟨b2, hb2, _, hpres, habs⟩ := modeFolder_fileInum_res w (modeFolder_guessFile w a).kfile m
      ((w.BLGetAPFSBlessData m).2.getD (fun _ => 0) 0)
    have hbb : b2 = f := by
      rw [hb2] at hb
      exact Except.ok.inj hb
    subst hbb
    rw [h1]
    intro hne
    unfold fileArg
    by_cases hk : (modeFolder_guessFile w a).kfile.present = true
    · exact Or.inl ⟨hk, (hpres hk hne).1, (hpres hk hne).2⟩
    · have hk : (modeFolder_guessFile w a).kfile.present = false := by simpa using hk
      refine Or.inr ⟨hk, ?_⟩
      by_contra hcon
      exact hne ((habs hk).2 (fun hc => hcon hc.2))
  · intro m oldwords h hold hauth
    exact modeFolder_finderInfo_written w a m oldwords h hold hauth
  · intro m h hread hauth
    exact modeFolder_blessData_written w a m h hread hauth

/-- C4, witness: `modeFolder --folder F --file F/boot.efi` on an HFS volume and on an APFS
preboot volume; the file slot written is 42. -/
theorem C4_file_slot_is_regular_file_or_zero_witness :
    (Call.BLSetVolumeFinderInfo "/Volumes/X" blessedFileWords
        ∈ (modeFolder ownerWorld fileArgs).trace
      ∧ blessedFileWords 1 ≠ 0
      ∧ ownerWorld.lstat 364 (fileArg ownerWorld fileArgs).argument = some true)
    ∧ (Call.BLSetAPFSBlessData "/Volumes/X" blessedFileData
        ∈ (modeFolder prebootWorld fileArgs).trace
      ∧ blessedFileData 0 ≠ 0
      ∧ prebootWorld.lstat 484 (fileArg prebootWorld fileArgs).argument = some true) := by
  have h1 : Call.BLSetVolumeFinderInfo "/Volumes/X" blessedFileWords
      ∈ (modeFolder ownerWorld fileArgs).trace := by
    rw [ownerWorld_fileArgs_trace]; simp
  have h2 : Call.BLSetAPFSBlessData "/Volumes/X" blessedFileData
      ∈ (modeFolder prebootWorld fileArgs).trace := by
    rw [prebootWorld_fileArgs_trace]; simp
  have n1 : blessedFileWords 1 ≠ 0 := by decide
  have n2 : blessedFileData 0 ≠ 0 := by decide
  refine ⟨⟨h1, n1, ?_⟩, ⟨h2, n2, ?_⟩⟩
  · obtain ⟨_, _, hc⟩ := (C4_file_slot_is_regular_file_or_zero ownerWorld fileArgs).1 _ _ h1
    rcases hc n1 with ⟨_, _, h⟩ | ⟨h, _⟩
    · exact h
    · exact absurd h (by decide)
  · rcases (C4_file_slot_is_regular_file_or_zero prebootWorld fileArgs).2.1 _ _ h2 n2 with
      ⟨_, _, h⟩ | ⟨h, _⟩
    · exact h
    · exact absurd h (by decide)

/-- C5, counterexample: `--folder /Volumes/X/System --bootefi /src/boot.efi` without `--file`
on an HFS volume whose Finder info stores the boot file 77, which looks up to a regular file:
word 1 of the record written is 99, the ID of `<folder>/boot.efi`, and not the stored 77. -/
theorem C5_guessed_file_replaces_stored :
    bootefiArgs.kfile.present = false
    ∧ guessWorld.BLGetVolumeFinderInfo "/Volumes/X" = some (fun i => if i = 1 then 77 else 0)
    ∧ guessWorld.BLLookupFileIDOnMount "/Volumes/X" 77 = some "/Volumes/X/System/boot.efi"
    ∧ guessWorld.lstat 385 "/Volumes/X/System/boot.efi" = some true
    ∧ Call.BLSetVolumeFinderInfo "/Volumes/X" guessedWords
        ∈ (modeFolder guessWorld bootefiArgs).trace
    ∧ (∀ words, Call.BLSetVolumeFinderInfo "/Volumes/X" words
        ∈ (modeFolder guessWorld bootefiArgs).trace → words = guessedWords)
    ∧ guessedWords 1 = 99
    ∧ guessWorld.BLGetFileID "/Volumes/X/System/boot.efi" = some 99 := by
  rw [guessWorld_trace]
  refine ⟨rfl, rfl, rfl, rfl, by simp, ?_, rfl, rfl⟩
  intro words h
  simpa using h

/-- C5, amended: when no `--file` is given, the boot-loader-file slot written (word 1 of the
HFS Finder info, word 0 of the APFS bless data) is decided as follows. Unless both `--folder`
and `--bootefi` are given, it is the stored identifier if that is non-zero, its reverse lookup
on the mount succeeds and `lstat` reports the looked-up path to be a regular file, and 0 in
every other case. With `--folder` and `--bootefi`, lines 130-136 fill in `<folder>/boot.efi`
as the file, and the slot is the identifier of that path if `lstat` reports it to be a regular
file and 0 otherwise, whatever identifier is stored. -/
theorem C5_file_slot_without_explicit_file (w : World) (a : Args)
    (hfile : a.kfile.present = false) :
    (∀ m words, Call.BLSetVolumeFinderInfo m words ∈ (modeFolder w a).trace →
      ∃ oldwords, w.BLGetVolumeFinderInfo m = some oldwords
        ∧ ((a.kfolder.present = false ∨ a.kbootefi.present = false) →
            ((oldwords 1 ≠ 0 ∧ ∃ path, w.BLLookupFileIDOnMount m (oldwords 1) = some path
                  ∧ w.lstat 385 path = some true) → words 1 = oldwords 1)
            ∧ (¬ (oldwords 1 ≠ 0 ∧ ∃ path, w.BLLookupFileIDOnMount m (oldwords 1) = some path
                  ∧ w.lstat 385 path = some true) → words 1 = 0))
        ∧ ((a.kfolder.present = true ∧ a.kbootefi.present = true) →
            words 1 =
              match w.BLGetFileID
                (snprintf w.kMaxArgLength (a.kfolder.argument ++ "/boot.efi")) with
              | some id =>
                if w.lstat 364 (snprintf w.kMaxArgLength (a.kfolder.argument ++ "/boot.efi"))
                    = some true then id else 0
              | none => 0))
    ∧ (∀ m words, Call.BLSetAPFSBlessData m words ∈ (modeFolder w a).trace →
      ∀ oldWords, oldWords = (w.BLGetAPFSBlessData m).2.getD (fun _ => 0) →
        ((a.kfolder.present = false ∨ a.kbootefi.present = false) →
          ((oldWords 0 ≠ 0 ∧ ∃ path,
              w.BLLookupFileIDOnMount64 m (oldWords 0) w.kMaxArgLength = some path
                ∧ w.lstat 505 path = some true) → words 0 = oldWords 0)
          ∧ (¬ (oldWords 0 ≠ 0 ∧ ∃ path,
              w.BLLookupFileIDOnMount64 m (oldWords 0) w.kMaxArgLength = some path
                ∧ w.lstat 505 path = some true) → words 0 = 0))
        ∧ ((a.kfolder.present = true ∧ a.kbootefi.present = true) →
            words 0 =
              match w.BLGetAPFSInodeNum
                (snprintf w.kMaxArgLength (a.kfolder.argument ++ "/boot.efi")) with
              | some inum =>
                if w.lstat 484 (snprintf w.kMaxArgLength (a.kfolder.argument ++ "/boot.efi"))
                    = some true then inum else 0
              | none => 0)) := by
  have hk : (a.kfolder.present = false ∨ a.kbootefi.present = false) →
      (modeFolder_guessFile w a).kfile.present = false := by
    intro hguess
    rw [modeFolder_guessFile_present, hfile]
    rcases hguess with h | h <;> simp [h]
  constructor
  · intro m words h
    obtain ⟨old, b, hold, _, hb, _, hw⟩ := modeFolder_setFinderInfo w a m words h
    refine ⟨old, hold, ?_, ?_⟩
    · intro hguess
      have h1 : words 1 = b.1 := by
        rw [hw, word0_at_ne _ _ _ _ _ _ (by decide)]
        simp [Function.update]
      obtain ⟨b2, hb2, _, _, habs⟩ :=
        modeFolder_bootfile_res w (modeFolder_guessFile w a).kfile m (old 1)
      have hbb : b2 = b := by
        rw [hb2] at hb
        exact Except.ok.inj hb
      subst hbb
      rw [h1]
      exact habs (hk hguess)
    · rintro ⟨hfolder, hbootefi⟩
      obtain ⟨g1, g2⟩ := fileArg_guessed w a hfile hfolder hbootefi
      have h1 : words 1 = b.1 := by
        rw [hw, word0_at_ne _ _ _ _ _ _ (by decide)]
        simp [Function.update]
      have hv := (modeFolder_bootfile_val w _ m (old 1) b hb).1 g1
      rw [h1, hv]
      unfold fileArg at g2
      rw [g2]
  · intro m words h oldWords hold
    subst hold
    obtain ⟨f, _, _, _, _, _, hb, _, hw⟩ := modeFolder_setBlessData w a m words h
    have h1 : words 0 = f.1 := by
      rw [hw]
      simp [Function.update]
    constructor
    · intro hguess
      obtain ⟨b2, hb2, _, _, habs⟩ := modeFolder_fileInum_res w (modeFolder_guessFile w a).kfile m
        ((w.BLGetAPFSBlessData m).2.getD (fun _ => 0) 0)
      have hbb : b2 = f := by
        rw [hb2] at hb
        exact Except.ok.inj hb
      subst hbb
      rw [h1]
      exact habs (hk hguess)
    · rintro ⟨hfolder, hbootefi⟩
      obtain ⟨g1, g2⟩ := fileArg_guessed w a hfile hfolder hbootefi
      have hv := (modeFolder_fileInum_val w _ m _ f hb).1 g1
      rw [h1, hv]
      unfold fileArg at g2
      rw [g2]

/-- C5, witness: `modeFolder --folder F` on an HFS volume and on an APFS preboot volume whose
record stores the boot file 77, which resolves to a regular file: 77 is written back. With
`--folder F --bootefi` on the HFS volume the slot is the ID 99 of `F/boot.efi`. -/
theorem C5_file_slot_without_explicit_file_witness :
    folderArgs.kfile.present = false
    ∧ Call.BLSetVolumeFinderInfo "/Volumes/X" keptWords ∈ (modeFolder keepWorld folderArgs).trace
    ∧ keptWords 1 = 77
    ∧ Call.BLSetAPFSBlessData "/Volumes/X" keptData
        ∈ (modeFolder keepPrebootWorld folderArgs).trace
    ∧ keptData 0 = 77
    ∧ bootefiArgs.kfile.present = false
    ∧ Call.BLSetVolumeFinderInfo "/Volumes/X" guessedWords
        ∈ (modeFolder guessWorld bootefiArgs).trace
    ∧ guessedWords 1 = 99 := by
  have h1 : Call.BLSetVolumeFinderInfo "/Volumes/X" keptWords
      ∈ (modeFolder keepWorld folderArgs).trace := by
    rw [keepWorld_folderArgs_trace]; simp
  have h2 : Call.BLSetAPFSBlessData "/Volumes/X" keptData
      ∈ (modeFolder keepPrebootWorld folderArgs).trace := by
    rw [keepPrebootWorld_folderArgs_trace]; simp
  have h3 : Call.BLSetVolumeFinderInfo "/Volumes/X" guessedWords
      ∈ (modeFolder guessWorld bootefiArgs).trace := by
    rw [guessWorld_trace]; simp
  refine ⟨rfl, h1, ?_, h2, ?_, rfl, h3, ?_⟩
  · obtain ⟨old, hold, hkeep, _⟩ :=
      (C5_file_slot_without_explicit_file keepWorld folderArgs rfl).1 _ _ h1
    simp [keepWorld, ownerWorld, quietWorld] at hold
    subst hold
    exact (hkeep (Or.inr rfl)).1 ⟨by decide, "/Volumes/X/System/boot.efi", rfl, rfl⟩
  · exact (((C5_file_slot_without_explicit_file keepPrebootWorld folderArgs rfl).2
      _ _ h2 _ rfl).1 (Or.inr rfl)).1 ⟨by decide, "/Volumes/X/System/boot.efi", rfl, rfl⟩
  · obtain ⟨old, _, _, hguess⟩ :=
      (C5_file_slot_without_explicit_file guessWorld bootefiArgs rfl).1 _ _ h3
    rw [hguess ⟨rfl, rfl⟩]
    rfl

/-- C6: in every run of `modeFolder` that reaches a metadata update (the HFS Finder info or the
APFS bless data was read) with an effective uid that is neither 0 nor the owner of the volume
(`f_owner` of `statfs`), `modeFolder` returns 1, no metadata record is written
(`BLSetVolumeFinderInfo`, `BLSetAPFSBlessData`, also `BlessPrebootVolume`) and no
firmware-pointer update is issued. Conversely, when the effective uid is 0 or the owner, the
record read is written. -/
theorem C6_unauthorized_caller_writes_nothing (w : World) (a : Args) :
    (∀ m oldwords, Call.BLGetVolumeFinderInfo m ∈ (modeFolder w a).trace →
      w.BLGetVolumeFinderInfo m = some oldwords →
      (w.geteuid ≠ 0 ∧ w.geteuid ≠ (w.blsustatfs 157 m).2.f_owner →
        (modeFolder w a).status = 1
        ∧ ∀ c ∈ (modeFolder w a).trace, c.isMetadataWrite = false ∧ c.isPointerUpdate = false)
      ∧ (w.geteuid = 0 ∨ w.geteuid = (w.blsustatfs 157 m).2.f_owner →
        ∃ words, Call.BLSetVolumeFinderInfo m words ∈ (modeFolder w a).trace))
    ∧ (∀ m, Call.BLGetAPFSBlessData m ∈ (modeFolder w a).trace →
      ((w.BLGetAPFSBlessData m).1 = 0 ∨ (w.BLGetAPFSBlessData m).1 = ENOENT) →
      (w.geteuid ≠ 0 ∧ w.geteuid ≠ (w.blsustatfs 157 m).2.f_owner →
        (modeFolder w a).status = 1
        ∧ ∀ c ∈ (modeFolder w a).trace, c.isMetadataWrite = false ∧ c.isPointerUpdate = false)
      ∧ (w.geteuid = 0 ∨ w.geteuid = (w.blsustatfs 157 m).2.f_owner →
        ∃ words, Call.BLSetAPFSBlessData m words ∈ (modeFolder w a).trace)) := by
  constructor
  · intro m oldwords h hold
    exact ⟨modeFolder_unauthorized_hfs w a m oldwords h hold,
      modeFolder_finderInfo_written w a m oldwords h hold⟩
  · intro m h hread
    exact ⟨modeFolder_unauthorized_apfs w a m h hread,
      modeFolder_blessData_written w a m h hread⟩

/-- C6, witness: uid 502 runs `modeFolder --folder F --setBoot` on an HFS volume, and
`modeFolder --folder F` on an APFS preboot volume, both owned by uid 501. -/
theorem C6_unauthorized_caller_writes_nothing_witness :
    (Call.BLGetVolumeFinderInfo "/Volumes/X" ∈ (modeFolder strangerWorld folderSetBootArgs).trace
      ∧ (strangerWorld.geteuid ≠ 0
        ∧ strangerWorld.geteuid ≠ (strangerWorld.blsustatfs 157 "/Volumes/X").2.f_owner)
      ∧ (modeFolder strangerWorld folderSetBootArgs).status = 1)
    ∧ (Call.BLGetAPFSBlessData "/Volumes/X" ∈ (modeFolder strangerPrebootWorld folderArgs).trace
      ∧ (strangerPrebootWorld.geteuid ≠ 0 ∧ strangerPrebootWorld.geteuid
          ≠ (strangerPrebootWorld.blsustatfs 157 "/Volumes/X").2.f_owner)
      ∧ (modeFolder strangerPrebootWorld folderArgs).status = 1) := by
  have h1 : Call.BLGetVolumeFinderInfo "/Volumes/X"
      ∈ (modeFolder strangerWorld folderSetBootArgs).trace := by
    rw [strangerWorld_trace]; simp
  have h2 : Call.BLGetAPFSBlessData "/Volumes/X"
      ∈ (modeFolder strangerPrebootWorld folderArgs).trace := by
    rw [strangerPrebootWorld_trace]; simp
  have u1 : strangerWorld.geteuid ≠ 0
      ∧ strangerWorld.geteuid ≠ (strangerWorld.blsustatfs 157 "/Volumes/X").2.f_owner := by
    decide
  have u2 : strangerPrebootWorld.geteuid ≠ 0 ∧ strangerPrebootWorld.geteuid
      ≠ (strangerPrebootWorld.blsustatfs 157 "/Volumes/X").2.f_owner := by
    decide
  exact ⟨⟨h1, u1, (((C6_unauthorized_caller_writes_nothing strangerWorld folderSetBootArgs).1
      "/Volumes/X" (fun _ => 0) h1 rfl).1 u1).1⟩,
    ⟨h2, u2, (((C6_unauthorized_caller_writes_nothing strangerPrebootWorld folderArgs).2
      "/Volumes/X" h2 (Or.inl rfl)).1 u2).1⟩⟩

/-- C7, counterexample: the source is loaded and the destination is known, the destination
does not exist, and `BLCreateFileWithOptions` fails: `modeFolder` returns 2 after the write
call and `CopyManifests` is not invoked. -/
theorem C7_failed_write_skips_manifests :
    Call.lstat 212 "/Volumes/X/System/boot.efi" ∈ (modeFolder failCreateWorld bootefiArgs).trace
    ∧ Call.BLCreateFileWithOptions [1, 2, 3] "/Volumes/X/System/boot.efi"
        Preallocate.kMustPreallocate ∈ (modeFolder failCreateWorld bootefiArgs).trace
    ∧ (∀ d s, Call.CopyManifests d s ∉ (modeFolder failCreateWorld bootefiArgs).trace)
    ∧ (modeFolder failCreateWorld bootefiArgs).status = 2 := by
  rw [failCreateWorld_trace]
  refine ⟨by simp, by simp, by simp, rfl⟩

/-- C7, amended: in a run of `modeFolder` that reaches the materializer (the source is loaded, a
destination file is known and `lstat` is called on it at line 212): if the destination is a
regular file that loads with bytes equal to the source bytes, no `BLCreateFileWithOptions` call
is issued; in every other case exactly one is issued. When the write is skipped or succeeds,
`CopyManifests` is invoked and its failure makes `modeFolder` return 3; when the write fails,
`modeFolder` returns 2 and `CopyManifests` is not invoked. This holds for every run, so a
second run, which finds the destination as a regular file holding the source bytes, issues no
write. -/
theorem C7_materializer_writes_once_or_skips (w : World) (a : Args) (dst : String)
    (h : Call.lstat 212 dst ∈ (modeFolder w a).trace) :
    ∃ src data pre, w.BLLoadFile 200 src = some data
      ∧ ((w.lstat 212 dst = some true ∧ w.BLLoadFile 215 dst = some data) →
          (modeFolder w a).creates = 0
          ∧ Call.CopyManifests dst src ∈ (modeFolder w a).trace
          ∧ (w.CopyManifests dst src src ≠ 0 → (modeFolder w a).status = 3))
      ∧ (¬ (w.lstat 212 dst = some true ∧ w.BLLoadFile 215 dst = some data) →
          (modeFolder w a).creates = 1
          ∧ Call.BLCreateFileWithOptions data dst pre ∈ (modeFolder w a).trace
          ∧ (w.BLCreateFileWithOptions data dst pre = 0 →
              Call.CopyManifests dst src ∈ (modeFolder w a).trace
              ∧ (w.CopyManifests dst src src ≠ 0 → (modeFolder w a).status = 3))
          ∧ (w.BLCreateFileWithOptions data dst pre ≠ 0 →
              (modeFolder w a).status = 2
              ∧ ∀ d s, Call.CopyManifests d s ∉ (modeFolder w a).trace)) := by
  obtain ⟨a3, isAPFS, data, hdst, hsrc, hf, hres⟩ := modeFolder_reaches_materialize w a dst h
  subst hdst
  obtain ⟨s1, s2⟩ := modeFolder_materialize_spec w a3 isAPFS data
  have hcreates : (modeFolder w a).creates = (modeFolder_materialize w a3 isAPFS data).creates := by
    unfold Step.creates
    rw [← List.countP_isCreateFile_filter, hf, List.countP_isCreateFile_filter]
  have hmem : ∀ c : Call, c.isMaterialize = true →
      (c ∈ (modeFolder w a).trace ↔ c ∈ (modeFolder_materialize w a3 isAPFS data).trace) := by
    intro c hc
    rw [← List.mem_filter_isMaterialize hc, hf, List.mem_filter_isMaterialize hc]
  refine ⟨a3.kbootefi.argument, data,
    (if isAPFS then Preallocate.kTryPreallocate else Preallocate.kMustPreallocate), hsrc, ?_, ?_⟩
  · intro hskip
    obtain ⟨c1, c2, c3⟩ := s1 hskip
    refine ⟨hcreates.trans c1, (hmem (Call.CopyManifests _ _) rfl).2 c2,
      fun hfail => hres 3 ?_⟩
    rw [c3, if_pos hfail]
  · intro hskip
    obtain ⟨c1, c2, c3, c4⟩ := s2 hskip
    refine ⟨hcreates.trans c1, (hmem (Call.BLCreateFileWithOptions _ _ _) rfl).2 c2,
      fun hok => ?_, fun hfail => ?_⟩
    · obtain ⟨d1, d2⟩ := c3 hok
      refine ⟨(hmem (Call.CopyManifests _ _) rfl).2 d1, fun hcopy => hres 3 ?_⟩
      rw [d2, if_pos hcopy]
    · obtain ⟨d1, d2⟩ := c4 hfail
      exact ⟨hres 2 d2, fun d s hc => d1 d s ((hmem (Call.CopyManifests d s) rfl).1 hc)⟩

/-- C7, witness: `modeFolder --folder F --bootefi /src/boot.efi` where `F/boot.efi` already
holds the source bytes: no write, the manifests are copied. -/
theorem C7_materializer_writes_once_or_skips_witness :
    Call.lstat 212 "/Volumes/X/System/boot.efi" ∈ (modeFolder quietWorld bootefiArgs).trace
    ∧ (modeFolder quietWorld bootefiArgs).creates = 0
    ∧ Call.CopyManifests "/Volumes/X/System/boot.efi" "/src/boot.efi"
        ∈ (modeFolder quietWorld bootefiArgs).trace := by
  have h : Call.lstat 212 "/Volumes/X/System/boot.efi"
      ∈ (modeFolder quietWorld bootefiArgs).trace := by
    rw [quietWorld_bootefi_trace]; simp
  obtain ⟨src, data, pre, hsrc, hskip, _⟩ :=
    C7_materializer_writes_once_or_skips quietWorld bootefiArgs _ h
  have hd : data = [1, 2, 3] := by
    simp [quietWorld] at hsrc
    exact hsrc.symm
  subst hd
  refine ⟨h, (hskip ⟨rfl, rfl⟩).1, ?_⟩
  rw [quietWorld_bootefi_trace]; simp

/-- C8, counterexample: `--folder /Volumes/X/System --file /Volumes/X/System/boot.efi --setBoot`
on an APFS preboot volume under EFI: the folder is given and the bless data is written, yet
`setefifilepath` is called with the file's path and not with the mount point `/Volumes/X`. -/
theorem C8_blessed_preboot_points_at_file :
    prebootWorld.getPrebootType = BLPreBootEnvType.kBLPreBootEnvType_EFI
    ∧ fileSetBootArgs.ksetboot.present = true
    ∧ fileSetBootArgs.klegacy.present = false
    ∧ fileSetBootArgs.kfolder.present = true
    ∧ mountPoint prebootWorld fileSetBootArgs = "/Volumes/X"
    ∧ Call.BLSetAPFSBlessData "/Volumes/X" blessedFileData
        ∈ (modeFolder prebootWorld fileSetBootArgs).trace
    ∧ Call.setefifilepath "/Volumes/X/System/boot.efi" false none false
        ∈ (modeFolder prebootWorld fileSetBootArgs).trace
    ∧ (∀ n o s, Call.setefifilepath "/Volumes/X" n o s
        ∉ (modeFolder prebootWorld fileSetBootArgs).trace)
    ∧ (modeFolder prebootWorld fileSetBootArgs).status = 0 := by
  rw [prebootWorld_fileSetBootArgs_trace]
  refine ⟨rfl, rfl, rfl, rfl, rfl, by simp, by simp, by simp, rfl⟩

/-- C8, amended: under the EFI firmware style every firmware-pointer call of `modeFolder` is the
following one, and a run that returns 0 with `--setBoot` issues it. In legacy mode it is
`setefilegacypath` on the mount point, with the drive hint and the options. Otherwise it is
`setefifilepath`, with the path of `actargs[kfile]` when that file is present and either no
folder is given and the volume is not APFS, or a folder is given and the volume is APFS, not
HFS, with the preboot or recovery role; and with the mount point in every other case. -/
theorem C8_pointer_update_target (w : World) (a : Args)
    (hefi : w.getPrebootType = BLPreBootEnvType.kBLPreBootEnvType_EFI) :
    let mnt := mountPoint w a
    let options := if a.koptions.present then some a.koptions.argument else none
    let hint := if a.klegacydrivehint.present then some a.klegacydrivehint.argument else none
    let isHFS := (w.BLIsMountHFS mnt).2
    let isAPFS := (w.BLIsMountAPFS mnt).2
    let role := (w.APFSVolumeRole (strskip (w.blsustatfs 157 mnt).2.f_mntfromname 5)).2
    let useFullPath := (fileArg w a).present
      && ((!a.kfolder.present && !isAPFS)
        || (a.kfolder.present && !isHFS && isAPFS
            && decide (role = VolRole.APFS_VOL_ROLE_PREBOOT
              ∨ role = VolRole.APFS_VOL_ROLE_RECOVERY)))
    let expected :=
      if a.klegacy.present then Call.setefilegacypath mnt a.knextonly.present hint options
      else Call.setefifilepath (if useFullPath then (fileArg w a).argument else mnt)
        a.knextonly.present options a.kshortform.present
    (∀ c ∈ (modeFolder w a).trace, c.isPointerUpdate = true → c = expected)
    ∧ ((modeFolder w a).res = Except.ok () → a.ksetboot.present = true →
        expected ∈ (modeFolder w a).trace) := by
  intro mnt options hint isHFS isAPFS role useFullPath expected
  have key : ∀ p b, (modeFolder_prepare w a).res = Except.ok p →
      (modeFolder_bless w p.actargs p.shouldBless p.c p.labeldata p.labeldata2).res
          = Except.ok b →
      ∀ c, c ∈ (modeFolder_setboot w b.2 p.shouldBless p.c.isAPFS b.1 p.labeldata).trace ↔
        a.ksetboot.present = true ∧ c = expected := by
    intro p b hp hb c
    have po := modeFolder_prepare_ok w a p hp
    have hm := modeFolder_prepare_mount w a p hp
    have hpath := modeFolder_pointer_path w a p b hp hb
    obtain ⟨_, k, hb2, _, _⟩ := modeFolder_bless_ok _ _ _ _ _ _ _ hb
    rw [modeFolder_setboot_efi _ _ _ _ _ _ hefi, hpath]
    rw [hb2]
    simp only []
    rw [hm, po.ksetboot, po.klegacy, po.knextonly, po.klegacydrivehint, po.koptions,
      po.kshortform]
    cases hl : a.klegacy.present <;> simp [expected, hl, mnt, options, hint, useFullPath,
      isHFS, isAPFS, role]
  constructor
  · intro c hc hpu
    obtain ⟨p, b, hp, hb, h⟩ :=
      modeFolder_mem_setboot w a c (Call.stage_of_isPointerUpdate c hpu) hc
    exact ((key p b hp hb c).1 h).2
  · intro hres hsb
    obtain ⟨p, b, hp, hb, h⟩ := modeFolder_ok w a hres
    exact h _ ((key p b hp hb expected).2 ⟨hsb, rfl⟩)

/-- C8, witness: `--folder /Volumes/X/System --setBoot` on an HFS+ volume under EFI points the
firmware at the mount point. -/
theorem C8_pointer_update_target_witness :
    quietWorld.getPrebootType = BLPreBootEnvType.kBLPreBootEnvType_EFI
    ∧ (modeFolder quietWorld folderSetBootArgs).res = Except.ok ()
    ∧ Call.setefifilepath "/Volumes/X" false none false
        ∈ (modeFolder quietWorld folderSetBootArgs).trace :=
  ⟨rfl, rfl, (C8_pointer_update_target quietWorld folderSetBootArgs rfl).2 rfl rfl⟩

/-- C9: the metadata update is idempotent. If a run of `modeFolder` writes the Finder info
`words` to the volume mounted at `m`, then the run with the same arguments and the same
collaborator answers, except that the Finder info read from `m` is now `words`, issues exactly
the write of `words` to `m` again; and likewise for the APFS bless data. -/
theorem C9_metadata_update_idempotent (w : World) (a : Args) :
    (∀ m words, Call.BLSetVolumeFinderInfo m words ∈ (modeFolder w a).trace →
      ∀ m2 words2,
        Call.BLSetVolumeFinderInfo m2 words2 ∈ (modeFolder (w.withFinderInfo m words) a).trace
          ↔ (m2 = m ∧ words2 = words))
    ∧ (∀ m words, Call.BLSetAPFSBlessData m words ∈ (modeFolder w a).trace →
      ∀ m2 words2,
        Call.BLSetAPFSBlessData m2 words2 ∈ (modeFolder (w.withBlessData m words) a).trace
          ↔ (m2 = m ∧ words2 = words)) :=
  ⟨fun m words h m2 words2 => modeFolder_finderInfo_again w a m words h m2 words2,
   fun m words h m2 words2 => modeFolder_blessData_again w a m words h m2 words2⟩

/-- C9, witness: the volume owner blesses a folder of an HFS+ volume with blank Finder info, and
a folder and file of an APFS preboot volume; the second run writes the same record. -/
theorem C9_metadata_update_idempotent_witness :
    (Call.BLSetVolumeFinderInfo "/Volumes/X" blessedWords
        ∈ (modeFolder ownerWorld folderArgs).trace
      ∧ Call.BLSetVolumeFinderInfo "/Volumes/X" blessedWords
        ∈ (modeFolder (ownerWorld.withFinderInfo "/Volumes/X" blessedWords) folderArgs).trace)
    ∧ (Call.BLSetAPFSBlessData "/Volumes/X" blessedFileData
        ∈ (modeFolder prebootWorld fileArgs).trace
      ∧ Call.BLSetAPFSBlessData "/Volumes/X" blessedFileData
        ∈ (modeFolder (prebootWorld.withBlessData "/Volumes/X" blessedFileData)
            fileArgs).trace) := by
  have h1 : Call.BLSetVolumeFinderInfo "/Volumes/X" blessedWords
      ∈ (modeFolder ownerWorld folderArgs).trace := by
    rw [ownerWorld_folderArgs_trace]; simp
  have h2 : Call.BLSetAPFSBlessData "/Volumes/X" blessedFileData
      ∈ (modeFolder prebootWorld fileArgs).trace := by
    rw [prebootWorld_fileArgs_trace]; simp
  exact ⟨⟨h1, ((C9_metadata_update_idempotent ownerWorld folderArgs).1 _ _ h1 _ _).2 ⟨rfl, rfl⟩⟩,
    ⟨h2, ((C9_metadata_update_idempotent prebootWorld fileArgs).2 _ _ h2 _ _).2 ⟨rfl, rfl⟩⟩⟩

/-- C10: if a classification probe of `modeFolder` is called and fails, the run returns 1 (for
`BLIsMountHFS`, `BLIsMountAPFS`, `BLIsMountAPFSDataRolePreSSVToSSV` and the statfs of line 157)
or 2 (for `APFSVolumeRole` and `BLIsVolumeARV`), and its trace holds no downstream effect: no
boot-loader file write or manifest copy, no driver embedding, no label write, no metadata
write, no personalization and no firmware-pointer update. -/
theorem C10_classification_failure_aborts (w : World) (a : Args) :
    (∀ m, (Call.BLIsMountHFS m ∈ (modeFolder w a).trace ∧ (w.BLIsMountHFS m).1 ≠ 0)
        ∨ (Call.BLIsMountAPFS m ∈ (modeFolder w a).trace ∧ (w.BLIsMountAPFS m).1 ≠ 0)
        ∨ (Call.BLIsMountAPFSDataRolePreSSVToSSV m ∈ (modeFolder w a).trace
            ∧ (w.BLIsMountAPFSDataRolePreSSVToSSV m).1 ≠ 0)
        ∨ (Call.blsustatfs 157 m ∈ (modeFolder w a).trace ∧ (w.blsustatfs 157 m).1 ≠ 0) →
      (modeFolder w a).status = 1 ∧ ∀ c ∈ (modeFolder w a).trace, c.isEffect = false)
    ∧ (∀ m d, (Call.APFSVolumeRole d ∈ (modeFolder w a).trace ∧ (w.APFSVolumeRole d).1 ≠ 0)
        ∨ (Call.BLIsVolumeARV m d ∈ (modeFolder w a).trace ∧ (w.BLIsVolumeARV m d).1 ≠ 0) →
      (modeFolder w a).status = 2 ∧ ∀ c ∈ (modeFolder w a).trace, c.isEffect = false) := by
  have key : ∀ (c : Call) (n : Int), c.stage = Stage.classify → c ∈ (modeFolder w a).trace →
      (∀ a2, c ∈ (modeFolder_classify w a2).trace →
        (modeFolder_classify w a2).res = Except.error n) →
      (modeFolder w a).status = n ∧ ∀ c ∈ (modeFolder w a).trace, c.isEffect = false := by
    intro c n hs hc hfail
    obtain ⟨e, he, h0, hmem⟩ := modeFolder_mem_classify w a c hs hc
    exact modeFolder_of_classify_error w a e n he h0 (hfail _ hmem)
  constructor
  · rintro m (⟨h, hf⟩ | ⟨h, hf⟩ | ⟨h, hf⟩ | ⟨h, hf⟩)
    · exact key (Call.BLIsMountHFS m) 1 rfl h (fun a2 h2 => (modeFolder_classify_fail w a2).1 m h2 hf)
    · exact key (Call.BLIsMountAPFS m) 1 rfl h (fun a2 h2 => (modeFolder_classify_fail w a2).2.1 m h2 hf)
    · exact key (Call.BLIsMountAPFSDataRolePreSSVToSSV m) 1 rfl h
        (fun a2 h2 => (modeFolder_classify_fail w a2).2.2.1 m h2 hf)
    · exact key (Call.blsustatfs 157 m) 1 rfl h
        (fun a2 h2 => (modeFolder_classify_fail w a2).2.2.2.1 m h2 hf)
  · rintro m d (⟨h, hf⟩ | ⟨h, hf⟩)
    · exact key (Call.APFSVolumeRole d) 2 rfl h
        (fun a2 h2 => (modeFolder_classify_fail w a2).2.2.2.2.1 d h2 hf)
    · exact key (Call.BLIsVolumeARV m d) 2 rfl h
        (fun a2 h2 => (modeFolder_classify_fail w a2).2.2.2.2.2 m d h2 hf)

/-- C10, witness: every downstream block is requested; the statfs of line 157 fails in one
world, the role probe in the other. -/
theorem C10_classification_failure_aborts_witness :
    (Call.blsustatfs 157 "/Volumes/X" ∈ (modeFolder noStatfsWorld everythingArgs).trace
      ∧ (noStatfsWorld.blsustatfs 157 "/Volumes/X").1 ≠ 0
      ∧ (modeFolder noStatfsWorld everythingArgs).status = 1
      ∧ ∀ c ∈ (modeFolder noStatfsWorld everythingArgs).trace, c.isEffect = false)
    ∧ (Call.APFSVolumeRole "disk1s2" ∈ (modeFolder noRoleWorld everythingArgs).trace
      ∧ (noRoleWorld.APFSVolumeRole "disk1s2").1 ≠ 0
      ∧ (modeFolder noRoleWorld everythingArgs).status = 2
      ∧ ∀ c ∈ (modeFolder noRoleWorld everythingArgs).trace, c.isEffect = false) := by
  have h1 : Call.blsustatfs 157 "/Volumes/X"
      ∈ (modeFolder noStatfsWorld everythingArgs).trace := by
    rw [noStatfsWorld_trace]; simp
  have f1 : (noStatfsWorld.blsustatfs 157 "/Volumes/X").1 ≠ 0 := by decide
  have h2 : Call.APFSVolumeRole "disk1s2" ∈ (modeFolder noRoleWorld everythingArgs).trace := by
    rw [noRoleWorld_trace]; simp
  have f2 : (noRoleWorld.APFSVolumeRole "disk1s2").1 ≠ 0 := by decide
  exact ⟨⟨h1, f1, (C10_classification_failure_aborts noStatfsWorld everythingArgs).1
      "/Volumes/X" (Or.inr (Or.inr (Or.inr ⟨h1, f1⟩)))⟩,
    ⟨h2, f2, (C10_classification_failure_aborts noRoleWorld everythingArgs).2
      "/Volumes/X" "disk1s2" (Or.inl ⟨h2, f2⟩)⟩⟩

/-- C11: a bless-data write of `modeFolder` happens only with a folder given, on an APFS volume
whose role is preboot or recovery. Word 0 of the record written is the resolved boot-file
inode: with a file (`fileArg`), the inode number `BLGetAPFSInodeNum` returns for its path if
`lstat` reports a regular file, and 0 if either fails; without a file, the stored word 0 if it
is non-zero, its reverse lookup succeeds and `lstat` reports the looked-up path to be a regular
file, and 0 otherwise. Word 1 is the inode number of the folder (0 if its resolution fails).
The record does not depend on the firmware style, on `--setBoot` or on the filesystem
sub-type: a run in which these three are replaced by any other values writes, if it writes, the
same record to the same mount point. -/
theorem C11_bless_data_record (w : World) (a : Args) (m : String) (words : Fin 2 → Nat)
    (h : Call.BLSetAPFSBlessData m words ∈ (modeFolder w a).trace) :
    (a.kfolder.present = true ∧ (w.BLIsMountAPFS m).2 = true
      ∧ ((w.APFSVolumeRole (strskip (w.blsustatfs 157 m).2.f_mntfromname 5)).2
            = VolRole.APFS_VOL_ROLE_PREBOOT
          ∨ (w.APFSVolumeRole (strskip (w.blsustatfs 157 m).2.f_mntfromname 5)).2
            = VolRole.APFS_VOL_ROLE_RECOVERY)
      ∧ ((fileArg w a).present = true →
          words 0 = match w.BLGetAPFSInodeNum (fileArg w a).argument with
            | some inum => if w.lstat 484 (fileArg w a).argument = some true then inum else 0
            | none => 0)
      ∧ ((fileArg w a).present = false →
          words 0 = if (w.BLGetAPFSBlessData m).2.getD (fun _ => 0) 0 = 0 then 0 else
            match w.BLLookupFileIDOnMount64 m ((w.BLGetAPFSBlessData m).2.getD (fun _ => 0) 0)
                w.kMaxArgLength with
            | some path =>
              if w.lstat 505 path = some true
                then (w.BLGetAPFSBlessData m).2.getD (fun _ => 0) 0 else 0
            | none => 0)
      ∧ words 1 = (w.BLGetAPFSInodeNum a.kfolder.argument).getD 0)
    ∧ ∀ (preboot : BLPreBootEnvType) (subtype : Nat) (ksetboot : clarg) (m2 : String)
        (words2 : Fin 2 → Nat),
        Call.BLSetAPFSBlessData m2 words2
            ∈ (modeFolder (w.withFirmware preboot subtype) { a with ksetboot := ksetboot }).trace →
          m2 = m ∧ words2 = words := by
  have hm := modeFolder_setBlessData_mount w a m words h
  obtain ⟨f, hfolder, _, hAPFS, hrole, _, hf, _, hw⟩ := modeFolder_setBlessData w a m words h
  obtain ⟨v1, v2⟩ := modeFolder_fileInum_val w _ m _ f hf
  have h0 : words 0 = f.1 := by
    rw [hw]
    simp [Function.update]
  refine ⟨⟨hfolder, hAPFS, hrole, ?_, ?_, ?_⟩, ?_⟩
  · intro hk
    rw [h0]
    exact v1 hk
  · intro hk
    rw [h0]
    exact v2 hk
  · rw [hw]
    simp [Function.update, hfolder]
  · intro preboot subtype ksetboot m2 words2 h2
    have hm2 := modeFolder_setBlessData_mount _ _ m2 words2 h2
    have hmm : m2 = m := by
      rw [hm2, hm]
      rfl
    subst hmm
    obtain ⟨f2, _, _, _, _, _, hf2, _, hw2⟩ := modeFolder_setBlessData _ _ m2 words2 h2
    rw [modeFolder_guessFile_ksetboot] at hf2
    have hf3 : (modeFolder_fileInum w (modeFolder_guessFile w a).kfile m2
        ((w.BLGetAPFSBlessData m2).2.getD (fun _ => 0) 0)).res = Except.ok f2 := hf2
    have hff : f2 = f := by
      have := hf3.symm.trans hf
      injection this
    subst hff
    refine ⟨rfl, ?_⟩
    rw [hw2, hw]
    rfl

/-- C11, witness: `--folder /Volumes/X/System --file /Volumes/X/System/boot.efi` on an APFS
preboot volume storing `[7, 8]`, where the file has inode 99 and the folder inode 42: the
record written is `[99, 42]`, also under Open Firmware with `--setBoot` and sub-type 7. On an
APFS data volume the run succeeds and writes no bless data. -/
theorem C11_bless_data_record_witness :
    (Call.BLSetAPFSBlessData "/Volumes/X" inodeData ∈ (modeFolder inodeWorld fileArgs).trace
      ∧ inodeData 0 = 99 ∧ inodeData 1 = 42)
    ∧ (∀ m2 words2, Call.BLSetAPFSBlessData m2 words2
          ∈ (modeFolder
              (inodeWorld.withFirmware BLPreBootEnvType.kBLPreBootEnvType_OpenFirmware 7)
              fileSetBootArgs).trace ↔ (m2 = "/Volumes/X" ∧ words2 = inodeData))
    ∧ ((modeFolder dataRoleWorld fileArgs).status = 0
      ∧ ∀ m words, Call.BLSetAPFSBlessData m words ∉ (modeFolder dataRoleWorld fileArgs).trace) := by
  have h : Call.BLSetAPFSBlessData "/Volumes/X" inodeData
      ∈ (modeFolder inodeWorld fileArgs).trace := by
    rw [inodeWorld_fileArgs_trace]; simp
  obtain ⟨⟨_, _, _, hfile, _, hfolder⟩, hind⟩ :=
    C11_bless_data_record inodeWorld fileArgs "/Volumes/X" inodeData h
  refine ⟨⟨h, ?_, ?_⟩, ?_, rfl, ?_⟩
  · rw [hfile rfl]
    rfl
  · rw [hfolder]
    rfl
  · intro m2 words2
    constructor
    · exact hind BLPreBootEnvType.kBLPreBootEnvType_OpenFirmware 7 ⟨true, false, ""⟩ m2 words2
    · rintro ⟨rfl, rfl⟩
      rw [inodeWorld_openFirmware_trace]
      simp
  · rw [dataRoleWorld_trace]
    simp

/-- C12: for a label buffer of at least 5 bytes whose length `labelsize` is an `int`,
`isOFLabel` returns 1 if and only if byte 0 is 1 and `labelsize` equals `W*H + 5`, where `W` and
`H` are the big-endian 16-bit values at offsets 1-2 and 3-4; otherwise it returns 0. -/
theorem C12_isOFLabel_iff (data : Bytes) (labelsize : Int)
    (hbytes : ∀ b ∈ data, b < 256) (hlen : 5 ≤ data.length)
    (hsize : labelsize = (data.length : Int)) (hint : labelsize ≤ 2147483647) :
    (isOFLabel data labelsize = 1 ↔
      data.getD 0 0 = 1
      ∧ labelsize = ((256 * data.getD 1 0 + data.getD 2 0 : Nat) : Int)
          * ((256 * data.getD 3 0 + data.getD 4 0 : Nat) : Int) + 5)
    ∧ (isOFLabel data labelsize ≠ 1 → isOFLabel data labelsize = 0) := by
  have b1 := Bytes.getD_lt data hbytes 1
  have b2 := Bytes.getD_lt data hbytes 2
  have b3 := Bytes.getD_lt data hbytes 3
  have b4 := Bytes.getD_lt data hbytes 4
  exact isOFLabel_test (data.getD 0 0) (256 * data.getD 1 0 + data.getD 2 0)
    (256 * data.getD 3 0 + data.getD 4 0) labelsize (by omega) (by omega) (by omega) hint

/-- C12, witness: a 1x1 label of 6 bytes is accepted. -/
theorem C12_isOFLabel_iff_witness : isOFLabel [1, 0, 1, 0, 1, 7] 6 = 1 :=
  (C12_isOFLabel_iff [1, 0, 1, 0, 1, 7] 6 (by decide) (by decide) rfl (by decide)).1.2
    ⟨rfl, rfl⟩

/-- C13: a firmware-pointer call (`setefilegacypath`, `setefifilepath` or `setboot`) of a run
of `modeFolder` is the last call of the run; no call before it is a firmware-pointer call, so
every metadata write of the run precedes it and none follows; the run returns 3 when the call
fails and 0 when it succeeds. -/
theorem C13_pointer_update_is_last (w : World) (a : Args) (c : Call)
    (hc : c ∈ (modeFolder w a).trace) (hp : c.isPointerUpdate = true) :
    (∃ pre, (modeFolder w a).trace = pre ++ [c]
      ∧ (∀ c2 ∈ pre, c2.isPointerUpdate = false)
      ∧ (∀ c2 ∈ (modeFolder w a).trace, c2.isMetadataWrite = true → c2 ∈ pre))
    ∧ (w.pointerStatus c ≠ 0 → (modeFolder w a).status = 3)
    ∧ (w.pointerStatus c = 0 → (modeFolder w a).status = 0) := by
  obtain ⟨p, b, hmem, htrace, hres⟩ :=
    modeFolder_reach_setboot w a c (Call.stage_of_isPointerUpdate c hp) hc
  obtain ⟨⟨pre, hpre, hnone⟩, hlast⟩ := modeFolder_setboot_last _ _ _ _ _ _ c hmem hp
  have hstage : ∀ c2 : Call, c2.stage ≠ Stage.setboot → c2.isPointerUpdate = false := by
    intro c2 h2
    cases h3 : c2.isPointerUpdate
    · rfl
    · exact absurd (Call.stage_of_isPointerUpdate c2 h3) h2
  have hcm : c.isMetadataWrite = false := by
    cases h3 : c.isMetadataWrite
    · rfl
    · have h4 := Call.stage_of_isMetadataWrite c h3
      rw [Call.stage_of_isPointerUpdate c hp] at h4
      simp at h4
  refine ⟨⟨(modeFolder_prepare w a).trace
      ++ ((modeFolder_bless w p.actargs p.shouldBless p.c p.labeldata p.labeldata2).trace
      ++ ((modeFolder_personalize w b.2).trace ++ pre)), ?_, ?_, ?_⟩, ?_, ?_⟩
  · rw [htrace, hpre]
    simp
  · intro c2 h2
    simp only [List.mem_append] at h2
    rcases h2 with h2 | h2 | h2 | h2
    · exact hstage c2 ((Step.forall_iff _ _).1 (modeFolder_prepare_stage w a) c2 h2).2.2.2
    · have := (Step.forall_iff _ _).1 (modeFolder_bless_stage _ _ _ _ _ _) c2 h2
      apply hstage c2
      rcases this with h3 | h3 <;> rw [h3] <;> decide
    · have := (Step.forall_iff _ _).1 (modeFolder_personalize_stage _ _) c2 h2
      apply hstage c2
      rw [this]
      decide
    · exact (hnone c2 h2).1
  · intro c2 h2 hm
    rw [htrace, hpre] at h2
    simp only [List.mem_append, List.mem_singleton] at h2 ⊢
    rcases h2 with h2 | h2 | h2 | h2 | h2
    · exact Or.inl h2
    · exact Or.inr (Or.inl h2)
    · exact Or.inr (Or.inr (Or.inl h2))
    · exact Or.inr (Or.inr (Or.inr h2))
    · rw [h2, hcm] at hm
      cases hm
  · intro hfail
    apply Step.status_of_error
    rw [hres, hlast, if_pos hfail]
  · intro hok
    apply Step.status_eq_zero
    rw [hres, hlast, if_neg (by simp [hok])]

/-- C13, witness: the Finder info is written and `setefifilepath` then fails; the bless data is
written and `setboot` then fails. Both runs return 3 and end with the failed call. -/
theorem C13_pointer_update_is_last_witness :
    (Call.BLSetVolumeFinderInfo "/Volumes/X" blessedWords
        ∈ (modeFolder noPointerWorld folderSetBootArgs).trace
      ∧ noPointerWorld.BLSetVolumeFinderInfo "/Volumes/X" blessedWords = 0
      ∧ noPointerWorld.pointerStatus (Call.setefifilepath "/Volumes/X" false none false) ≠ 0
      ∧ (modeFolder noPointerWorld folderSetBootArgs).status = 3
      ∧ ∃ pre, (modeFolder noPointerWorld folderSetBootArgs).trace
          = pre ++ [Call.setefifilepath "/Volumes/X" false none false]
        ∧ Call.BLSetVolumeFinderInfo "/Volumes/X" blessedWords ∈ pre)
    ∧ (Call.BLSetAPFSBlessData "/Volumes/X" blessedFileData
        ∈ (modeFolder noSetbootWorld fileSetBootArgs).trace
      ∧ noSetbootWorld.pointerStatus (Call.setboot "/dev/disk1s2" none) ≠ 0
      ∧ (modeFolder noSetbootWorld fileSetBootArgs).status = 3
      ∧ ∃ pre, (modeFolder noSetbootWorld fileSetBootArgs).trace
          = pre ++ [Call.setboot "/dev/disk1s2" none]
        ∧ Call.BLSetAPFSBlessData "/Volumes/X" blessedFileData ∈ pre) := by
  have w1 : Call.BLSetVolumeFinderInfo "/Volumes/X" blessedWords
      ∈ (modeFolder noPointerWorld folderSetBootArgs).trace := by
    rw [noPointerWorld_trace]; simp
  have c1 : Call.setefifilepath "/Volumes/X" false none false
      ∈ (modeFolder noPointerWorld folderSetBootArgs).trace := by
    rw [noPointerWorld_trace]; simp
  have f1 : noPointerWorld.pointerStatus (Call.setefifilepath "/Volumes/X" false none false)
      ≠ 0 := by decide
  have w2 : Call.BLSetAPFSBlessData "/Volumes/X" blessedFileData
      ∈ (modeFolder noSetbootWorld fileSetBootArgs).trace := by
    rw [noSetbootWorld_trace]; simp
  have c2 : Call.setboot "/dev/disk1s2" none
      ∈ (modeFolder noSetbootWorld fileSetBootArgs).trace := by
    rw [noSetbootWorld_trace]; simp
  have f2 : noSetbootWorld.pointerStatus (Call.setboot "/dev/disk1s2" none) ≠ 0 := by decide
  obtain ⟨⟨pre1, e1, _, m1⟩, s1, _⟩ :=
    C13_pointer_update_is_last noPointerWorld folderSetBootArgs _ c1 rfl
  obtain ⟨⟨pre2, e2, _, m2⟩, s2, _⟩ :=
    C13_pointer_update_is_last noSetbootWorld fileSetBootArgs _ c2 rfl
  exact ⟨⟨w1, rfl, f1, s1 f1, pre1, e1, m1 _ w1 rfl⟩, ⟨w2, f2, s2 f2, pre2, e2, m2 _ w2 rfl⟩⟩

/-- C14, counterexample: `--folder /Volumes/X/System --bootefi` on a volume holding OS X 10.10
whose `bootdev.efi` is readable: `bootdev.efi` is neither probed nor loaded, the source is
`boot.efi`. -/
theorem C14_readable_bootdev_not_used :
    defaultBootefiArgs.kbootefi.present = true
    ∧ defaultBootefiArgs.kbootefi.hasArg = false
    ∧ oldOSWorld.access "/Volumes/X/usr/standalone/i386/bootdev.efi" = 0
    ∧ Call.BLLoadFile 200 "/Volumes/X/usr/standalone/i386/boot.efi"
        ∈ (modeFolder oldOSWorld defaultBootefiArgs).trace
    ∧ Call.access "/Volumes/X/usr/standalone/i386/bootdev.efi"
        ∉ (modeFolder oldOSWorld defaultBootefiArgs).trace
    ∧ (∀ l, Call.BLLoadFile l "/Volumes/X/usr/standalone/i386/bootdev.efi"
        ∉ (modeFolder oldOSWorld defaultBootefiArgs).trace)
    ∧ (modeFolder oldOSWorld defaultBootefiArgs).status = 0 := by
  rw [oldOSWorld_trace]
  refine ⟨rfl, rfl, rfl, by simp, by simp, by simp, rfl⟩

/-- C14, amended: with `--bootefi` given without a path, where `bootdev` and `boot` are the
paths of `bootdev.efi` and `boot.efi` under the mount point as `snprintf` leaves them in
`actargs[kbootefi].argument`: the source that `modeFolder` loads at line 200 is `bootdev` when
the OS version of the volume is 10.11 or later and `access` reports `bootdev` readable (and
`bootdev` is not empty), and `boot` in every other case. When the OS major version is below 10
no source is chosen and `modeFolder` returns 2. Every `access` call of the run is on `bootdev`
and made on 10.11 or later, where it is made once the OS version is read; so `boot` (when it
differs from `bootdev`) is never probed. -/
theorem C14_default_boot_loader_source (w : World) (a : Args)
    (hp : a.kbootefi.present = true) (hh : a.kbootefi.hasArg = false) :
    let mnt := mountPoint w a
    let v := w.BLGetOSVersion mnt
    let bootdev := snprintf (w.kMaxArgLength - 1) (mnt ++ w.kBL_PATH_I386_BOOTDEV_EFI)
    let boot := snprintf (w.kMaxArgLength - 1) (mnt ++ w.kBL_PATH_I386_BOOT_EFI)
    (∀ src, Call.BLLoadFile 200 src ∈ (modeFolder w a).trace →
      10 ≤ v.major
      ∧ src = if (v.major > 10 ∨ v.minor ≥ 11) ∧ w.access bootdev = 0 ∧ bootdev ≠ ""
          then bootdev else boot)
    ∧ (∀ m, Call.BLGetOSVersion m ∈ (modeFolder w a).trace → v.major < 10 →
        (modeFolder w a).status = 2)
    ∧ (∀ p, Call.access p ∈ (modeFolder w a).trace →
        p = bootdev ∧ 10 ≤ v.major ∧ (v.major > 10 ∨ v.minor ≥ 11))
    ∧ (∀ m, Call.BLGetOSVersion m ∈ (modeFolder w a).trace → 10 ≤ v.major →
        (v.major > 10 ∨ v.minor ≥ 11) → Call.access bootdev ∈ (modeFolder w a).trace)
    ∧ (boot ≠ bootdev → Call.access boot ∉ (modeFolder w a).trace) := by
  intro mnt v bootdev boot
  obtain ⟨p1, p2, p3⟩ := modeFolder_of_prepare w a
  have hacc : ∀ p, Call.access p ∈ (modeFolder w a).trace →
      p = bootdev ∧ 10 ≤ v.major ∧ (v.major > 10 ∨ v.minor ≥ 11) := by
    intro p h
    obtain ⟨e, cl, he, h0, hcl, hb⟩ :=
      modeFolder_prepare_reach_bootefi w a (Call.access p) rfl (p3 (Call.access p) rfl h)
    obtain ⟨hm, hk⟩ := modeFolder_bootefi_entry w a e he h0
    obtain ⟨_, _, hd⟩ := (modeFolder_bootefi_access w _ _ _ p).1 hb
    obtain ⟨d1, d2, d3⟩ := (modeFolder_defaultBootEFI_access w _ p).1 hd
    rw [hm] at d1 d2 d3
    exact ⟨d3, d1, d2⟩
  refine ⟨?_, ?_, hacc, ?_, ?_⟩
  · intro src h
    obtain ⟨e, cl, he, h0, hcl, hb⟩ :=
      modeFolder_prepare_reach_bootefi w a (Call.BLLoadFile 200 src) rfl
        (p3 (Call.BLLoadFile 200 src) rfl h)
    obtain ⟨hm, hk⟩ := modeFolder_bootefi_entry w a e he h0
    obtain ⟨_, _, h3⟩ := modeFolder_bootefi_source w _ _ _ src hb
    rw [hk] at h3
    obtain ⟨a3, ha3, hsrc⟩ := h3 hh
    rcases modeFolder_defaultBootEFI_res w (modeFolder_guessFile w e.2) with ⟨_, hr⟩ | ⟨hv, hr⟩
    · rw [hr] at ha3
      cases ha3
    · rw [hr] at ha3
      injection ha3 with ha3
      rw [hm] at hv ha3
      refine ⟨by simpa using hv, ?_⟩
      rw [hsrc, ← ha3]
  · intro m h hv
    obtain ⟨e, cl, he, h0, hcl, hb⟩ :=
      modeFolder_prepare_reach_bootefi w a (Call.BLGetOSVersion m) rfl
        (p3 (Call.BLGetOSVersion m) rfl h)
    obtain ⟨hm, hk⟩ := modeFolder_bootefi_entry w a e he h0
    obtain ⟨_, q2⟩ := modeFolder_prepare_of_bootefi w a e cl he h0 hcl
    apply p2 2
    apply q2 2
    rcases modeFolder_defaultBootEFI_res w (modeFolder_guessFile w e.2) with ⟨_, hr⟩ | ⟨hv2, _⟩
    · unfold modeFolder_bootefi
      rw [hk]
      simp only [hp, hh, if_true, Bool.not_false]
      rw [Step.res_bind, hr]
    · rw [hm] at hv2
      exact absurd hv hv2
  · intro m h hv1 hv2
    obtain ⟨e, cl, he, h0, hcl, hb⟩ :=
      modeFolder_prepare_reach_bootefi w a (Call.BLGetOSVersion m) rfl
        (p3 (Call.BLGetOSVersion m) rfl h)
    obtain ⟨hm, hk⟩ := modeFolder_bootefi_entry w a e he h0
    apply modeFolder_mem_of_bootefi w a e cl _ he h0 hcl
    rw [modeFolder_bootefi_access, hk]
    refine ⟨hp, hh, ?_⟩
    rw [modeFolder_defaultBootEFI_access, hm]
    exact ⟨hv1, hv2, rfl⟩
  · intro hne h
    exact hne (hacc _ h).1

/-- C14, witness: on a volume holding 10.15 with a readable `bootdev.efi`, that file is probed
and is the source; on a volume with OS major version 9 the run returns 2. -/
theorem C14_default_boot_loader_source_witness :
    (Call.BLLoadFile 200 "/Volumes/X/usr/standalone/i386/bootdev.efi"
        ∈ (modeFolder quietWorld defaultBootefiArgs).trace
      ∧ (∀ src, Call.BLLoadFile 200 src ∈ (modeFolder quietWorld defaultBootefiArgs).trace →
          src = "/Volumes/X/usr/standalone/i386/bootdev.efi")
      ∧ Call.access "/Volumes/X/usr/standalone/i386/bootdev.efi"
          ∈ (modeFolder quietWorld defaultBootefiArgs).trace
      ∧ Call.access "/Volumes/X/usr/standalone/i386/boot.efi"
          ∉ (modeFolder quietWorld defaultBootefiArgs).trace)
    ∧ (Call.BLGetOSVersion "/Volumes/X" ∈ (modeFolder unknownOSWorld defaultBootefiArgs).trace
      ∧ (modeFolder unknownOSWorld defaultBootefiArgs).status = 2) := by
  have h1 : Call.BLLoadFile 200 "/Volumes/X/usr/standalone/i386/bootdev.efi"
      ∈ (modeFolder quietWorld defaultBootefiArgs).trace := by
    rw [quietWorld_defaultBootefi_trace]; simp
  have h2 : Call.BLGetOSVersion "/Volumes/X"
      ∈ (modeFolder unknownOSWorld defaultBootefiArgs).trace := by
    rw [unknownOSWorld_trace]; simp
  have h3 : Call.BLGetOSVersion "/Volumes/X"
      ∈ (modeFolder quietWorld defaultBootefiArgs).trace := by
    rw [quietWorld_defaultBootefi_trace]; simp
  obtain ⟨c1, _, _, c4, c5⟩ := C14_default_boot_loader_source quietWorld defaultBootefiArgs rfl rfl
  refine ⟨⟨h1, fun src hsrc => ?_, c4 _ h3 (by decide) (by decide), c5 (by decide)⟩, h2, ?_⟩
  · rw [(c1 src hsrc).2]
    decide
  · exact (C14_default_boot_loader_source unknownOSWorld defaultBootefiArgs rfl rfl).2.1 _ h2
      (by decide)

/-- C15, counterexample: a label of 1100 bytes and 1000 bytes to leave free. The count is 2,
yet the command line is the first 1023 bytes of the formatted text, which end inside the
label: it is the same command line as for 0 bytes to leave free, and the byte `c` of `-c f=`
does not occur in it. -/
theorem C15_long_label_cuts_option :
    BLFormatHFS_newsize 1000 = 2
    ∧ (BLFormatHFS (fun _ => 0) (ascii "/dev/disk1s2") 1000 (List.replicate 1100 65) []).1
        = ascii "/sbin/newfs_hfs -w -v \"" ++ List.replicate 1000 65
    ∧ (BLFormatHFS (fun _ => 0) (ascii "/dev/disk1s2") 1000 (List.replicate 1100 65) []).1
        = (BLFormatHFS (fun _ => 0) (ascii "/dev/disk1s2") 0 (List.replicate 1100 65) []).1
    ∧ (ascii "c" = [99] ∧ 99 ∉
        (BLFormatHFS (fun _ => 0) (ascii "/dev/disk1s2") 1000 (List.replicate 1100 65) []).1) := by
  have hP : (ascii "/sbin/newfs_hfs -w -v \"").length = 23 := by decide
  have e1 : (BLFormatHFS (fun _ => 0) (ascii "/dev/disk1s2") 1000 (List.replicate 1100 65) []).1
      = ascii "/sbin/newfs_hfs -w -v \"" ++ List.replicate 1000 65 := by
    rw [BLFormatHFS_fst, BLFormatHFS_newsize_1000]
    unfold BLFormatHFS_commandline
    rw [if_pos (by decide)]
    simp only [List.append_assoc]
    have := List.take_append_replicate (ascii "/sbin/newfs_hfs -w -v \"")
      (ascii "\" -c f=" ++ (ascii (toString 2) ++ (ascii " " ++ ([] ++ (ascii " \""
        ++ (ascii "/dev/disk1s2" ++ ascii "\"")))))) 1100 1000 65 (by decide)
    rw [hP] at this
    exact this
  have e2 : (BLFormatHFS (fun _ => 0) (ascii "/dev/disk1s2") 0 (List.replicate 1100 65) []).1
      = ascii "/sbin/newfs_hfs -w -v \"" ++ List.replicate 1000 65 := by
    rw [BLFormatHFS_fst, BLFormatHFS_newsize_0]
    unfold BLFormatHFS_commandline
    rw [if_neg (by decide)]
    simp only [List.append_assoc]
    have := List.take_append_replicate (ascii "/sbin/newfs_hfs -w -v \"")
      (ascii "\" " ++ ([] ++ (ascii " \"" ++ (ascii "/dev/disk1s2" ++ ascii "\""))))
      1100 1000 65 (by decide)
    rw [hP] at this
    exact this
  refine ⟨BLFormatHFS_newsize_1000, e1, e1.trans e2.symm, rfl, ?_⟩
  rw [e1, List.mem_append, List.mem_replicate]
  have : 99 ∉ ascii "/sbin/newfs_hfs -w -v \"" := by decide
  simp [this]

/-- C15, amended: for `0 <= bytesLeftFree <= 512*(2^32 - 1)` the reserved sector count of
`BLFormatHFS` is `(bytesLeftFree + 511) / 512`, the ceiling of `bytesLeftFree / 512`, and it is
greater than 0 exactly when `bytesLeftFree` is. The command line handed to `system` is the
first 1023 bytes of the formatted text, and the text is formatted with `-c f=<count>` after the
label exactly when the count is greater than 0; so for a count greater than 0 the option is on
the command line whenever the text up to the count fits into 1023 bytes. The function returns
7 when `system` reports a non-zero status for the command line and 0 otherwise. -/
theorem C15_reserved_sector_count (system : Bytes → Int) (devicepath fslabel fsargs : Bytes)
    (b : Int) (h0 : 0 ≤ b) (h1 : b ≤ 512 * (2 ^ 32 - 1)) :
    (BLFormatHFS_newsize b : Int) = (b + 511) / 512
    ∧ (BLFormatHFS_newsize b : Int) = ⌈(b : ℚ) / 512⌉
    ∧ (0 < BLFormatHFS_newsize b ↔ 0 < b)
    ∧ (BLFormatHFS system devicepath b fslabel fsargs).1
        = (ascii "/sbin/newfs_hfs -w -v \"" ++ fslabel ++ ascii "\" "
            ++ (if 0 < b then ascii "-c f=" ++ ascii (toString (BLFormatHFS_newsize b))
                  ++ ascii " " else [])
            ++ fsargs ++ ascii " \"" ++ devicepath ++ ascii "\"").take 1023
    ∧ (0 < b → 23 + fslabel.length + 7 + (toString (BLFormatHFS_newsize b)).length ≤ 1023 →
        (ascii "/sbin/newfs_hfs -w -v \"" ++ fslabel ++ ascii "\" -c f="
            ++ ascii (toString (BLFormatHFS_newsize b)))
          <+: (BLFormatHFS system devicepath b fslabel fsargs).1)
    ∧ (system (BLFormatHFS system devicepath b fslabel fsargs).1 ≠ 0 →
        (BLFormatHFS system devicepath b fslabel fsargs).2 = 7)
    ∧ (system (BLFormatHFS system devicepath b fslabel fsargs).1 = 0 →
        (BLFormatHFS system devicepath b fslabel fsargs).2 = 0) := by
  have hn := BLFormatHFS_newsize_eq b h0 h1
  have hpos : 0 < BLFormatHFS_newsize b ↔ 0 < b := by
    have : (0 : Int) < (BLFormatHFS_newsize b : Int) ↔ 0 < b := by
      rw [hn]
      omega
    exact_mod_cast this
  have e : ascii "\" -c f=" = ascii "\" " ++ ascii "-c f=" := by decide
  refine ⟨hn, ?_, hpos, ?_, ?_, ?_, ?_⟩
  · symm
    rw [Int.ceil_eq_iff, hn]
    have hq : (b : ℚ) = 512 * (((b + 511) / 512 : Int) : ℚ)
        - (((512 * ((b + 511) / 512) - b : Int)) : ℚ) := by
      push_cast
      ring
    have l1 : (0 : Int) ≤ 512 * ((b + 511) / 512) - b := by omega
    have l2 : 512 * ((b + 511) / 512) - b < 512 := by omega
    have l1q : (0 : ℚ) ≤ ((512 * ((b + 511) / 512) - b : Int) : ℚ) := by exact_mod_cast l1
    have l2q : ((512 * ((b + 511) / 512) - b : Int) : ℚ) < 512 := by exact_mod_cast l2
    constructor
    · rw [lt_div_iff₀ (by norm_num)]
      linarith
    · rw [div_le_iff₀ (by norm_num)]
      linarith
  · rw [BLFormatHFS_fst]
    unfold BLFormatHFS_commandline
    by_cases hb : 0 < b
    · rw [if_pos (hpos.2 hb), if_pos hb, e]
      simp only [List.append_assoc]
    · rw [if_neg (fun h => hb (hpos.1 h)), if_neg hb]
      simp only [List.append_assoc, List.nil_append]
  · intro hb hfit
    rw [BLFormatHFS_fst]
    unfold BLFormatHFS_commandline
    rw [if_pos (hpos.2 hb)]
    have hre : ascii "/sbin/newfs_hfs -w -v \"" ++ fslabel ++ ascii "\" -c f="
          ++ ascii (toString (BLFormatHFS_newsize b)) ++ ascii " " ++ fsargs ++ ascii " \""
          ++ devicepath ++ ascii "\""
        = (ascii "/sbin/newfs_hfs -w -v \"" ++ fslabel ++ ascii "\" -c f="
          ++ ascii (toString (BLFormatHFS_newsize b)))
          ++ (ascii " " ++ fsargs ++ ascii " \"" ++ devicepath ++ ascii "\"") := by
      simp only [List.append_assoc]
    rw [hre]
    apply List.prefix_take_append
    simp only [List.length_append, ascii, List.length_map]
    have a1 : ("/sbin/newfs_hfs -w -v \"" : String).data.length = 23 := by decide
    have a2 : ("\" -c f=" : String).data.length = 7 := by decide
    have a3 : (toString (BLFormatHFS_newsize b)).data.length
        = (toString (BLFormatHFS_newsize b)).length := rfl
    rw [a1, a2, a3]
    omega
  · intro hs
    rw [BLFormatHFS_snd, if_pos hs]
  · intro hs
    rw [BLFormatHFS_snd, if_neg (by simp [hs])]

/-- C15, witness: 1000 bytes are two sectors; with the label `Boot` the option `-c f=2` is on
the command line; a failing `newfs_hfs` gives 7. -/
theorem C15_reserved_sector_count_witness :
    BLFormatHFS_newsize 1000 = 2
    ∧ (BLFormatHFS (fun _ => 1) (ascii "/dev/disk1s2") 1000 (ascii "Boot") (ascii "-J")).1
        = ascii "/sbin/newfs_hfs -w -v \"Boot\" -c f=2 -J \"/dev/disk1s2\""
    ∧ (BLFormatHFS (fun _ => 1) (ascii "/dev/disk1s2") 1000 (ascii "Boot") (ascii "-J")).2
        = 7 := by
  obtain ⟨hn, _, _, hcmd, _, hfail, _⟩ :=
    C15_reserved_sector_count (fun _ => 1) (ascii "/dev/disk1s2") (ascii "Boot") (ascii "-J")
      1000 (by decide) (by decide)
  have h2 : BLFormatHFS_newsize 1000 = 2 := by
    have : (BLFormatHFS_newsize 1000 : Int) = 2 := by
      rw [hn]
      decide
    exact_mod_cast this
  refine ⟨h2, ?_, hfail (by decide)⟩
  rw [hcmd, h2]
  decide

/-- C16: every `WriteLabelFile` call of `modeFolder` is issued with a folder given and on a
volume that is not both APFS and mounted read-only. The call for the 1x label passes the
Open Firmware flag exactly when `isOFLabel` returns 1 on the data passed (with its length as
`int`) and the volume is HFS; the call for the 2x label never passes it. -/
theorem C16_label_files_written (w : World) (a : Args) (path : String) (data : Bytes)
    (flag : Bool) (scale : BitmapScale)
    (h : Call.WriteLabelFile path data flag scale ∈ (modeFolder w a).trace) :
    a.kfolder.present = true
    ∧ ¬ ((w.BLIsMountAPFS (mountPoint w a)).2 = true
        ∧ (w.blsustatfs 157 (mountPoint w a)).2.f_flags &&& MNT_RDONLY ≠ 0)
    ∧ (scale = BitmapScale.kBitmapScale_1x →
        (flag = true ↔ isOFLabel data (toInt32 data.length) = 1
          ∧ (w.BLIsMountHFS (mountPoint w a)).2 = true))
    ∧ (scale = BitmapScale.kBitmapScale_2x → flag = false) := by
  obtain ⟨e, cl, a2, he, h0, hcl, ha2, hmem⟩ :=
    modeFolder_mem_label w a (Call.WriteLabelFile path data flag scale) rfl h
  obtain ⟨hm, _⟩ := modeFolder_bootefi_entry w a e he h0
  obtain ⟨cH, cA, _, cS, _⟩ := modeFolder_classify_ok _ _ _ hcl
  rw [hm] at cH cA cS
  obtain ⟨arg, rfl⟩ := modeFolder_bootefi_frame _ _ _ _ _ ha2
  obtain ⟨km, hkm⟩ := extractMountPoint_frame w a e he
  have hfold : (modeFolder_guessFile w e.2).kfolder = a.kfolder := by
    rw [modeFolder_guessFile_eq, hkm]
  obtain ⟨f1, f2, f3, f4⟩ :=
    (Step.forall_iff _ _).1 (modeFolder_label_write w _ cl) _ hmem path data flag scale rfl
  simp only [] at f1
  rw [hfold] at f1
  rw [cA, cS] at f2
  rw [cH] at f3
  refine ⟨f1, ?_, ?_, f4⟩
  · rintro ⟨g1, g2⟩
    rcases f2 with f2 | f2
    · rw [g1] at f2
      cases f2
    · exact g2 f2
  · intro hs
    rw [f3 hs]
    rcases isOFLabel_eq data (toInt32 data.length) with h1 | h1 <;> simp [h1]

/-- C16, witness: `--folder /Volumes/X/System --label X` on an HFS+ volume: the rendered 1x
label is a valid Open Firmware label and is written with the flag, the 2x label without. -/
theorem C16_label_files_written_witness :
    Call.WriteLabelFile "/Volumes/X/System/.disk_label" [1, 0, 1, 0, 1, 7] true
        BitmapScale.kBitmapScale_1x ∈ (modeFolder quietWorld labelArgs).trace
    ∧ Call.WriteLabelFile "/Volumes/X/System/.disk_label_2x" [1, 0, 1, 0, 1, 7] false
        BitmapScale.kBitmapScale_2x ∈ (modeFolder quietWorld labelArgs).trace
    ∧ isOFLabel [1, 0, 1, 0, 1, 7] (toInt32 ([1, 0, 1, 0, 1, 7] : Bytes).length) = 1
    ∧ (quietWorld.BLIsMountHFS (mountPoint quietWorld labelArgs)).2 = true := by
  have h1 : Call.WriteLabelFile "/Volumes/X/System/.disk_label" [1, 0, 1, 0, 1, 7] true
      BitmapScale.kBitmapScale_1x ∈ (modeFolder quietWorld labelArgs).trace := by
    rw [quietWorld_labelArgs_trace]; simp
  have h2 : Call.WriteLabelFile "/Volumes/X/System/.disk_label_2x" [1, 0, 1, 0, 1, 7] false
      BitmapScale.kBitmapScale_2x ∈ (modeFolder quietWorld labelArgs).trace := by
    rw [quietWorld_labelArgs_trace]; simp
  obtain ⟨_, _, h3, _⟩ := C16_label_files_written quietWorld labelArgs _ _ _ _ h1
  obtain ⟨h4, h5⟩ := (h3 rfl).1 rfl
  exact ⟨h1, h2, h4, h5⟩

end Bless
